import Mathlib

/-!
# SceneManager.cpp: a shallow embedding

The scene manager of `Source/SceneManager.cpp` is embedded as pure functions.

* The trace of calls carries `float` arguments as real numbers (`ℝ`): an argument is the
  exact value of the expression the source evaluates, which is enough for which calls
  are made, in which order, and from which formula.
* Where a value depends on rounding (`rot_add`, `pos_from_data`, the image of a point
  under the model matrix) the same functions are embedded a second time over IEEE 754
  binary32, in `F32` and the namespace `Float32`: every operation is rounded to
  nearest, ties to even, and infinities and NaN are kept.
* The two external backends (the shader manager that receives uniform writes and
  the mesh object that receives draw calls) are modelled by the trace of calls
  made on them: every operation returns the list of `GLCall`s it issues, in order.
* `m_pShaderManager` is a pointer in the source; the model keeps whether it is
  non-NULL. A method that dereferences it without a guard returns `none` if it
  is NULL.
* `SceneManager.h` is not part of the sources: the capacity of the texture array
  and the default arguments of `LampPost` and `Bench` are parameters.
-/

/-! ## glm vectors and matrices -/

/-- The type `glm::vec2`. -/
structure Vec2 where
  x : ℝ
  y : ℝ

/-- The type `glm::vec3`. -/
@[ext] structure Vec3 where
  x : ℝ
  y : ℝ
  z : ℝ

/-- The type `glm::vec4` (`r g b a` are the same four slots). -/
structure Vec4 where
  x : ℝ
  y : ℝ
  z : ℝ
  w : ℝ

/-- The type `glm::mat4`, indexed row then column (glm stores columns; `M[c][r]` there is
`M r c` here). -/
abbrev Mat4 := Matrix (Fin 4) (Fin 4) ℝ

namespace Vec3

/-- Component-wise `operator+` of `glm::vec3`. -/
instance : Add Vec3 := ⟨fun a b => ⟨a.x + b.x, a.y + b.y, a.z + b.z⟩⟩

/-- The `operator*` of `glm::vec3` with a scalar on the right. -/
instance : HMul Vec3 ℝ Vec3 := ⟨fun a k => ⟨a.x * k, a.y * k, a.z * k⟩⟩

/-- The homogeneous column `(x, y, z, 1)` a model matrix is applied to. -/
def toPoint (p : Vec3) : Fin 4 → ℝ := ![p.x, p.y, p.z, 1]

end Vec3

/-- The function `glm::radians`: degrees to radians. -/
noncomputable def glm_radians (degrees : ℝ) : ℝ := degrees * (Real.pi / 180)

/-- The function `glm::dot` on `vec3`. -/
def glm_dot (a b : Vec3) : ℝ := a.x * b.x + a.y * b.y + a.z * b.z

/-- The function `glm::normalize` on `vec3`: `v * inversesqrt(dot(v, v))`. -/
noncomputable def glm_normalize (v : Vec3) : Vec3 := v * (1 / Real.sqrt (glm_dot v v))

/-- The function `glm::scale(v)`: the matrix with diagonal `(v.x, v.y, v.z, 1)`. -/
def glm_scale (v : Vec3) : Mat4 :=
  !![v.x, 0, 0, 0;
     0, v.y, 0, 0;
     0, 0, v.z, 0;
     0, 0, 0, 1]

/-- The function `glm::translate(v)`: the identity with `v` in the fourth column. -/
def glm_translate (v : Vec3) : Mat4 :=
  !![1, 0, 0, v.x;
     0, 1, 0, v.y;
     0, 0, 1, v.z;
     0, 0, 0, 1]

/-- The function `glm::rotate(angle, v)` (angle in radians): glm normalises the axis and
fills the upper 3x3 block from `c = cos angle`, `s = sin angle` and
`temp = (1 - c) * axis`. -/
noncomputable def glm_rotate (angle : ℝ) (v : Vec3) : Mat4 :=
  let c := Real.cos angle
  let s := Real.sin angle
  let axis := glm_normalize v
  let temp := axis * (1 - c)
  !![c + temp.x * axis.x, temp.y * axis.x - s * axis.z, temp.z * axis.x + s * axis.y, 0;
     temp.x * axis.y + s * axis.z, c + temp.y * axis.y, temp.z * axis.y - s * axis.x, 0;
     temp.x * axis.z - s * axis.y, temp.y * axis.z + s * axis.x, c + temp.z * axis.z, 0;
     0, 0, 0, 1]

/-! ## The backends, as a trace of calls -/

/-- One call on an external backend: a uniform setter of the shader manager (with the
uniform's name and the value written) or a draw method of the mesh object. -/
inductive GLCall where
  | setIntValue (name : String) (value : Int)
  | setBoolValue (name : String) (value : Bool)
  | setFloatValue (name : String) (value : ℝ)
  | setVec2Value (name : String) (value : Vec2)
  | setVec3Value (name : String) (value : Vec3)
  | setVec4Value (name : String) (value : Vec4)
  | setMat4Value (name : String) (value : Mat4)
  | setSampler2DValue (name : String) (value : Int)
  | DrawPlaneMesh
  | DrawCylinderMesh
  | DrawConeMesh
  | DrawSphereMesh
  | DrawCylinderMeshLines
  | DrawConeMeshLines

/-- The draw methods of the mesh object: four filled draws and two line-mode draws. -/
inductive DrawKind where
  | plane
  | cylinder
  | cone
  | sphere
  | cylinderLines
  | coneLines
  deriving DecidableEq, Repr

namespace GLCall

/-- Which draw a call is, if it is one. -/
def drawKind : GLCall → Option DrawKind
  | DrawPlaneMesh => some .plane
  | DrawCylinderMesh => some .cylinder
  | DrawConeMesh => some .cone
  | DrawSphereMesh => some .sphere
  | DrawCylinderMeshLines => some .cylinderLines
  | DrawConeMeshLines => some .coneLines
  | _ => none

/-- The value a call writes to the sampler uniform `name`, if it does. -/
def samplerValue (name : String) : GLCall → Option Int
  | setSampler2DValue n v => if n = name then some v else none
  | _ => none

/-- Whether a call is a uniform write (any setter of the shader manager). -/
def isUniformWrite : GLCall → Bool
  | DrawPlaneMesh | DrawCylinderMesh | DrawConeMesh | DrawSphereMesh
  | DrawCylinderMeshLines | DrawConeMeshLines => false
  | _ => true

end GLCall

/-- The draws of a trace, in order. -/
def draws (t : List GLCall) : List DrawKind := t.filterMap GLCall.drawKind

/-- How many draws of kind `k` a trace holds. -/
def drawCount (k : DrawKind) (t : List GLCall) : Nat := (draws t).count k

/-- The values a trace writes to the sampler uniform `name`, in order. -/
def samplerWrites (name : String) (t : List GLCall) : List Int :=
  t.filterMap (GLCall.samplerValue name)

/-! ## The scene manager's data -/

/-- The struct `TEXTURE_INFO`: a GL texture id and its tag. -/
structure TEXTURE_INFO where
  ID : Nat
  tag : String

/-- The struct `OBJECT_MATERIAL`, with the four fields the source file uses. -/
structure OBJECT_MATERIAL where
  diffuseColor : Vec3
  specularColor : Vec3
  shininess : ℝ
  tag : String

/-- The fields of `SceneManager` that the embedded methods read or write.
`m_textureIDs` holds the entries `0 .. m_loadedTextures - 1` of the source's array (the
others are never read), so `m_loadedTextures` is its length. `m_pShaderManager` is `true`
when the pointer is non-NULL. -/
structure SceneManager where
  m_pShaderManager : Bool
  m_textureIDs : List TEXTURE_INFO
  m_objectMaterials : List OBJECT_MATERIAL

/-- The uniform names declared at the top of the file. -/
def g_ModelName : String := "model"
def g_ColorValueName : String := "objectColor"
def g_TextureValueName : String := "objectTexture"
def g_UseTextureName : String := "bUseTexture"
def g_UseLightingName : String := "bUseLighting"

namespace SceneManager

/-- The counter `m_loadedTextures`. -/
def m_loadedTextures (s : SceneManager) : Nat := s.m_textureIDs.length

/-- The `while` loop of `FindTextureSlot`, from the state `(textureSlot, index, bFound)`:
a matching entry stores its index and sets `bFound` (which ends the loop at the next test),
any other entry advances `index`. -/
def FindTextureSlot_loop (s : SceneManager) (tag : String)
    (textureSlot : Int) (index : Nat) (bFound : Bool) : Int :=
  if h : index < s.m_loadedTextures ∧ bFound = false then
    if (s.m_textureIDs.get ⟨index, h.1⟩).tag = tag then
      FindTextureSlot_loop s tag (index : Int) index true
    else
      FindTextureSlot_loop s tag textureSlot (index + 1) bFound
  else
    textureSlot
termination_by 2 * (s.m_loadedTextures - index) + (if bFound = false then 1 else 0)
decreasing_by
  · simp [h.2]
  · simp only [h.2, if_true]
    have := h.1
    omega

/-- The method `FindTextureSlot`: the slot index of the first entry with the tag, `-1`
when the loop ends without a match. -/
def FindTextureSlot (s : SceneManager) (tag : String) : Int :=
  FindTextureSlot_loop s tag (-1) 0 false

/-- What `stbi_load` returns for a file it could decode. -/
structure Image where
  width : Int
  height : Int
  colorChannels : Int

/-- The method `CreateGLTexture`. `stbi_load` is the image decoder (`none` is its NULL
result), `textureID` the id `glGenTextures` hands out, and `capacity` the length of the
array `m_textureIDs`, which `SceneManager.h` declares. The result is the returned `bool`
and the manager afterwards; it is `none` when the entry would be stored outside the
array, which C++ leaves undefined. -/
def CreateGLTexture (capacity : Nat) (stbi_load : String → Option Image)
    (s : SceneManager) (filename : String) (textureID : Nat) (tag : String) :
    Option (Bool × SceneManager) :=
  match stbi_load filename with
  | some image =>
    if image.colorChannels = 3 ∨ image.colorChannels = 4 then
      if s.m_loadedTextures < capacity then
        some (true, { s with m_textureIDs := s.m_textureIDs ++ [⟨textureID, tag⟩] })
      else
        none
    else
      some (false, s)
  | none => some (false, s)

/-- One `CreateGLTexture` call: file name, generated texture id, tag. -/
structure TextureLoad where
  filename : String
  textureID : Nat
  tag : String

/-- A sequence of `CreateGLTexture` calls that all return `true`: the manager after the
last one, `none` as soon as one of them does not succeed. -/
def registerAll (capacity : Nat) (stbi_load : String → Option Image) :
    SceneManager → List TextureLoad → Option SceneManager
  | s, [] => some s
  | s, c :: rest =>
    match CreateGLTexture capacity stbi_load s c.filename c.textureID c.tag with
    | some (true, s1) => registerAll capacity stbi_load s1 rest
    | _ => none

/-- The `while` loop of `FindMaterial`, from the state `(index, bFound, material)`: a
matching entry sets `bFound` and copies its three attributes into `material`, any other
entry advances `index`. The result is `material` when the loop ends. -/
def FindMaterial_loop (s : SceneManager) (tag : String)
    (material : OBJECT_MATERIAL) (index : Nat) (bFound : Bool) : OBJECT_MATERIAL :=
  if h : index < s.m_objectMaterials.length ∧ bFound = false then
    if (s.m_objectMaterials.get ⟨index, h.1⟩).tag = tag then
      FindMaterial_loop s tag
        { material with
          diffuseColor := (s.m_objectMaterials.get ⟨index, h.1⟩).diffuseColor
          specularColor := (s.m_objectMaterials.get ⟨index, h.1⟩).specularColor
          shininess := (s.m_objectMaterials.get ⟨index, h.1⟩).shininess }
        index true
    else
      FindMaterial_loop s tag material (index + 1) bFound
  else
    material
termination_by 2 * (s.m_objectMaterials.length - index) + (if bFound = false then 1 else 0)
decreasing_by
  · simp [h.2]
  · simp only [h.2, if_true]
    have := h.1
    omega

/-- The method `FindMaterial`. `material` is the caller's object behind the reference
parameter; the result is the returned `bool` and that object afterwards. An empty list
returns `false`; otherwise the loop runs and the method ends in `return(true)`. -/
def FindMaterial (s : SceneManager) (tag : String) (material : OBJECT_MATERIAL) :
    Bool × OBJECT_MATERIAL :=
  if s.m_objectMaterials.length = 0 then
    (false, material)
  else
    (true, FindMaterial_loop s tag material 0 false)

/-- The method `SetTransformations`: one write of the uniform `model`, guarded by the
NULL test. The matrix written is the exact value of the product; `Float32.modelView` is
its binary32 value. -/
noncomputable def SetTransformations (s : SceneManager) (scaleXYZ : Vec3)
    (XrotationDegrees YrotationDegrees ZrotationDegrees : ℝ) (positionXYZ : Vec3) :
    List GLCall :=
  let scale := glm_scale scaleXYZ
  let rotationX := glm_rotate (glm_radians XrotationDegrees) ⟨1, 0, 0⟩
  let rotationY := glm_rotate (glm_radians YrotationDegrees) ⟨0, 1, 0⟩
  let rotationZ := glm_rotate (glm_radians ZrotationDegrees) ⟨0, 0, 1⟩
  let translation := glm_translate positionXYZ
  let modelView := translation * rotationZ * rotationY * rotationX * scale
  if s.m_pShaderManager then
    [GLCall.setMat4Value g_ModelName modelView]
  else
    []

/-- The method `SetShaderColor`: texturing off (`false` passed to `setIntValue`), then
the flat colour. -/
def SetShaderColor (s : SceneManager)
    (redColorValue greenColorValue blueColorValue alphaValue : ℝ) : List GLCall :=
  let currentColor : Vec4 := ⟨redColorValue, greenColorValue, blueColorValue, alphaValue⟩
  if s.m_pShaderManager then
    [GLCall.setIntValue g_UseTextureName 0, GLCall.setVec4Value g_ColorValueName currentColor]
  else
    []

/-- The method `SetShaderTexture`: texturing on (`true` passed to `setIntValue`), then the
sampler set to what `FindTextureSlot` returns. -/
def SetShaderTexture (s : SceneManager) (textureTag : String) : List GLCall :=
  if s.m_pShaderManager then
    let textureID := s.FindTextureSlot textureTag
    [GLCall.setIntValue g_UseTextureName 1,
     GLCall.setSampler2DValue g_TextureValueName textureID]
  else
    []

/-- The method `SetTextureUVScale`. -/
def SetTextureUVScale (s : SceneManager) (u v : ℝ) : List GLCall :=
  if s.m_pShaderManager then
    [GLCall.setVec2Value "UVscale" ⟨u, v⟩]
  else
    []

/-- The method `SetShaderMaterial`. Its local `material` is declared without an
initialiser, so its starting contents are the parameter `material`. The three writes go
through `m_pShaderManager` without a NULL test: `none` when the pointer is NULL there. -/
def SetShaderMaterial (s : SceneManager) (materialTag : String)
    (material : OBJECT_MATERIAL) : Option (List GLCall) :=
  if s.m_objectMaterials.length > 0 then
    let r := s.FindMaterial materialTag material
    let bReturn := r.1
    let material := r.2
    if bReturn = true then
      if s.m_pShaderManager then
        some [GLCall.setVec3Value "material.diffuseColor" material.diffuseColor,
              GLCall.setVec3Value "material.specularColor" material.specularColor,
              GLCall.setFloatValue "material.shininess" material.shininess]
      else
        none
    else
      some []
  else
    some []

/-- The method `DefineObjectMaterials`: appends the material tagged `plastic`. -/
noncomputable def DefineObjectMaterials (s : SceneManager) : SceneManager :=
  let plasticMaterial : OBJECT_MATERIAL :=
    { diffuseColor := ⟨0.8, 0.4, 0.8⟩
      specularColor := ⟨0.2, 0.2, 0.2⟩
      shininess := 2.0
      tag := "plastic" }
  { s with m_objectMaterials := s.m_objectMaterials ++ [plasticMaterial] }

end SceneManager

/-! ## Helper functions for the recursive transformation math -/

/-- The function `pos_from_data`, in exact arithmetic: the value `Branch` passes on as a
position. `Float32.pos_from_data` is the same function in binary32. -/
noncomputable def pos_from_data (prev rot : Vec3) (scale : ℝ) : Vec3 :=
  ⟨prev.x + (-Real.sin (glm_radians rot.z)) * scale,
   prev.y + (Real.cos (glm_radians rot.z)) * scale,
   prev.z⟩

/-- Each `while` loop of `rot_add`, in exact arithmetic:
`while (x >= 360.0f) { x -= 360.0f; }`, returning the final `x`.
`Float32.rot_add_loop` is the same loop in binary32, where it need not end. -/
noncomputable def rot_add_loop (x : ℝ) : ℝ :=
  if 360 ≤ x then rot_add_loop (x - 360) else x
termination_by ⌊x / 360⌋.toNat
decreasing_by
  have h1 : (x - 360) / 360 = x / 360 - 1 := by ring
  have h2 : (1 : ℤ) ≤ ⌊x / 360⌋ := by
    apply Int.le_floor.mpr
    rw [le_div_iff₀ (by norm_num)]
    simpa using ‹360 ≤ x›
  rw [h1, Int.floor_sub_one]
  omega

/-- The function `rot_add`, in exact arithmetic: the value `Branch` passes on as an
orientation. `Float32.rot_add` is the same function in binary32. -/
noncomputable def rot_add (one two : Vec3) : Vec3 :=
  let x := rot_add_loop (one.x + two.x)
  let y := rot_add_loop (one.y + two.y)
  let z := rot_add_loop (one.z + two.z)
  ⟨x, y, z⟩

/-- The default arguments that `SceneManager.h` declares for `LampPost` and `Bench`; the
header is not part of the sources. -/
structure Defaults where
  use_lines : Bool
  facing_right : Bool

namespace SceneManager

/-- The method `LampPost`. -/
noncomputable def LampPost (s : SceneManager) (translation : Vec3) (use_lines : Bool) :
    List GLCall :=
  let color : Vec4 := ⟨0, 0, 0, 1⟩
  let line_color : Vec4 := ⟨0, 1, 1, 1⟩
  s.SetShaderColor color.x color.y color.z color.w
  ++ s.SetTransformations ⟨0.5, 10, 0.5⟩ 0 0 0 translation
  ++ [GLCall.DrawCylinderMesh]
  ++ (if use_lines then
        s.SetShaderColor line_color.x line_color.y line_color.z line_color.w
        ++ [GLCall.DrawCylinderMeshLines]
        ++ s.SetShaderColor color.x color.y color.z color.w
      else [])
  ++ s.SetTransformations ⟨1, 1, 1⟩ 0 0 0 (translation + ⟨0, 12, 0⟩)
  ++ [GLCall.DrawConeMesh]
  ++ (if use_lines then
        s.SetShaderColor line_color.x line_color.y line_color.z line_color.w
        ++ [GLCall.DrawConeMeshLines]
      else [])
  ++ s.SetTransformations ⟨1, 4, 1⟩ 180 0 0 (translation + ⟨0, 12, 0⟩)
  ++ s.SetShaderTexture "lamp_glass"
  ++ [GLCall.DrawConeMesh]
  ++ (if use_lines then
        s.SetShaderColor line_color.x line_color.y line_color.z line_color.w
        ++ [GLCall.DrawConeMeshLines]
      else [])

/-- The method `Bench`. -/
noncomputable def Bench (s : SceneManager) (pos : Vec3) (facing_right : Bool) :
    List GLCall :=
  let facing : ℝ := if facing_right then 180 else 0
  s.SetShaderTexture "bench_body"
  ++ s.SetTransformations ⟨1, 1, 2⟩ 0 0 0 (pos + ⟨0.1, 1.7, 0⟩)
  ++ [GLCall.DrawPlaneMesh]
  ++ s.SetTransformations ⟨1, 1, 2⟩ 0 facing 90
       (pos + ⟨1.7 * (if facing_right then -1 else 1), 3, 0⟩)
  ++ [GLCall.DrawPlaneMesh]
  ++ s.SetShaderTexture "bench_struct"
  ++ s.SetTransformations ⟨2, 2, 2⟩ 90 facing 0 (pos + ⟨0, 2, -2⟩)
  ++ [GLCall.DrawPlaneMesh]
  ++ s.SetTransformations ⟨2, 2, 2⟩ 90 facing 0 (pos + ⟨0, 2, 2⟩)
  ++ [GLCall.DrawPlaneMesh]

/-- The method `Fence`. -/
noncomputable def Fence (s : SceneManager) (pos : Vec3) : List GLCall :=
  s.SetShaderTexture "fence_support"
  ++ s.SetTransformations ⟨1, 2, 2⟩ 90 0 0 (pos + ⟨0, 2, -2⟩)
  ++ [GLCall.DrawPlaneMesh]
  ++ s.SetShaderTexture "fence_bars"
  ++ s.SetTransformations ⟨2, 2, 2⟩ 90 90 0 (pos + ⟨0, 2, 0⟩)
  ++ [GLCall.DrawPlaneMesh]
  ++ s.SetShaderTexture "fence_support"
  ++ s.SetTransformations ⟨1, 2, 2⟩ 90 0 0 (pos + ⟨0, 2, 2⟩)
  ++ [GLCall.DrawPlaneMesh]

/-- The method `Branch`, with `recursions_left` an `int`. -/
noncomputable def Branch (s : SceneManager) (base rot : Vec3) (recursions_left : Int) :
    List GLCall :=
  if recursions_left ≤ 0 then
    []
  else
    let base_scale : Vec3 := ⟨1, 20, -1⟩
    let step_rot := rot_add rot ⟨0, 0, 15⟩
    let scaling : ℝ := recursions_left * 0.2
    s.SetShaderTexture "wood"
    ++ s.SetTransformations (base_scale * scaling) rot.x rot.y rot.z base
    ++ [GLCall.DrawCylinderMesh]
    ++ s.SetTransformations (base_scale * scaling) step_rot.x step_rot.y step_rot.z
         (pos_from_data base rot (base_scale.y * scaling * 0.95))
    ++ [GLCall.DrawCylinderMesh]
    ++ Branch s (pos_from_data base rot (base_scale.y * scaling * 0.5))
         (rot_add rot ⟨0, 0, 30⟩) (recursions_left - 1)
    ++ Branch s (pos_from_data base rot (base_scale.y * scaling * 0.75))
         (rot_add rot ⟨0, 0, -30⟩) (recursions_left - 1)
termination_by recursions_left.toNat
decreasing_by all_goals omega

/-- The method `Tree`. -/
noncomputable def Tree (s : SceneManager) (pos : Vec3) (angle : ℝ) : List GLCall :=
  s.Branch pos ⟨0, angle, 0⟩ 4

/-- The method `RenderScene`. A counting `for` loop is the concatenation of its body's
traces over the values of `i` in the order the loop visits them. `d` holds the default
arguments of the one-argument calls of `LampPost` and `Bench`; `material` is the starting
content of the local of `SetShaderMaterial`. -/
noncomputable def RenderScene (d : Defaults) (s : SceneManager) (material : OBJECT_MATERIAL) :
    Option (List GLCall) :=
  let scaleXYZ : Vec3 := ⟨100, 1, 200⟩
  let XrotationDegrees : ℝ := 0
  let YrotationDegrees : ℝ := 0
  let ZrotationDegrees : ℝ := 0
  let positionXYZ : Vec3 := ⟨0, 0, 0⟩
  match s.SetShaderMaterial "plastic" material with
  | none => none
  | some materialWrites =>
    some (
      s.SetTransformations scaleXYZ XrotationDegrees YrotationDegrees ZrotationDegrees
        positionXYZ
      ++ s.SetShaderTexture "ground_1"
      ++ materialWrites
      ++ [GLCall.DrawPlaneMesh]
      ++ s.SetShaderTexture "ground_2"
      ++ s.SetTransformations (scaleXYZ * (0.4 : ℝ)) XrotationDegrees YrotationDegrees
           ZrotationDegrees (positionXYZ + ⟨0, 0.01, -70⟩)
      ++ [GLCall.DrawPlaneMesh]
      -- hill
      ++ s.SetTransformations ⟨30, 30, 30⟩ 0 180 90 ⟨0, -20, -200⟩
      ++ s.SetShaderTexture "ground_1"
      ++ [GLCall.DrawSphereMesh]
      -- trees
      ++ s.Tree ⟨0, 10, -200⟩ 0
      ++ (List.range 5).flatMap (fun i =>
           s.Tree ⟨-25, 0, -40 - 40 * (i : ℝ)⟩ 0
           ++ s.Tree ⟨-60, 0, -60 - 36 * (i : ℝ)⟩ 0
           ++ s.Tree ⟨25, 0, -30 - 50 * (i : ℝ)⟩ 0
           ++ s.Tree ⟨60, 0, -50 - 44 * (i : ℝ)⟩ 0)
      -- right row of lamp posts
      ++ (List.range 9).flatMap (fun i =>
           s.LampPost ⟨22, 0, -12 - 20 * (i : ℝ)⟩ d.use_lines)
      -- left row of lamp posts
      ++ (List.range 9).flatMap (fun i =>
           s.LampPost ⟨-22, 0, -16 - 20 * (i : ℝ)⟩ d.use_lines)
      -- right and left side fences
      ++ (List.range 31).reverse.flatMap (fun i =>
           s.Fence ⟨20, 0, -4 * (i : ℝ)⟩
           ++ s.Fence ⟨-20, 0, -4 * (i : ℝ)⟩)
      -- right side benches
      ++ (List.range 6).reverse.flatMap (fun i =>
           (List.range 5).reverse.flatMap (fun j =>
             s.Bench ⟨17, 0, -17 - 4 * (j : ℝ) - 30 * (i : ℝ)⟩ d.facing_right))
      -- left side benches
      ++ (List.range 6).reverse.flatMap (fun i =>
           (List.range 5).reverse.flatMap (fun j =>
             s.Bench ⟨-17, 0, -10 - 4 * (j : ℝ) - 30 * (i : ℝ)⟩ true))
      -- leaves
      ++ (List.range 8).flatMap (fun i =>
           s.SetShaderTexture "ground_2"
           ++ s.SetTransformations ⟨150, 1, 100⟩ (-90) 0 180
                ⟨(i : ℝ) * 10 * Real.cos ((i : ℝ) * 95), 100, -200 + 30 * (i : ℝ)⟩
           ++ [GLCall.DrawPlaneMesh]))

end SceneManager

/-! ## The transform order in the specification's words

The rotation matrices about the coordinate axes (angle in degrees), and the same steps as
maps on points, against which the matrix built by `SetTransformations` is compared. -/

/-- Rotation about the X axis by `degrees`. -/
noncomputable def RotationX (degrees : ℝ) : Mat4 :=
  !![1, 0, 0, 0;
     0, Real.cos (glm_radians degrees), -Real.sin (glm_radians degrees), 0;
     0, Real.sin (glm_radians degrees), Real.cos (glm_radians degrees), 0;
     0, 0, 0, 1]

/-- Rotation about the Y axis by `degrees`. -/
noncomputable def RotationY (degrees : ℝ) : Mat4 :=
  !![Real.cos (glm_radians degrees), 0, Real.sin (glm_radians degrees), 0;
     0, 1, 0, 0;
     -Real.sin (glm_radians degrees), 0, Real.cos (glm_radians degrees), 0;
     0, 0, 0, 1]

/-- Rotation about the Z axis by `degrees`. -/
noncomputable def RotationZ (degrees : ℝ) : Mat4 :=
  !![Real.cos (glm_radians degrees), -Real.sin (glm_radians degrees), 0, 0;
     Real.sin (glm_radians degrees), Real.cos (glm_radians degrees), 0, 0;
     0, 0, 1, 0;
     0, 0, 0, 1]

/-- A point scaled component-wise by `S`. -/
def scalePoint (S p : Vec3) : Vec3 := ⟨S.x * p.x, S.y * p.y, S.z * p.z⟩

/-- A point rotated about the X axis by `degrees`. -/
noncomputable def rotatePointX (degrees : ℝ) (p : Vec3) : Vec3 :=
  ⟨p.x,
   Real.cos (glm_radians degrees) * p.y - Real.sin (glm_radians degrees) * p.z,
   Real.sin (glm_radians degrees) * p.y + Real.cos (glm_radians degrees) * p.z⟩

/-- A point rotated about the Y axis by `degrees`. -/
noncomputable def rotatePointY (degrees : ℝ) (p : Vec3) : Vec3 :=
  ⟨Real.cos (glm_radians degrees) * p.x + Real.sin (glm_radians degrees) * p.z,
   p.y,
   -Real.sin (glm_radians degrees) * p.x + Real.cos (glm_radians degrees) * p.z⟩

/-- A point rotated about the Z axis by `degrees`. -/
noncomputable def rotatePointZ (degrees : ℝ) (p : Vec3) : Vec3 :=
  ⟨Real.cos (glm_radians degrees) * p.x - Real.sin (glm_radians degrees) * p.y,
   Real.sin (glm_radians degrees) * p.x + Real.cos (glm_radians degrees) * p.y,
   p.z⟩

/-- A point moved by `T`. -/
def translatePoint (T p : Vec3) : Vec3 := ⟨p.x + T.x, p.y + T.y, p.z + T.z⟩

/-! ## The scene layout in the specification's words -/

/-- Every value a trace writes to the sampler uniform `objectTexture` is the not-found
sentinel `-1`. -/
def SamplersUnresolved (t : List GLCall) : Prop :=
  ∀ v ∈ samplerWrites g_TextureValueName t, v = -1

/-- The draws of one lamp post: post, cap and glass cone, each followed by its line-mode
draw when lines are on. -/
def lampPostDraws (use_lines : Bool) : List DrawKind :=
  if use_lines then
    [.cylinder, .cylinderLines, .cone, .coneLines, .cone, .coneLines]
  else
    [.cylinder, .cone, .cone]

/-- The draws of the whole scene: 2 ground planes and the hill sphere, 21 trees of 30
cylinders, 18 lamp posts, 62 fences of 3 planes, 60 benches of 4 planes, 8 leaf planes. -/
def sceneDraws (use_lines : Bool) : List DrawKind :=
  [.plane, .plane, .sphere]
  ++ (List.replicate 21 (List.replicate 30 DrawKind.cylinder)).flatten
  ++ (List.replicate 18 (lampPostDraws use_lines)).flatten
  ++ (List.replicate 62 (List.replicate 3 DrawKind.plane)).flatten
  ++ (List.replicate 60 (List.replicate 4 DrawKind.plane)).flatten
  ++ List.replicate 8 DrawKind.plane

/-! ## The state a draw is issued in

A quantity is tracked along a trace by saying which calls set it (`track`); `drawsWith`
lists the draws of the trace, each with the value the quantity has when the draw is
issued. -/

/-- The value of the tracked quantity after call `c`, when it was `cur` before. -/
def valueStep {α : Type} (track : GLCall → Option α) (cur : Option α) (c : GLCall) :
    Option α :=
  match track c with
  | some v => some v
  | none => cur

/-- The value of the tracked quantity after a trace that starts with value `cur`. -/
def valueAfter {α : Type} (track : GLCall → Option α) : Option α → List GLCall → Option α
  | cur, [] => cur
  | cur, c :: t => valueAfter track (valueStep track cur c) t

/-- The draws of a trace that starts with value `cur`, each with the value of the tracked
quantity at the moment it is issued. -/
def drawsWith {α : Type} (track : GLCall → Option α) :
    Option α → List GLCall → List (DrawKind × Option α)
  | _, [] => []
  | cur, c :: t =>
    match c.drawKind with
    | some k => (k, cur) :: drawsWith track (valueStep track cur c) t
    | none => drawsWith track (valueStep track cur c) t

namespace GLCall

/-- The matrix a call writes to the uniform `model` (what `SetTransformations` does). -/
def modelValue : GLCall → Option Mat4
  | setMat4Value n m => if n = g_ModelName then some m else none
  | _ => none

/-- The colour a call writes to the uniform `objectColor`. -/
def colorValue : GLCall → Option Vec4
  | setVec4Value n v => if n = g_ColorValueName then some v else none
  | _ => none

/-- The value a call writes to the uniform `bUseTexture`. -/
def useTextureValue : GLCall → Option Int
  | setIntValue n v => if n = g_UseTextureName then some v else none
  | _ => none

/-- Tracks whether `SetShaderColor`, `SetShaderTexture` or `SetShaderMaterial` has written
a uniform since the last upload of `SetTransformations`: the upload of `model` sets the
flag to `false`, a write of `bUseTexture`, `objectColor`, `objectTexture` or of one of the
three material uniforms sets it to `true`. -/
def shadedValue : GLCall → Option Bool
  | setMat4Value n _ => if n = g_ModelName then some false else none
  | setIntValue n _ => if n = g_UseTextureName then some true else none
  | setVec4Value n _ => if n = g_ColorValueName then some true else none
  | setSampler2DValue n _ => if n = g_TextureValueName then some true else none
  | setVec3Value n _ =>
    if n = "material.diffuseColor" ∨ n = "material.specularColor" then some true else none
  | setFloatValue n _ => if n = "material.shininess" then some true else none
  | _ => none

end GLCall

/-- Whether a draw is a line-mode draw. -/
def DrawKind.isLines : DrawKind → Bool
  | .cylinderLines | .coneLines => true
  | _ => false

/-- The translation a model matrix applies: its fourth column. -/
def translationOf (m : Mat4) : Vec3 := ⟨m 0 3, m 1 3, m 2 3⟩

/-- The matrix `T * Rz * Ry * Rx * S` for the arguments of `SetTransformations`. -/
noncomputable def modelMatrix (S : Vec3) (rx ry rz : ℝ) (T : Vec3) : Mat4 :=
  glm_translate T * RotationZ rz * RotationY ry * RotationX rx * glm_scale S

/-! ## Parts of the scene, for stating where a draw sits -/

namespace SceneManager

/-- The first part of `RenderScene`: the two ground planes and the hill. `materialWrites`
is what its call of `SetShaderMaterial` issues. -/
noncomputable def groundCalls (s : SceneManager) (materialWrites : List GLCall) :
    List GLCall :=
  s.SetTransformations ⟨100, 1, 200⟩ 0 0 0 ⟨0, 0, 0⟩
  ++ s.SetShaderTexture "ground_1"
  ++ materialWrites
  ++ [GLCall.DrawPlaneMesh]
  ++ s.SetShaderTexture "ground_2"
  ++ s.SetTransformations ((⟨100, 1, 200⟩ : Vec3) * (0.4 : ℝ)) 0 0 0
       ((⟨0, 0, 0⟩ : Vec3) + ⟨0, 0.01, -70⟩)
  ++ [GLCall.DrawPlaneMesh]
  ++ s.SetTransformations ⟨30, 30, 30⟩ 0 180 90 ⟨0, -20, -200⟩
  ++ s.SetShaderTexture "ground_1"
  ++ [GLCall.DrawSphereMesh]

/-- The last part of `RenderScene`: the loop that draws the 8 leaf planes. -/
noncomputable def leafCalls (s : SceneManager) : List GLCall :=
  (List.range 8).flatMap (fun i =>
    s.SetShaderTexture "ground_2"
    ++ s.SetTransformations ⟨150, 1, 100⟩ (-90) 0 180
         ⟨(i : ℝ) * 10 * Real.cos ((i : ℝ) * 95), 100, -200 + 30 * (i : ℝ)⟩
    ++ [GLCall.DrawPlaneMesh])

end SceneManager

/-- The draws of one lamp post, each with whether a `SetShaderColor`, `SetShaderTexture` or
`SetShaderMaterial` write came after the last `SetTransformations` upload: the post and the
cap are drawn straight after their upload, the glass cone after `SetShaderTexture`, every
line-mode draw after `SetShaderColor`. -/
def lampPostShaded (use_lines : Bool) : List (DrawKind × Option Bool) :=
  if use_lines then
    [(.cylinder, some false), (.cylinderLines, some true), (.cone, some false),
     (.coneLines, some true), (.cone, some true), (.coneLines, some true)]
  else
    [(.cylinder, some false), (.cone, some false), (.cone, some true)]

/-- The draws of the whole scene with the same flag: the first ground plane and the hill
are drawn after `SetShaderTexture`, the second ground plane, the trees, fences, benches and
leaves straight after their upload. -/
def sceneShaded (use_lines : Bool) : List (DrawKind × Option Bool) :=
  [(.plane, some true), (.plane, some false), (.sphere, some true)]
  ++ (List.replicate 21 (List.replicate 30 (DrawKind.cylinder, some false))).flatten
  ++ (List.replicate 18 (lampPostShaded use_lines)).flatten
  ++ (List.replicate 62 (List.replicate 3 (DrawKind.plane, some false))).flatten
  ++ (List.replicate 60 (List.replicate 4 (DrawKind.plane, some false))).flatten
  ++ List.replicate 8 (DrawKind.plane, some false)

/-! ## Binary32 arithmetic

The `float` of the source is IEEE 754 binary32. The claims whose stated values depend on
rounding are settled over the model below: every operation is computed exactly and then
rounded to the nearest binary32 value, ties to even, one operation at a time (no fused
multiply-add). The two zeros are one value; infinities and NaN are kept. -/

/-- A binary32 value: a finite one (held as the rational it denotes, `+0` and `-0` being
the same value), an infinity, or NaN. -/
inductive F32 where
  | fin (q : ℚ)
  | posInf
  | negInf
  | nan

namespace F32

/-- The integer nearest to `x`, the even one of the two when `x` lies midway. -/
def roundEven {K : Type} [LinearOrderedField K] [FloorRing K] (x : K) : ℤ :=
  if x - ⌊x⌋ < 1 / 2 then ⌊x⌋
  else if 1 / 2 < x - ⌊x⌋ then ⌊x⌋ + 1
  else if ⌊x⌋ % 2 = 0 then ⌊x⌋ else ⌊x⌋ + 1

/-- The exponent of the unit in the last place at `x`: 24 significant bits, so 23 below the
binade of `x`, and never below the subnormal spacing `2^-149`. -/
def ulpExp {K : Type} [LinearOrderedField K] [FloorRing K] (x : K) : ℤ :=
  max (Int.log 2 |x| - 23) (-149)

/-- Rounding to binary32, to nearest with ties to even: `x` is rounded to a multiple of its
unit in the last place, and a result of magnitude `2^128` or more is an infinity. -/
def rnd {K : Type} [LinearOrderedField K] [FloorRing K] (x : K) : F32 :=
  let r : ℚ := (roundEven (x / (2 : K) ^ ulpExp x) : ℚ) * (2 : ℚ) ^ ulpExp x
  if (2 : ℚ) ^ (128 : ℕ) ≤ |r| then (if 0 < x then posInf else negInf) else fin r

/-- The rationals that are binary32 values: `m * 2^e` with `|m| < 2^24`, `e >= -149`, and
magnitude below `2^128`. -/
def IsF32 (q : ℚ) : Prop :=
  ∃ (m : ℤ) (k : ℕ), |m| < 2 ^ 24 ∧ q = (m : ℚ) * 2 ^ k / 2 ^ 149 ∧ |q| < 2 ^ 128

/-- Unary minus. -/
def neg : F32 → F32
  | fin q => fin (-q)
  | posInf => negInf
  | negInf => posInf
  | nan => nan

/-- The `operator+` of `float`. -/
def add : F32 → F32 → F32
  | fin a, fin b => rnd (a + b)
  | fin _, posInf => posInf
  | fin _, negInf => negInf
  | posInf, fin _ => posInf
  | posInf, posInf => posInf
  | posInf, negInf => nan
  | negInf, fin _ => negInf
  | negInf, negInf => negInf
  | negInf, posInf => nan
  | nan, _ => nan
  | _, nan => nan

/-- The `operator-` of `float`. -/
def sub (a b : F32) : F32 := add a (neg b)

/-- The `operator*` of `float`. -/
def mul : F32 → F32 → F32
  | fin a, fin b => rnd (a * b)
  | fin a, posInf => if a = 0 then nan else if 0 < a then posInf else negInf
  | fin a, negInf => if a = 0 then nan else if 0 < a then negInf else posInf
  | posInf, fin b => if b = 0 then nan else if 0 < b then posInf else negInf
  | negInf, fin b => if b = 0 then nan else if 0 < b then negInf else posInf
  | posInf, posInf => posInf
  | posInf, negInf => negInf
  | negInf, posInf => negInf
  | negInf, negInf => posInf
  | nan, _ => nan
  | _, nan => nan

/-- The `operator/` of `float`. The sign of a zero is not kept, so a zero divisor counts as
`+0`; the only division here is `1 / sqrt(dot(v, v))` in `glm::normalize`, whose divisor is
never `-0`. -/
def div : F32 → F32 → F32
  | fin a, fin b =>
    if b = 0 then (if a = 0 then nan else if 0 < a then posInf else negInf) else rnd (a / b)
  | fin _, posInf => fin 0
  | fin _, negInf => fin 0
  | posInf, fin b => if 0 ≤ b then posInf else negInf
  | negInf, fin b => if 0 ≤ b then negInf else posInf
  | _, _ => nan

/-- The comparison `a >= b`; it is false when either side is NaN. -/
def ge : F32 → F32 → Bool
  | fin a, fin b => decide (b ≤ a)
  | posInf, fin _ => true
  | posInf, posInf => true
  | posInf, negInf => true
  | fin _, negInf => true
  | negInf, negInf => true
  | _, _ => false

/-- The function `sin` on `float`, taken to return the binary32 value nearest to the exact
sine (the C library is not part of the sources). -/
noncomputable def sin : F32 → F32
  | fin q => rnd (Real.sin (q : ℝ))
  | _ => nan

/-- The function `cos` on `float`, taken to return the binary32 value nearest to the exact
cosine (the C library is not part of the sources). -/
noncomputable def cos : F32 → F32
  | fin q => rnd (Real.cos (q : ℝ))
  | _ => nan

/-- The function `sqrt` on `float`, which IEEE 754 rounds correctly. -/
noncomputable def sqrt : F32 → F32
  | fin q => if q < 0 then nan else rnd (Real.sqrt (q : ℝ))
  | posInf => posInf
  | negInf => nan
  | nan => nan

end F32

namespace Float32

/-- The type `glm::vec3`, with binary32 components. -/
structure Vec3 where
  x : F32
  y : F32
  z : F32

/-- The type `glm::vec4`, with binary32 components. -/
structure Vec4 where
  x : F32
  y : F32
  z : F32
  w : F32

/-- The type `glm::mat4`, stored by columns as glm does: `c0` is `m[0]`. -/
structure Mat4 where
  c0 : Vec4
  c1 : Vec4
  c2 : Vec4
  c3 : Vec4

namespace Vec3

/-- The `operator*` of `glm::vec3` with a scalar. -/
def scale (v : Vec3) (k : F32) : Vec3 := ⟨F32.mul v.x k, F32.mul v.y k, F32.mul v.z k⟩

end Vec3

namespace Vec4

/-- The `operator*` of `glm::vec4` with a scalar. -/
def scale (v : Vec4) (k : F32) : Vec4 :=
  ⟨F32.mul v.x k, F32.mul v.y k, F32.mul v.z k, F32.mul v.w k⟩

/-- Component-wise `operator+` of `glm::vec4`. -/
def add (a b : Vec4) : Vec4 :=
  ⟨F32.add a.x b.x, F32.add a.y b.y, F32.add a.z b.z, F32.add a.w b.w⟩

end Vec4

/-- The function `glm::radians`: `degrees * 0.01745329251994329576923690768489`, the
constant converted to `float`. -/
def glm_radians (degrees : F32) : F32 :=
  F32.mul degrees (F32.rnd (0.01745329251994329576923690768489 : ℚ))

/-- The function `glm::dot` on `vec3`: the three products, summed left to right. -/
def glm_dot (a b : Vec3) : F32 :=
  F32.add (F32.add (F32.mul a.x b.x) (F32.mul a.y b.y)) (F32.mul a.z b.z)

/-- The function `glm::normalize` on `vec3`: `v * inversesqrt(dot(v, v))`, the inverse square
root being `1 / sqrt(x)`. -/
noncomputable def glm_normalize (v : Vec3) : Vec3 :=
  v.scale (F32.div (F32.fin 1) (F32.sqrt (glm_dot v v)))

/-- The matrix `glm::mat4(1.0f)`. -/
def identity : Mat4 :=
  ⟨⟨F32.fin 1, F32.fin 0, F32.fin 0, F32.fin 0⟩, ⟨F32.fin 0, F32.fin 1, F32.fin 0, F32.fin 0⟩,
   ⟨F32.fin 0, F32.fin 0, F32.fin 1, F32.fin 0⟩, ⟨F32.fin 0, F32.fin 0, F32.fin 0, F32.fin 1⟩⟩

/-- The function `glm::scale(v)`, which is `scale(mat4(1.0f), v)`: the first three columns of
the identity, each times a component of `v`. -/
def glm_scale (v : Vec3) : Mat4 :=
  ⟨identity.c0.scale v.x, identity.c1.scale v.y, identity.c2.scale v.z, identity.c3⟩

/-- The function `glm::translate(v)`, which is `translate(mat4(1.0f), v)`: the fourth column
becomes `m[0] * v[0] + m[1] * v[1] + m[2] * v[2] + m[3]`. -/
def glm_translate (v : Vec3) : Mat4 :=
  ⟨identity.c0, identity.c1, identity.c2,
   (((identity.c0.scale v.x).add (identity.c1.scale v.y)).add (identity.c2.scale v.z)).add
     identity.c3⟩

/-- The function `glm::rotate(angle, v)`, which is `rotate(mat4(1.0f), angle, v)`: the nine
entries `Rotate[i][j]` from `c`, `s`, the normalised axis and `temp = (1 - c) * axis`, then
`Result[i] = m[0] * Rotate[i][0] + m[1] * Rotate[i][1] + m[2] * Rotate[i][2]`. -/
noncomputable def glm_rotate (angle : F32) (v : Vec3) : Mat4 :=
  let c := F32.cos angle
  let s := F32.sin angle
  let axis := glm_normalize v
  let temp : Vec3 := axis.scale (F32.sub (F32.fin 1) c)
  let r00 := F32.add c (F32.mul temp.x axis.x)
  let r01 := F32.add (F32.mul temp.x axis.y) (F32.mul s axis.z)
  let r02 := F32.sub (F32.mul temp.x axis.z) (F32.mul s axis.y)
  let r10 := F32.sub (F32.mul temp.y axis.x) (F32.mul s axis.z)
  let r11 := F32.add c (F32.mul temp.y axis.y)
  let r12 := F32.add (F32.mul temp.y axis.z) (F32.mul s axis.x)
  let r20 := F32.add (F32.mul temp.z axis.x) (F32.mul s axis.y)
  let r21 := F32.sub (F32.mul temp.z axis.y) (F32.mul s axis.x)
  let r22 := F32.add c (F32.mul temp.z axis.z)
  ⟨((identity.c0.scale r00).add (identity.c1.scale r01)).add (identity.c2.scale r02),
   ((identity.c0.scale r10).add (identity.c1.scale r11)).add (identity.c2.scale r12),
   ((identity.c0.scale r20).add (identity.c1.scale r21)).add (identity.c2.scale r22),
   identity.c3⟩

namespace Mat4

/-- One column of a matrix product: `a[0] * b[0] + a[1] * b[1] + a[2] * b[2] + a[3] * b[3]`
for the column `b` of the right factor, summed left to right. -/
def mulColumn (a : Mat4) (b : Vec4) : Vec4 :=
  (((a.c0.scale b.x).add (a.c1.scale b.y)).add (a.c2.scale b.z)).add (a.c3.scale b.w)

/-- The `operator*` of `glm::mat4`, column by column. -/
def mul (a b : Mat4) : Mat4 :=
  ⟨a.mulColumn b.c0, a.mulColumn b.c1, a.mulColumn b.c2, a.mulColumn b.c3⟩

/-- The `operator*` of `glm::mat4` with a `glm::vec4` on the right, which is how a model
matrix is applied to a point `(x, y, z, 1)`:
`(m[0] * v[0] + m[1] * v[1]) + (m[2] * v[2] + m[3] * v[3])`. -/
def mulVec (m : Mat4) (v : Vec4) : Vec4 :=
  ((m.c0.scale v.x).add (m.c1.scale v.y)).add ((m.c2.scale v.z).add (m.c3.scale v.w))

end Mat4

/-- The matrix `modelView` that `SetTransformations` computes and uploads as `model`, in
binary32. -/
noncomputable def modelView (scaleXYZ : Vec3)
    (XrotationDegrees YrotationDegrees ZrotationDegrees : F32) (positionXYZ : Vec3) : Mat4 :=
  let scale := glm_scale scaleXYZ
  let rotationX := glm_rotate (glm_radians XrotationDegrees) ⟨F32.fin 1, F32.fin 0, F32.fin 0⟩
  let rotationY := glm_rotate (glm_radians YrotationDegrees) ⟨F32.fin 0, F32.fin 1, F32.fin 0⟩
  let rotationZ := glm_rotate (glm_radians ZrotationDegrees) ⟨F32.fin 0, F32.fin 0, F32.fin 1⟩
  let translation := glm_translate positionXYZ
  (((translation.mul rotationZ).mul rotationY).mul rotationX).mul scale

/-- The method `SetTransformations` in binary32, as the uniform writes it makes (name and
matrix): one write of `model`, guarded by the NULL test. -/
noncomputable def SetTransformations (s : SceneManager) (scaleXYZ : Vec3)
    (XrotationDegrees YrotationDegrees ZrotationDegrees : F32) (positionXYZ : Vec3) :
    List (String × Mat4) :=
  if s.m_pShaderManager then
    [(g_ModelName,
      modelView scaleXYZ XrotationDegrees YrotationDegrees ZrotationDegrees positionXYZ)]
  else
    []

/-- The same product with the three rotations in the opposite order, `Rx * Ry * Rz`; the
source never forms it. -/
noncomputable def modelViewReversed (scaleXYZ : Vec3)
    (XrotationDegrees YrotationDegrees ZrotationDegrees : F32) (positionXYZ : Vec3) : Mat4 :=
  let scale := glm_scale scaleXYZ
  let rotationX := glm_rotate (glm_radians XrotationDegrees) ⟨F32.fin 1, F32.fin 0, F32.fin 0⟩
  let rotationY := glm_rotate (glm_radians YrotationDegrees) ⟨F32.fin 0, F32.fin 1, F32.fin 0⟩
  let rotationZ := glm_rotate (glm_radians ZrotationDegrees) ⟨F32.fin 0, F32.fin 0, F32.fin 1⟩
  let translation := glm_translate positionXYZ
  (((translation.mul rotationX).mul rotationY).mul rotationZ).mul scale

/-- The function `pos_from_data` in binary32:
`prev.x + (-sin(glm::radians(rot.z))) * scale`, `prev.y + (cos(glm::radians(rot.z))) * scale`
and `prev.z`, with `sin` and `cos` applied at `float` and every operation rounded. -/
noncomputable def pos_from_data (prev rot : Vec3) (scale : F32) : Vec3 :=
  ⟨F32.add prev.x (F32.mul (F32.neg (F32.sin (glm_radians rot.z))) scale),
   F32.add prev.y (F32.mul (F32.cos (glm_radians rot.z)) scale),
   prev.z⟩

/-- Each `while` loop of `rot_add` in binary32: `while (x >= 360.0f) { x -= 360.0f; }`. The
loop need not end (a large `x` is not changed by the subtraction), so it runs on fuel:
`none` when the fuel runs out, otherwise the final `x`. -/
def rot_add_loop : Nat → F32 → Option F32
  | 0, _ => none
  | fuel + 1, x =>
    if F32.ge x (F32.fin 360) then rot_add_loop fuel (F32.sub x (F32.fin 360)) else some x

/-- The function `rot_add` in binary32: the three sums, each followed by its loop, in the
order x, y, z; `fuel` bounds the iterations of each loop. -/
def rot_add (fuel : Nat) (one two : Vec3) : Option Vec3 :=
  match rot_add_loop fuel (F32.add one.x two.x) with
  | none => none
  | some x =>
    match rot_add_loop fuel (F32.add one.y two.y) with
    | none => none
    | some y =>
      match rot_add_loop fuel (F32.add one.z two.z) with
      | none => none
      | some z => some ⟨x, y, z⟩

/-- How many times a loop of `rot_add` subtracts 360 from a start value `q` when every
subtraction is exact: never below 360, `floor (q / 360)` times from 360 on. -/
def wraps (q : ℚ) : ℕ := if q < 360 then 0 else ⌊q / 360⌋.toNat

end Float32

/-! ## Traces: draws and sampler writes -/

namespace Vec3

@[simp] theorem add_x (a b : Vec3) : (a + b).x = a.x + b.x := rfl
@[simp] theorem add_y (a b : Vec3) : (a + b).y = a.y + b.y := rfl
@[simp] theorem add_z (a b : Vec3) : (a + b).z = a.z + b.z := rfl
@[simp] theorem mul_x (a : Vec3) (k : ℝ) : (a * k).x = a.x * k := rfl
@[simp] theorem mul_y (a : Vec3) (k : ℝ) : (a * k).y = a.y * k := rfl
@[simp] theorem mul_z (a : Vec3) (k : ℝ) : (a * k).z = a.z * k := rfl

end Vec3

@[simp] theorem draws_nil : draws [] = [] := rfl

@[simp] theorem draws_append (a b : List GLCall) : draws (a ++ b) = draws a ++ draws b := by
  simp [draws, List.filterMap_append]

@[simp] theorem draws_cons (c : GLCall) (t : List GLCall) :
    draws (c :: t) = (c.drawKind).toList ++ draws t := by
  cases h : c.drawKind <;> simp [draws, List.filterMap_cons, h]

theorem draws_flatMap {α : Type} (l : List α) (f : α → List GLCall) :
    draws (l.flatMap f) = l.flatMap (fun a => draws (f a)) := by
  induction l with
  | nil => rfl
  | cons a l ih => simp [List.flatMap_cons, ih]

namespace SceneManager

@[simp] theorem draws_SetTransformations (s : SceneManager) (sc : Vec3) (rx ry rz : ℝ)
    (p : Vec3) : draws (s.SetTransformations sc rx ry rz p) = [] := by
  unfold SetTransformations
  cases s.m_pShaderManager <;> simp [GLCall.drawKind]

@[simp] theorem draws_SetShaderColor (s : SceneManager) (r g b a : ℝ) :
    draws (s.SetShaderColor r g b a) = [] := by
  unfold SetShaderColor
  cases s.m_pShaderManager <;> simp [GLCall.drawKind]

@[simp] theorem draws_SetShaderTexture (s : SceneManager) (tag : String) :
    draws (s.SetShaderTexture tag) = [] := by
  unfold SetShaderTexture
  cases s.m_pShaderManager <;> simp [GLCall.drawKind]

theorem Branch_nonpos (s : SceneManager) (base rot : Vec3) (n : Int) (h : n ≤ 0) :
    s.Branch base rot n = [] := by
  rw [Branch, if_pos h]

theorem draws_Branch_nat (s : SceneManager) (k : Nat) : ∀ base rot : Vec3,
    draws (s.Branch base rot (k : Int))
      = List.replicate (2 * (2 ^ k - 1)) DrawKind.cylinder := by
  induction k with
  | zero => intro base rot; simp [Branch_nonpos]
  | succ k ih =>
    intro base rot
    have hpos : ¬ ((k + 1 : Nat) : Int) ≤ 0 := by omega
    have hpred : ((k + 1 : Nat) : Int) - 1 = (k : Int) := by omega
    rw [Branch, if_neg hpos]
    simp only [hpred, draws_append, draws_SetShaderTexture, draws_SetTransformations,
      draws_cons, draws_nil, GLCall.drawKind, Option.toList, ih, List.nil_append,
      List.append_nil]
    have h1 : 1 ≤ 2 ^ k := Nat.one_le_two_pow
    have h2 : 2 * (2 ^ (k + 1) - 1) = 1 + 1 + 2 * (2 ^ k - 1) + 2 * (2 ^ k - 1) := by
      rw [pow_succ]; omega
    rw [h2, List.replicate_add, List.replicate_add, List.replicate_add]
    simp [List.replicate]

theorem draws_Branch (s : SceneManager) (base rot : Vec3) (n : Int) :
    draws (s.Branch base rot n)
      = List.replicate (2 * (2 ^ n.toNat - 1)) DrawKind.cylinder := by
  rcases le_or_lt n 0 with h | h
  · have h0 : n.toNat = 0 := by omega
    simp [Branch_nonpos s base rot n h, h0]
  · have hn : n = ((n.toNat : Nat) : Int) := by omega
    conv_lhs => rw [hn]
    exact draws_Branch_nat s n.toNat base rot

theorem draws_Tree (s : SceneManager) (pos : Vec3) (angle : ℝ) :
    draws (s.Tree pos angle) = List.replicate 30 DrawKind.cylinder := by
  unfold Tree
  rw [draws_Branch]
  rfl

end SceneManager

/-! ## The model matrix -/

theorem glm_rotate_X (angle : ℝ) :
    glm_rotate angle ⟨1, 0, 0⟩ =
      !![1, 0, 0, 0;
         0, Real.cos angle, -Real.sin angle, 0;
         0, Real.sin angle, Real.cos angle, 0;
         0, 0, 0, 1] := by
  ext i j
  fin_cases i <;> fin_cases j <;> simp [glm_rotate, glm_normalize, glm_dot]

theorem glm_rotate_Y (angle : ℝ) :
    glm_rotate angle ⟨0, 1, 0⟩ =
      !![Real.cos angle, 0, Real.sin angle, 0;
         0, 1, 0, 0;
         -Real.sin angle, 0, Real.cos angle, 0;
         0, 0, 0, 1] := by
  ext i j
  fin_cases i <;> fin_cases j <;> simp [glm_rotate, glm_normalize, glm_dot]

theorem glm_rotate_Z (angle : ℝ) :
    glm_rotate angle ⟨0, 0, 1⟩ =
      !![Real.cos angle, -Real.sin angle, 0, 0;
         Real.sin angle, Real.cos angle, 0, 0;
         0, 0, 1, 0;
         0, 0, 0, 1] := by
  ext i j
  fin_cases i <;> fin_cases j <;> simp [glm_rotate, glm_normalize, glm_dot]

theorem glm_scale_mulVec (S p : Vec3) :
    (glm_scale S).mulVec p.toPoint = (scalePoint S p).toPoint := by
  funext i
  fin_cases i <;>
    simp [glm_scale, scalePoint, Vec3.toPoint, Matrix.mulVec, Matrix.dotProduct,
      Fin.sum_univ_four]

theorem glm_translate_mulVec (T p : Vec3) :
    (glm_translate T).mulVec p.toPoint = (translatePoint T p).toPoint := by
  funext i
  fin_cases i <;>
    simp [glm_translate, translatePoint, Vec3.toPoint, Matrix.mulVec, Matrix.dotProduct,
      Fin.sum_univ_four]

theorem RotationX_mulVec (degrees : ℝ) (p : Vec3) :
    (RotationX degrees).mulVec p.toPoint = (rotatePointX degrees p).toPoint := by
  funext i
  fin_cases i
  all_goals
    simp [RotationX, rotatePointX, Vec3.toPoint, Matrix.mulVec, Matrix.dotProduct,
      Fin.sum_univ_four]
  all_goals ring

theorem RotationY_mulVec (degrees : ℝ) (p : Vec3) :
    (RotationY degrees).mulVec p.toPoint = (rotatePointY degrees p).toPoint := by
  funext i
  fin_cases i <;>
    simp [RotationY, rotatePointY, Vec3.toPoint, Matrix.mulVec, Matrix.dotProduct,
      Fin.sum_univ_four]

theorem RotationZ_mulVec (degrees : ℝ) (p : Vec3) :
    (RotationZ degrees).mulVec p.toPoint = (rotatePointZ degrees p).toPoint := by
  funext i
  fin_cases i
  all_goals
    simp [RotationZ, rotatePointZ, Vec3.toPoint, Matrix.mulVec, Matrix.dotProduct,
      Fin.sum_univ_four]
  all_goals ring

theorem model_mulVec (S : Vec3) (rx ry rz : ℝ) (T p : Vec3) :
    (glm_translate T * RotationZ rz * RotationY ry * RotationX rx * glm_scale S).mulVec
        p.toPoint
      = (translatePoint T (rotatePointZ rz (rotatePointY ry (rotatePointX rx
          (scalePoint S p))))).toPoint := by
  rw [← Matrix.mulVec_mulVec, ← Matrix.mulVec_mulVec, ← Matrix.mulVec_mulVec,
    ← Matrix.mulVec_mulVec, glm_scale_mulVec, RotationX_mulVec, RotationY_mulVec,
    RotationZ_mulVec, glm_translate_mulVec]

theorem SetTransformations_eq (s : SceneManager) (S : Vec3) (rx ry rz : ℝ) (T : Vec3)
    (h : s.m_pShaderManager = true) :
    s.SetTransformations S rx ry rz T
      = [GLCall.setMat4Value "model"
          (glm_translate T * RotationZ rz * RotationY ry * RotationX rx * glm_scale S)] := by
  simp [SceneManager.SetTransformations, h, g_ModelName, glm_rotate_X, glm_rotate_Y,
    glm_rotate_Z, RotationX, RotationY, RotationZ]

/-! ## The texture registry -/

namespace SceneManager

theorem FindTextureSlot_loop_found (s : SceneManager) (tag : String) (slot : Int)
    (index : Nat) : s.FindTextureSlot_loop tag slot index true = slot := by
  rw [FindTextureSlot_loop]
  simp

/-- The loop started at `index` returns the slot it was given when no entry from `index` on
carries the tag. -/
theorem FindTextureSlot_loop_miss (s : SceneManager) (tag : String) (slot : Int) :
    ∀ (k index : Nat), s.m_textureIDs.length - index = k →
      (∀ (j : Nat) (hj : j < s.m_textureIDs.length), index ≤ j →
        (s.m_textureIDs.get ⟨j, hj⟩).tag ≠ tag) →
      s.FindTextureSlot_loop tag slot index false = slot := by
  intro k
  induction k with
  | zero =>
    intro index hk _
    rw [FindTextureSlot_loop]
    have : ¬ (index < s.m_loadedTextures ∧ false = false) := by
      simp only [m_loadedTextures]; omega
    rw [dif_neg this]
  | succ k ih =>
    intro index hk hno
    rw [FindTextureSlot_loop]
    have hlt : index < s.m_textureIDs.length := by omega
    have hc : index < s.m_loadedTextures ∧ false = false := ⟨hlt, rfl⟩
    rw [dif_pos hc, if_neg (hno index hlt (le_refl _))]
    exact ih (index + 1) (by omega) (fun j hj hij => hno j hj (by omega))

/-- The loop started at `index` returns `i` when entry `i` is the first one from `index` on
that carries the tag. -/
theorem FindTextureSlot_loop_hit (s : SceneManager) (tag : String) (slot : Int)
    (i : Nat) (hi : i < s.m_textureIDs.length)
    (htag : (s.m_textureIDs.get ⟨i, hi⟩).tag = tag) :
    ∀ (k index : Nat), i - index = k → index ≤ i →
      (∀ (j : Nat) (hj : j < s.m_textureIDs.length), index ≤ j → j < i →
        (s.m_textureIDs.get ⟨j, hj⟩).tag ≠ tag) →
      s.FindTextureSlot_loop tag slot index false = (i : Int) := by
  intro k
  induction k with
  | zero =>
    intro index hk hle _
    have hidx : index = i := by omega
    subst hidx
    rw [FindTextureSlot_loop]
    have hc : index < s.m_loadedTextures ∧ false = false := ⟨hi, rfl⟩
    rw [dif_pos hc, if_pos htag, FindTextureSlot_loop_found]
  | succ k ih =>
    intro index hk hle hno
    have hlt : index < s.m_textureIDs.length := by omega
    rw [FindTextureSlot_loop]
    have hc : index < s.m_loadedTextures ∧ false = false := ⟨hlt, rfl⟩
    rw [dif_pos hc, if_neg (hno index hlt (le_refl _) (by omega))]
    exact ih (index + 1) (by omega) (by omega) (fun j hj hij hji => hno j hj (by omega) hji)

theorem FindTextureSlot_of_first (s : SceneManager) (tag : String)
    (i : Nat) (hi : i < s.m_textureIDs.length)
    (htag : (s.m_textureIDs.get ⟨i, hi⟩).tag = tag)
    (hfirst : ∀ (j : Nat) (hj : j < s.m_textureIDs.length), j < i →
      (s.m_textureIDs.get ⟨j, hj⟩).tag ≠ tag) :
    s.FindTextureSlot tag = (i : Int) :=
  FindTextureSlot_loop_hit s tag (-1) i hi htag i 0 rfl (Nat.zero_le _)
    (fun j hj _ hji => hfirst j hj hji)

theorem FindTextureSlot_of_none (s : SceneManager) (tag : String)
    (hno : ∀ e ∈ s.m_textureIDs, e.tag ≠ tag) : s.FindTextureSlot tag = -1 :=
  FindTextureSlot_loop_miss s tag (-1) _ 0 rfl
    (fun _ _ _ => hno _ (List.get_mem _ _ _))

/-- Among the entries carrying a tag there is a first one. -/
theorem exists_first_index {α : Type} (l : List α) (P : α → Prop)
    (h : ∃ e ∈ l, P e) :
    ∃ (i : Nat) (hi : i < l.length), P (l.get ⟨i, hi⟩) ∧
      ∀ (j : Nat) (hj : j < l.length), j < i → ¬ P (l.get ⟨j, hj⟩) := by
  classical
  obtain ⟨e, he, hP⟩ := h
  obtain ⟨n, hn⟩ := List.mem_iff_get.mp he
  have hex : ∃ i : Nat, ∃ hi : i < l.length, P (l.get ⟨i, hi⟩) :=
    ⟨n.1, n.2, by rw [hn]; exact hP⟩
  refine ⟨Nat.find hex, (Nat.find_spec hex).1, (Nat.find_spec hex).2, ?_⟩
  intro j hj hji hPj
  exact Nat.find_min hex hji ⟨hj, hPj⟩

theorem FindTextureSlot_eq_neg_one_iff (s : SceneManager) (tag : String) :
    s.FindTextureSlot tag = -1 ↔ ∀ e ∈ s.m_textureIDs, e.tag ≠ tag := by
  constructor
  · intro h e he hte
    obtain ⟨i, hi, htag, hfirst⟩ :=
      exists_first_index s.m_textureIDs (fun e => e.tag = tag) ⟨e, he, hte⟩
    rw [FindTextureSlot_of_first s tag i hi htag hfirst] at h
    omega
  · exact FindTextureSlot_of_none s tag

theorem CreateGLTexture_true (capacity : Nat) (stbi_load : String → Option Image)
    (s s1 : SceneManager) (filename : String) (textureID : Nat) (tag : String)
    (h : CreateGLTexture capacity stbi_load s filename textureID tag = some (true, s1)) :
    s1 = { s with m_textureIDs := s.m_textureIDs ++ [⟨textureID, tag⟩] } := by
  unfold CreateGLTexture at h
  split at h
  · split at h
    · split at h
      · simp only [Option.some.injEq, Prod.mk.injEq, true_and] at h
        exact h.symm
      · simp at h
    · simp at h
  · simp at h

theorem registerAll_textures (capacity : Nat) (stbi_load : String → Option Image) :
    ∀ (calls : List TextureLoad) (s s1 : SceneManager),
      registerAll capacity stbi_load s calls = some s1 →
      s1.m_textureIDs
        = s.m_textureIDs ++ calls.map (fun c => (⟨c.textureID, c.tag⟩ : TEXTURE_INFO)) := by
  intro calls
  induction calls with
  | nil =>
    intro s s1 h
    simp only [registerAll, Option.some.injEq] at h
    simp [h]
  | cons c rest ih =>
    intro s s1 h
    rw [registerAll] at h
    split at h
    · next s2 hc =>
      rw [ih _ _ h, CreateGLTexture_true _ _ _ _ _ _ _ hc]
      simp
    · simp at h

/-- C3: after a sequence of successful `CreateGLTexture` calls with pairwise distinct
tags, started from an empty registry, `FindTextureSlot` of the tag registered by the
`i`-th call (counted from 0) returns `i`. -/
theorem FindTextureSlot_registration_order (capacity : Nat)
    (stbi_load : String → Option Image) (shader : Bool)
    (materials : List OBJECT_MATERIAL) (calls : List TextureLoad) (s1 : SceneManager)
    (hreg : registerAll capacity stbi_load ⟨shader, [], materials⟩ calls = some s1)
    (hdistinct : (calls.map TextureLoad.tag).Nodup) :
    ∀ (i : Nat) (hi : i < calls.length),
      s1.FindTextureSlot (calls.get ⟨i, hi⟩).tag = (i : Int) := by
  intro i hi
  have htex := registerAll_textures capacity stbi_load calls _ s1 hreg
  simp only [List.nil_append] at htex
  have hlen : s1.m_textureIDs.length = calls.length := by simp [htex]
  have hget : ∀ (j : Nat) (hj : j < s1.m_textureIDs.length),
      (s1.m_textureIDs.get ⟨j, hj⟩).tag = (calls.get ⟨j, hlen ▸ hj⟩).tag := by
    intro j hj
    simp [htex]
  refine FindTextureSlot_of_first s1 _ i (hlen ▸ hi) (hget i _) ?_
  intro j hj hji heq
  rw [hget j hj] at heq
  have hinj := List.nodup_iff_injective_get.mp hdistinct
  have h1 : (calls.map TextureLoad.tag).get ⟨j, by simp; omega⟩
      = (calls.map TextureLoad.tag).get ⟨i, by simp; omega⟩ := by
    simpa using heq
  have h2 := hinj h1
  simp only [Fin.mk.injEq] at h2
  omega

/-- C3 for two loads into an array of 16 slots: the tag loaded second is found in
slot 1. -/
theorem FindTextureSlot_registration_order_witness :
    registerAll 16 (fun _ => some ⟨64, 64, 3⟩) ⟨true, [], []⟩
        [⟨"./textures/lamp_glass.png", 7, "lamp_glass"⟩,
         ⟨"./textures/base_ground.png", 9, "ground_1"⟩]
      = some ⟨true, [⟨7, "lamp_glass"⟩, ⟨9, "ground_1"⟩], []⟩ ∧
    SceneManager.FindTextureSlot ⟨true, [⟨7, "lamp_glass"⟩, ⟨9, "ground_1"⟩], []⟩
      "ground_1" = 1 :=
  ⟨rfl, FindTextureSlot_registration_order 16 (fun _ => some ⟨64, 64, 3⟩) true []
    [⟨"./textures/lamp_glass.png", 7, "lamp_glass"⟩,
     ⟨"./textures/base_ground.png", 9, "ground_1"⟩]
    ⟨true, [⟨7, "lamp_glass"⟩, ⟨9, "ground_1"⟩], []⟩ rfl (by decide) 1 (by decide)⟩

/-- C4: `FindTextureSlot` returns `-1` exactly when no registered entry has the tag; and
with a shader manager attached, `SetShaderTexture` with such a tag always completes,
writing `bUseTexture` as `true` and then the sampler `objectTexture` as `-1`. -/
theorem FindTextureSlot_sentinel (s : SceneManager) (tag : String) :
    (s.FindTextureSlot tag = -1 ↔ ∀ e ∈ s.m_textureIDs, e.tag ≠ tag) ∧
    (s.m_pShaderManager = true → (∀ e ∈ s.m_textureIDs, e.tag ≠ tag) →
      s.SetShaderTexture tag
        = [GLCall.setIntValue "bUseTexture" 1,
           GLCall.setSampler2DValue "objectTexture" (-1)]) := by
  refine ⟨FindTextureSlot_eq_neg_one_iff s tag, fun hs hno => ?_⟩
  simp [SetShaderTexture, hs, FindTextureSlot_of_none s tag hno, g_UseTextureName,
    g_TextureValueName]

/-- C4 for a registry holding only `ground_1`, asked for `wood`. -/
theorem FindTextureSlot_sentinel_witness :
    SceneManager.SetShaderTexture ⟨true, [⟨9, "ground_1"⟩], []⟩ "wood"
      = [GLCall.setIntValue "bUseTexture" 1,
         GLCall.setSampler2DValue "objectTexture" (-1)] :=
  (FindTextureSlot_sentinel ⟨true, [⟨9, "ground_1"⟩], []⟩ "wood").2 rfl
    (by simp)

end SceneManager

/-! ## The material list -/

namespace SceneManager

theorem FindMaterial_loop_found (s : SceneManager) (tag : String) (m : OBJECT_MATERIAL)
    (index : Nat) : s.FindMaterial_loop tag m index true = m := by
  rw [FindMaterial_loop]
  simp

/-- The loop started at `index` leaves `material` as it was when no entry from `index` on
carries the tag. -/
theorem FindMaterial_loop_miss (s : SceneManager) (tag : String) (m : OBJECT_MATERIAL) :
    ∀ (k index : Nat), s.m_objectMaterials.length - index = k →
      (∀ (j : Nat) (hj : j < s.m_objectMaterials.length), index ≤ j →
        (s.m_objectMaterials.get ⟨j, hj⟩).tag ≠ tag) →
      s.FindMaterial_loop tag m index false = m := by
  intro k
  induction k with
  | zero =>
    intro index hk _
    rw [FindMaterial_loop]
    have : ¬ (index < s.m_objectMaterials.length ∧ false = false) := by omega
    rw [dif_neg this]
  | succ k ih =>
    intro index hk hno
    rw [FindMaterial_loop]
    have hlt : index < s.m_objectMaterials.length := by omega
    have hc : index < s.m_objectMaterials.length ∧ false = false := ⟨hlt, rfl⟩
    rw [dif_pos hc, if_neg (hno index hlt (le_refl _))]
    exact ih (index + 1) (by omega) (fun j hj hij => hno j hj (by omega))

/-- The loop started at `index` copies the three attributes of entry `i` when that entry is
the first one from `index` on that carries the tag. -/
theorem FindMaterial_loop_hit (s : SceneManager) (tag : String) (m : OBJECT_MATERIAL)
    (i : Nat) (hi : i < s.m_objectMaterials.length)
    (htag : (s.m_objectMaterials.get ⟨i, hi⟩).tag = tag) :
    ∀ (k index : Nat), i - index = k → index ≤ i →
      (∀ (j : Nat) (hj : j < s.m_objectMaterials.length), index ≤ j → j < i →
        (s.m_objectMaterials.get ⟨j, hj⟩).tag ≠ tag) →
      s.FindMaterial_loop tag m index false
        = { m with
            diffuseColor := (s.m_objectMaterials.get ⟨i, hi⟩).diffuseColor
            specularColor := (s.m_objectMaterials.get ⟨i, hi⟩).specularColor
            shininess := (s.m_objectMaterials.get ⟨i, hi⟩).shininess } := by
  intro k
  induction k with
  | zero =>
    intro index hk hle _
    have hidx : index = i := by omega
    subst hidx
    rw [FindMaterial_loop]
    have hc : index < s.m_objectMaterials.length ∧ false = false := ⟨hi, rfl⟩
    rw [dif_pos hc, if_pos htag, FindMaterial_loop_found]
  | succ k ih =>
    intro index hk hle hno
    have hlt : index < s.m_objectMaterials.length := by omega
    rw [FindMaterial_loop]
    have hc : index < s.m_objectMaterials.length ∧ false = false := ⟨hlt, rfl⟩
    rw [dif_pos hc, if_neg (hno index hlt (le_refl _) (by omega))]
    exact ih (index + 1) (by omega) (by omega) (fun j hj hij hji => hno j hj (by omega) hji)

theorem FindMaterial_of_first (s : SceneManager) (tag : String) (m : OBJECT_MATERIAL)
    (i : Nat) (hi : i < s.m_objectMaterials.length)
    (htag : (s.m_objectMaterials.get ⟨i, hi⟩).tag = tag)
    (hfirst : ∀ (j : Nat) (hj : j < s.m_objectMaterials.length), j < i →
      (s.m_objectMaterials.get ⟨j, hj⟩).tag ≠ tag) :
    s.FindMaterial tag m
      = (true, { m with
            diffuseColor := (s.m_objectMaterials.get ⟨i, hi⟩).diffuseColor
            specularColor := (s.m_objectMaterials.get ⟨i, hi⟩).specularColor
            shininess := (s.m_objectMaterials.get ⟨i, hi⟩).shininess }) := by
  have hne : ¬ s.m_objectMaterials.length = 0 := by omega
  rw [FindMaterial, if_neg hne,
    FindMaterial_loop_hit s tag m i hi htag i 0 rfl (Nat.zero_le _)
      (fun j hj _ hji => hfirst j hj hji)]

theorem FindMaterial_of_none (s : SceneManager) (tag : String) (m : OBJECT_MATERIAL)
    (hne : s.m_objectMaterials ≠ [])
    (hno : ∀ e ∈ s.m_objectMaterials, e.tag ≠ tag) :
    s.FindMaterial tag m = (true, m) := by
  have hlen : ¬ s.m_objectMaterials.length = 0 := by
    simpa [List.length_eq_zero] using hne
  rw [FindMaterial, if_neg hlen,
    FindMaterial_loop_miss s tag m _ 0 rfl (fun _ _ _ => hno _ (List.get_mem _ _ _))]

theorem FindMaterial_of_empty (s : SceneManager) (tag : String) (m : OBJECT_MATERIAL)
    (hempty : s.m_objectMaterials = []) : s.FindMaterial tag m = (false, m) := by
  simp [FindMaterial, hempty]

/-- C5: when some entry of the material list carries the tag and entry `i` is the one
with the smallest index among them, `FindMaterial(tag)` returns `true` and leaves in the
caller's material the diffuse colour, specular colour and shininess of entry `i`. In
particular, for a list that starts with two materials `a` and `b` of the same tag, the
attributes of `a`, the first registered, are returned. -/
theorem FindMaterial_first_match (s : SceneManager) (tag : String) (m : OBJECT_MATERIAL) :
    (∀ (i : Nat) (hi : i < s.m_objectMaterials.length),
      (s.m_objectMaterials.get ⟨i, hi⟩).tag = tag →
      (∀ (j : Nat) (hj : j < s.m_objectMaterials.length), j < i →
        (s.m_objectMaterials.get ⟨j, hj⟩).tag ≠ tag) →
      (s.FindMaterial tag m).1 = true ∧
      (s.FindMaterial tag m).2.diffuseColor
        = (s.m_objectMaterials.get ⟨i, hi⟩).diffuseColor ∧
      (s.FindMaterial tag m).2.specularColor
        = (s.m_objectMaterials.get ⟨i, hi⟩).specularColor ∧
      (s.FindMaterial tag m).2.shininess
        = (s.m_objectMaterials.get ⟨i, hi⟩).shininess) ∧
    (∀ (a b : OBJECT_MATERIAL) (rest : List OBJECT_MATERIAL),
      s.m_objectMaterials = a :: b :: rest → a.tag = tag → b.tag = tag →
      (s.FindMaterial tag m).2.diffuseColor = a.diffuseColor ∧
      (s.FindMaterial tag m).2.specularColor = a.specularColor ∧
      (s.FindMaterial tag m).2.shininess = a.shininess) := by
  constructor
  · intro i hi htag hfirst
    rw [FindMaterial_of_first s tag m i hi htag hfirst]
    exact ⟨rfl, rfl, rfl, rfl⟩
  · intro a b rest hlist ha _
    have h0 : 0 < s.m_objectMaterials.length := by simp [hlist]
    have hget : s.m_objectMaterials.get ⟨0, h0⟩ = a := by simp [hlist]
    rw [FindMaterial_of_first s tag m 0 h0 (by rw [hget]; exact ha)
      (fun j _ hj => absurd hj (Nat.not_lt_zero j))]
    have hd : (s.m_objectMaterials.get ⟨0, h0⟩).diffuseColor = a.diffuseColor := by rw [hget]
    have hs : (s.m_objectMaterials.get ⟨0, h0⟩).specularColor = a.specularColor := by
      rw [hget]
    have hn : (s.m_objectMaterials.get ⟨0, h0⟩).shininess = a.shininess := by rw [hget]
    exact ⟨hd, hs, hn⟩

/-- C5 for two materials tagged `plastic` with different attributes: the lookup returns
the attributes of the first. -/
theorem FindMaterial_first_match_witness :
    (SceneManager.FindMaterial
        ⟨true, [], [⟨⟨1, 2, 3⟩, ⟨4, 5, 6⟩, 7, "plastic"⟩, ⟨⟨0, 0, 0⟩, ⟨9, 9, 9⟩, 1, "plastic"⟩]⟩
        "plastic" ⟨⟨0, 0, 0⟩, ⟨0, 0, 0⟩, 0, ""⟩).2.diffuseColor = ⟨1, 2, 3⟩ ∧
    (SceneManager.FindMaterial
        ⟨true, [], [⟨⟨1, 2, 3⟩, ⟨4, 5, 6⟩, 7, "plastic"⟩, ⟨⟨0, 0, 0⟩, ⟨9, 9, 9⟩, 1, "plastic"⟩]⟩
        "plastic" ⟨⟨0, 0, 0⟩, ⟨0, 0, 0⟩, 0, ""⟩).2.specularColor = ⟨4, 5, 6⟩ ∧
    (SceneManager.FindMaterial
        ⟨true, [], [⟨⟨1, 2, 3⟩, ⟨4, 5, 6⟩, 7, "plastic"⟩, ⟨⟨0, 0, 0⟩, ⟨9, 9, 9⟩, 1, "plastic"⟩]⟩
        "plastic" ⟨⟨0, 0, 0⟩, ⟨0, 0, 0⟩, 0, ""⟩).2.shininess = 7 :=
  (FindMaterial_first_match
      ⟨true, [], [⟨⟨1, 2, 3⟩, ⟨4, 5, 6⟩, 7, "plastic"⟩, ⟨⟨0, 0, 0⟩, ⟨9, 9, 9⟩, 1, "plastic"⟩]⟩
      "plastic" ⟨⟨0, 0, 0⟩, ⟨0, 0, 0⟩, 0, ""⟩).2
    ⟨⟨1, 2, 3⟩, ⟨4, 5, 6⟩, 7, "plastic"⟩ ⟨⟨0, 0, 0⟩, ⟨9, 9, 9⟩, 1, "plastic"⟩ [] rfl rfl rfl

theorem FindMaterial_fst (s : SceneManager) (tag : String) (m : OBJECT_MATERIAL) :
    (s.FindMaterial tag m).1 = true ↔ s.m_objectMaterials ≠ [] := by
  unfold FindMaterial
  by_cases h : s.m_objectMaterials.length = 0
  · simp [h, List.length_eq_zero.mp h]
  · simp only [if_neg h, true_iff]
    intro hnil
    exact h (by simp [hnil])

theorem DefineObjectMaterials_no_metal :
    ∀ e ∈ (DefineObjectMaterials ⟨true, [], []⟩).m_objectMaterials, e.tag ≠ "metal" := by
  intro e he
  simp only [DefineObjectMaterials, List.nil_append, List.mem_singleton] at he
  rw [he]
  decide

theorem FindMaterial_metal (m : OBJECT_MATERIAL) :
    FindMaterial (DefineObjectMaterials ⟨true, [], []⟩) "metal" m = (true, m) :=
  FindMaterial_of_none _ _ _ (by simp [DefineObjectMaterials]) DefineObjectMaterials_no_metal

/-- C6, the code at the failing input: the list built by `DefineObjectMaterials` holds
only the tag `plastic`, yet `FindMaterial("metal")` returns `true` (found) and leaves the
caller's material untouched. -/
theorem FindMaterial_miss_returns_true :
    (∀ e ∈ (DefineObjectMaterials ⟨true, [], []⟩).m_objectMaterials, e.tag ≠ "metal") ∧
    FindMaterial (DefineObjectMaterials ⟨true, [], []⟩) "metal"
        ⟨⟨1, 2, 3⟩, ⟨4, 5, 6⟩, 7, "stale"⟩
      = (true, ⟨⟨1, 2, 3⟩, ⟨4, 5, 6⟩, 7, "stale"⟩) :=
  ⟨DefineObjectMaterials_no_metal, FindMaterial_metal _⟩

theorem SetShaderMaterial_of_empty (s : SceneManager) (tag : String) (m : OBJECT_MATERIAL)
    (hempty : s.m_objectMaterials = []) : s.SetShaderMaterial tag m = some [] := by
  simp [SetShaderMaterial, hempty]

theorem SetShaderMaterial_of_nonempty (s : SceneManager) (tag : String)
    (m : OBJECT_MATERIAL) (hs : s.m_pShaderManager = true) (hne : s.m_objectMaterials ≠ []) :
    s.SetShaderMaterial tag m
      = some [GLCall.setVec3Value "material.diffuseColor" (s.FindMaterial tag m).2.diffuseColor,
          GLCall.setVec3Value "material.specularColor" (s.FindMaterial tag m).2.specularColor,
          GLCall.setFloatValue "material.shininess" (s.FindMaterial tag m).2.shininess] := by
  have hlen : s.m_objectMaterials.length > 0 := List.length_pos.mpr hne
  have hfst : (s.FindMaterial tag m).1 = true := (FindMaterial_fst s tag m).mpr hne
  simp only [SetShaderMaterial, if_pos hlen, hfst, hs, if_true]

/-- C7, the code at the failing input: with the material list of `DefineObjectMaterials`
(only `plastic`) and a shader manager attached, `SetShaderMaterial("metal")` still issues
the three uniform writes, with whatever its uninitialised local material holds. -/
theorem SetShaderMaterial_miss_writes :
    SetShaderMaterial (DefineObjectMaterials ⟨true, [], []⟩) "metal"
        ⟨⟨1, 2, 3⟩, ⟨4, 5, 6⟩, 7, "stale"⟩
      = some [GLCall.setVec3Value "material.diffuseColor" ⟨1, 2, 3⟩,
          GLCall.setVec3Value "material.specularColor" ⟨4, 5, 6⟩,
          GLCall.setFloatValue "material.shininess" 7] := by
  rw [SetShaderMaterial_of_nonempty _ _ _ rfl (by simp [DefineObjectMaterials]),
    FindMaterial_metal]

end SceneManager

/-! ## The scene layout -/

theorem draws_flatMap_const {α : Type} (l : List α) (f : α → List GLCall)
    (c : List DrawKind) (h : ∀ a, draws (f a) = c) :
    draws (l.flatMap f) = (List.replicate l.length c).flatten := by
  induction l with
  | nil => rfl
  | cons a l ih => simp [List.flatMap_cons, List.replicate_succ, h, ih]

theorem samplerWrites_append (n : String) (a b : List GLCall) :
    samplerWrites n (a ++ b) = samplerWrites n a ++ samplerWrites n b := by
  simp [samplerWrites, List.filterMap_append]

theorem SamplersUnresolved_nil : SamplersUnresolved [] := by
  simp [SamplersUnresolved, samplerWrites]

theorem SamplersUnresolved_append {a b : List GLCall} (ha : SamplersUnresolved a)
    (hb : SamplersUnresolved b) : SamplersUnresolved (a ++ b) := by
  intro v hv
  rw [samplerWrites_append, List.mem_append] at hv
  exact hv.elim (ha v) (hb v)

theorem SamplersUnresolved_flatMap {α : Type} (l : List α) (f : α → List GLCall)
    (h : ∀ a, SamplersUnresolved (f a)) : SamplersUnresolved (l.flatMap f) := by
  induction l with
  | nil => exact SamplersUnresolved_nil
  | cons a l ih =>
    rw [List.flatMap_cons]
    exact SamplersUnresolved_append (h a) ih

theorem SamplersUnresolved_draw (c : GLCall) (h : c.drawKind ≠ none) :
    SamplersUnresolved [c] := by
  cases c <;> simp [GLCall.drawKind] at h <;>
    simp [SamplersUnresolved, samplerWrites, GLCall.samplerValue]

namespace SceneManager

theorem draws_LampPost (s : SceneManager) (p : Vec3) (use_lines : Bool) :
    draws (s.LampPost p use_lines) = lampPostDraws use_lines := by
  cases use_lines <;> simp [LampPost, lampPostDraws, GLCall.drawKind]

theorem draws_Bench (s : SceneManager) (p : Vec3) (facing_right : Bool) :
    draws (s.Bench p facing_right) = List.replicate 4 DrawKind.plane := by
  simp [Bench, GLCall.drawKind, List.replicate]

theorem draws_Fence (s : SceneManager) (p : Vec3) :
    draws (s.Fence p) = List.replicate 3 DrawKind.plane := by
  simp [Fence, GLCall.drawKind, List.replicate]

theorem SetShaderMaterial_some (s : SceneManager) (tag : String) (m : OBJECT_MATERIAL)
    (w : List GLCall) (h : s.SetShaderMaterial tag m = some w) :
    draws w = [] ∧ SamplersUnresolved w := by
  unfold SetShaderMaterial at h
  split at h
  · simp only at h
    split at h
    · split at h
      · simp only [Option.some.injEq] at h
        subst h
        exact ⟨by simp [GLCall.drawKind],
          by simp [SamplersUnresolved, samplerWrites, GLCall.samplerValue]⟩
      · simp at h
    · simp only [Option.some.injEq] at h
      subst h
      exact ⟨rfl, SamplersUnresolved_nil⟩
  · simp only [Option.some.injEq] at h
    subst h
    exact ⟨rfl, SamplersUnresolved_nil⟩

theorem SetShaderMaterial_completes (s : SceneManager) (tag : String) (m : OBJECT_MATERIAL)
    (hs : s.m_pShaderManager = true ∨ s.m_objectMaterials = []) :
    ∃ w, s.SetShaderMaterial tag m = some w := by
  rcases hs with hs | hs
  · by_cases hne : s.m_objectMaterials = []
    · exact ⟨_, SetShaderMaterial_of_empty s tag m hne⟩
    · exact ⟨_, SetShaderMaterial_of_nonempty s tag m hs hne⟩
  · exact ⟨_, SetShaderMaterial_of_empty s tag m hs⟩

theorem SamplersUnresolved_SetTransformations (s : SceneManager) (sc : Vec3) (rx ry rz : ℝ)
    (p : Vec3) : SamplersUnresolved (s.SetTransformations sc rx ry rz p) := by
  unfold SetTransformations
  cases s.m_pShaderManager <;>
    simp [SamplersUnresolved, samplerWrites, GLCall.samplerValue]

theorem SamplersUnresolved_SetShaderColor (s : SceneManager) (r g b a : ℝ) :
    SamplersUnresolved (s.SetShaderColor r g b a) := by
  unfold SetShaderColor
  cases s.m_pShaderManager <;>
    simp [SamplersUnresolved, samplerWrites, GLCall.samplerValue]

theorem SamplersUnresolved_SetShaderTexture (s : SceneManager) (tag : String)
    (htex : s.m_textureIDs = []) : SamplersUnresolved (s.SetShaderTexture tag) := by
  have hslot : s.FindTextureSlot tag = -1 :=
    FindTextureSlot_of_none s tag (by simp [htex])
  unfold SetShaderTexture
  cases s.m_pShaderManager <;>
    simp [SamplersUnresolved, samplerWrites, GLCall.samplerValue, hslot]

theorem SamplersUnresolved_Fence (s : SceneManager) (p : Vec3) (htex : s.m_textureIDs = []) :
    SamplersUnresolved (s.Fence p) := by
  unfold Fence
  repeat' apply SamplersUnresolved_append
  all_goals first
    | exact SamplersUnresolved_SetShaderTexture s _ htex
    | exact SamplersUnresolved_SetTransformations s _ _ _ _ _
    | exact SamplersUnresolved_draw _ (by simp [GLCall.drawKind])

theorem SamplersUnresolved_Bench (s : SceneManager) (p : Vec3) (facing_right : Bool)
    (htex : s.m_textureIDs = []) : SamplersUnresolved (s.Bench p facing_right) := by
  unfold Bench
  repeat' apply SamplersUnresolved_append
  all_goals first
    | exact SamplersUnresolved_SetShaderTexture s _ htex
    | exact SamplersUnresolved_SetTransformations s _ _ _ _ _
    | exact SamplersUnresolved_draw _ (by simp [GLCall.drawKind])

theorem SamplersUnresolved_LampPost (s : SceneManager) (p : Vec3) (use_lines : Bool)
    (htex : s.m_textureIDs = []) : SamplersUnresolved (s.LampPost p use_lines) := by
  unfold LampPost
  cases use_lines
  all_goals simp only [Bool.false_eq_true, if_false, if_true]
  all_goals repeat' apply SamplersUnresolved_append
  all_goals first
    | exact SamplersUnresolved_draw _ (by simp [GLCall.drawKind])
    | exact SamplersUnresolved_nil
    | exact SamplersUnresolved_SetShaderTexture s _ htex
    | exact SamplersUnresolved_SetTransformations s _ _ _ _ _
    | exact SamplersUnresolved_SetShaderColor s _ _ _ _

theorem SamplersUnresolved_Branch_nat (s : SceneManager) (htex : s.m_textureIDs = [])
    (k : Nat) : ∀ base rot : Vec3, SamplersUnresolved (s.Branch base rot (k : Int)) := by
  induction k with
  | zero =>
    intro base rot
    rw [Branch_nonpos s base rot _ (by simp)]
    exact SamplersUnresolved_nil
  | succ k ih =>
    intro base rot
    have hpos : ¬ ((k + 1 : Nat) : Int) ≤ 0 := by omega
    have hpred : ((k + 1 : Nat) : Int) - 1 = (k : Int) := by omega
    rw [Branch, if_neg hpos]
    simp only [hpred]
    repeat' apply SamplersUnresolved_append
    all_goals first
      | exact ih _ _
      | exact SamplersUnresolved_SetShaderTexture s _ htex
      | exact SamplersUnresolved_SetTransformations s _ _ _ _ _
      | exact SamplersUnresolved_draw _ (by simp [GLCall.drawKind])

theorem SamplersUnresolved_Tree (s : SceneManager) (p : Vec3) (angle : ℝ)
    (htex : s.m_textureIDs = []) : SamplersUnresolved (s.Tree p angle) :=
  SamplersUnresolved_Branch_nat s htex 4 p ⟨0, angle, 0⟩

end SceneManager

/-! ### RenderScene -/

namespace SceneManager

/-- The trace of a completed `RenderScene` splits into the ground part (two planes and the
hill), 21 `Tree` calls, 18 `LampPost` calls, 62 `Fence` calls, 60 `Bench` calls and the
8 leaf planes. -/
theorem RenderScene_layout (d : Defaults) (s : SceneManager) (m : OBJECT_MATERIAL)
    (t : List GLCall) (h : s.RenderScene d m = some t) :
    ∃ (ground leaves : List GLCall) (trees lamps fences : List Vec3)
      (benches : List (Vec3 × Bool)),
      t = ground
          ++ (trees.flatMap (fun p => s.Tree p 0)
          ++ (lamps.flatMap (fun p => s.LampPost p d.use_lines)
          ++ (fences.flatMap (fun p => s.Fence p)
          ++ (benches.flatMap (fun b => s.Bench b.1 b.2)
          ++ leaves)))) ∧
      draws ground = [DrawKind.plane, DrawKind.plane, DrawKind.sphere] ∧
      draws leaves = List.replicate 8 DrawKind.plane ∧
      trees.length = 21 ∧ lamps.length = 18 ∧ fences.length = 62 ∧ benches.length = 60 ∧
      (s.m_textureIDs = [] → SamplersUnresolved ground ∧ SamplersUnresolved leaves) := by
  unfold RenderScene at h
  simp only at h
  split at h
  · simp at h
  · next w hw =>
    simp only [Option.some.injEq] at h
    refine ⟨s.SetTransformations ⟨100, 1, 200⟩ 0 0 0 ⟨0, 0, 0⟩
        ++ s.SetShaderTexture "ground_1" ++ w ++ [GLCall.DrawPlaneMesh]
        ++ s.SetShaderTexture "ground_2"
        ++ s.SetTransformations ((⟨100, 1, 200⟩ : Vec3) * (0.4 : ℝ)) 0 0 0
             ((⟨0, 0, 0⟩ : Vec3) + ⟨0, 0.01, -70⟩)
        ++ [GLCall.DrawPlaneMesh]
        ++ s.SetTransformations ⟨30, 30, 30⟩ 0 180 90 ⟨0, -20, -200⟩
        ++ s.SetShaderTexture "ground_1"
        ++ [GLCall.DrawSphereMesh],
      (List.range 8).flatMap (fun i =>
        s.SetShaderTexture "ground_2"
        ++ s.SetTransformations ⟨150, 1, 100⟩ (-90) 0 180
             ⟨(i : ℝ) * 10 * Real.cos ((i : ℝ) * 95), 100, -200 + 30 * (i : ℝ)⟩
        ++ [GLCall.DrawPlaneMesh]),
      ⟨0, 10, -200⟩ :: (List.range 5).flatMap (fun i =>
        [⟨-25, 0, -40 - 40 * (i : ℝ)⟩, ⟨-60, 0, -60 - 36 * (i : ℝ)⟩,
         ⟨25, 0, -30 - 50 * (i : ℝ)⟩, ⟨60, 0, -50 - 44 * (i : ℝ)⟩]),
      (List.range 9).flatMap (fun i => [⟨22, 0, -12 - 20 * (i : ℝ)⟩])
        ++ (List.range 9).flatMap (fun i => [⟨-22, 0, -16 - 20 * (i : ℝ)⟩]),
      (List.range 31).reverse.flatMap (fun i =>
        [⟨20, 0, -4 * (i : ℝ)⟩, ⟨-20, 0, -4 * (i : ℝ)⟩]),
      (List.range 6).reverse.flatMap (fun i => (List.range 5).reverse.flatMap (fun j =>
          [(⟨17, 0, -17 - 4 * (j : ℝ) - 30 * (i : ℝ)⟩, d.facing_right)]))
        ++ (List.range 6).reverse.flatMap (fun i => (List.range 5).reverse.flatMap (fun j =>
          [(⟨-17, 0, -10 - 4 * (j : ℝ) - 30 * (i : ℝ)⟩, true)])),
      ?_, ?_, ?_, ?_, ?_, ?_, ?_, ?_⟩
    · rw [← h]
      simp only [List.flatMap_assoc, List.flatMap_cons, List.flatMap_nil, List.flatMap_append,
        List.append_assoc, List.append_nil, List.cons_append, List.nil_append]
    · simp [(SetShaderMaterial_some s _ _ w hw).1, GLCall.drawKind]
    · rw [draws_flatMap_const _ _ [DrawKind.plane] (fun i => by simp [GLCall.drawKind])]
      rfl
    · rfl
    · rfl
    · rfl
    · rfl
    · intro htex
      constructor
      · repeat' apply SamplersUnresolved_append
        all_goals first
          | exact (SetShaderMaterial_some s _ _ w hw).2
          | exact SamplersUnresolved_SetShaderTexture s _ htex
          | exact SamplersUnresolved_SetTransformations s _ _ _ _ _
          | exact SamplersUnresolved_draw _ (by simp [GLCall.drawKind])
      · refine SamplersUnresolved_flatMap _ _ (fun i => ?_)
        repeat' apply SamplersUnresolved_append
        all_goals first
          | exact SamplersUnresolved_SetShaderTexture s _ htex
          | exact SamplersUnresolved_SetTransformations s _ _ _ _ _
          | exact SamplersUnresolved_draw _ (by simp [GLCall.drawKind])

theorem RenderScene_completes (d : Defaults) (s : SceneManager) (m : OBJECT_MATERIAL)
    (hs : s.m_pShaderManager = true ∨ s.m_objectMaterials = []) :
    ∃ t, s.RenderScene d m = some t := by
  obtain ⟨w, hw⟩ := SetShaderMaterial_completes s "plastic" m hs
  unfold RenderScene
  simp only [hw]
  exact ⟨_, rfl⟩

theorem draws_RenderScene (d : Defaults) (s : SceneManager) (m : OBJECT_MATERIAL)
    (t : List GLCall) (h : s.RenderScene d m = some t) :
    draws t = sceneDraws d.use_lines := by
  obtain ⟨ground, leaves, trees, lamps, fences, benches, ht, hg, hl, h1, h2, h3, h4, _⟩ :=
    RenderScene_layout d s m t h
  rw [ht]
  simp only [draws_append, hg, hl]
  rw [draws_flatMap_const trees _ _ (fun p => draws_Tree s p 0),
    draws_flatMap_const lamps _ _ (fun p => draws_LampPost s p d.use_lines),
    draws_flatMap_const fences _ _ (fun p => draws_Fence s p),
    draws_flatMap_const benches _ _ (fun b => draws_Bench s b.1 b.2), h1, h2, h3, h4]
  simp only [sceneDraws, List.append_assoc]

theorem SamplersUnresolved_RenderScene (d : Defaults) (s : SceneManager)
    (m : OBJECT_MATERIAL) (t : List GLCall) (h : s.RenderScene d m = some t)
    (htex : s.m_textureIDs = []) : SamplersUnresolved t := by
  obtain ⟨ground, leaves, trees, lamps, fences, benches, ht, _, _, _, _, _, _, hsu⟩ :=
    RenderScene_layout d s m t h
  rw [ht]
  refine SamplersUnresolved_append (hsu htex).1 (SamplersUnresolved_append ?_
    (SamplersUnresolved_append ?_ (SamplersUnresolved_append ?_
      (SamplersUnresolved_append ?_ (hsu htex).2))))
  · exact SamplersUnresolved_flatMap _ _ (fun p => SamplersUnresolved_Tree s p 0 htex)
  · exact SamplersUnresolved_flatMap _ _ (fun p => SamplersUnresolved_LampPost s p _ htex)
  · exact SamplersUnresolved_flatMap _ _ (fun p => SamplersUnresolved_Fence s p htex)
  · exact SamplersUnresolved_flatMap _ _ (fun b => SamplersUnresolved_Bench s b.1 b.2 htex)

theorem count_flatten_replicate (k : DrawKind) (n : Nat) (l : List DrawKind) :
    (List.replicate n l).flatten.count k = n * l.count k := by
  induction n with
  | zero => simp
  | succ n ih => simp [List.replicate_succ, List.count_append, ih, Nat.succ_mul, Nat.add_comm]

theorem sceneDraws_counts (use_lines : Bool) :
    (sceneDraws use_lines).count DrawKind.cylinder = 21 * 30 + 18 ∧
    (sceneDraws use_lines).count DrawKind.cone = 18 * 2 ∧
    (sceneDraws use_lines).count DrawKind.plane = 2 + 62 * 3 + 60 * 4 + 8 ∧
    (sceneDraws use_lines).count DrawKind.sphere = 1 := by
  cases use_lines <;>
    simp only [sceneDraws, lampPostDraws, List.count_append, count_flatten_replicate,
      List.count_replicate, List.count_cons, List.count_nil, Bool.false_eq_true, if_false,
      if_true] <;>
    decide

end SceneManager

/-! ## The state a draw is issued in -/

theorem valueAfter_append {α : Type} (track : GLCall → Option α) (a b : List GLCall) :
    ∀ cur : Option α,
      valueAfter track cur (a ++ b) = valueAfter track (valueAfter track cur a) b := by
  induction a with
  | nil => intro cur; rfl
  | cons c a ih =>
    intro cur
    rw [List.cons_append, valueAfter, valueAfter, ih]

theorem drawsWith_append {α : Type} (track : GLCall → Option α) (a b : List GLCall) :
    ∀ cur : Option α,
      drawsWith track cur (a ++ b)
        = drawsWith track cur a ++ drawsWith track (valueAfter track cur a) b := by
  induction a with
  | nil => intro cur; rfl
  | cons c a ih =>
    intro cur
    rw [List.cons_append, drawsWith, drawsWith, valueAfter]
    cases c.drawKind with
    | some k => simp only [ih, List.cons_append]
    | none => simp only [ih]

theorem drawsWith_fst {α : Type} (track : GLCall → Option α) (t : List GLCall) :
    ∀ cur : Option α, (drawsWith track cur t).map Prod.fst = draws t := by
  induction t with
  | nil => intro cur; rfl
  | cons c t ih =>
    intro cur
    rw [drawsWith, draws_cons]
    cases c.drawKind with
    | some k => simp [ih]
    | none => simp [ih]

theorem drawsWith_flatMap_const {α β : Type} (track : GLCall → Option α) (l : List β)
    (g : β → List GLCall) (c : List (DrawKind × Option α))
    (h : ∀ (b : β) (cur : Option α), drawsWith track cur (g b) = c) :
    ∀ cur : Option α,
      drawsWith track cur (l.flatMap g) = (List.replicate l.length c).flatten := by
  induction l with
  | nil => intro cur; rfl
  | cons b l ih =>
    intro cur
    rw [List.flatMap_cons, drawsWith_append, h, ih]
    simp [List.replicate_succ]

namespace SceneManager

theorem SetTransformations_attached (s : SceneManager) (hs : s.m_pShaderManager = true)
    (S : Vec3) (rx ry rz : ℝ) (T : Vec3) :
    s.SetTransformations S rx ry rz T
      = [GLCall.setMat4Value "model" (modelMatrix S rx ry rz T)] :=
  SetTransformations_eq s S rx ry rz T hs

theorem SetShaderColor_attached (s : SceneManager) (hs : s.m_pShaderManager = true)
    (r g b a : ℝ) :
    s.SetShaderColor r g b a
      = [GLCall.setIntValue "bUseTexture" 0, GLCall.setVec4Value "objectColor" ⟨r, g, b, a⟩] := by
  simp [SetShaderColor, hs, g_UseTextureName, g_ColorValueName]

theorem SetShaderTexture_attached (s : SceneManager) (hs : s.m_pShaderManager = true)
    (tag : String) :
    s.SetShaderTexture tag
      = [GLCall.setIntValue "bUseTexture" 1,
         GLCall.setSampler2DValue "objectTexture" (s.FindTextureSlot tag)] := by
  simp [SetShaderTexture, hs, g_UseTextureName, g_TextureValueName]

theorem shaded_Bench (s : SceneManager) (hs : s.m_pShaderManager = true) (p : Vec3)
    (facing_right : Bool) (cur : Option Bool) :
    drawsWith GLCall.shadedValue cur (s.Bench p facing_right)
      = List.replicate 4 (DrawKind.plane, some false) := by
  simp only [Bench, SetShaderTexture_attached s hs, SetTransformations_attached s hs,
    List.append_assoc, List.cons_append, List.nil_append]
  simp [drawsWith, valueStep, GLCall.drawKind, GLCall.shadedValue, g_ModelName,
    g_UseTextureName, g_TextureValueName, List.replicate]

theorem shaded_Fence (s : SceneManager) (hs : s.m_pShaderManager = true) (p : Vec3)
    (cur : Option Bool) :
    drawsWith GLCall.shadedValue cur (s.Fence p)
      = List.replicate 3 (DrawKind.plane, some false) := by
  simp only [Fence, SetShaderTexture_attached s hs, SetTransformations_attached s hs,
    List.append_assoc, List.cons_append, List.nil_append]
  simp [drawsWith, valueStep, GLCall.drawKind, GLCall.shadedValue, g_ModelName,
    g_UseTextureName, g_TextureValueName, List.replicate]

end SceneManager

namespace SceneManager

theorem shaded_LampPost (s : SceneManager) (hs : s.m_pShaderManager = true) (p : Vec3)
    (use_lines : Bool) (cur : Option Bool) :
    drawsWith GLCall.shadedValue cur (s.LampPost p use_lines) = lampPostShaded use_lines := by
  cases use_lines
  all_goals
    simp only [LampPost, lampPostShaded, SetShaderTexture_attached s hs,
      SetTransformations_attached s hs, SetShaderColor_attached s hs, Bool.false_eq_true,
      if_false, if_true, List.append_assoc, List.cons_append, List.nil_append,
      List.append_nil]
  all_goals
    simp [drawsWith, valueStep, GLCall.drawKind, GLCall.shadedValue, g_ModelName,
      g_UseTextureName, g_TextureValueName, g_ColorValueName]

theorem shaded_Branch_nat (s : SceneManager) (hs : s.m_pShaderManager = true) (k : Nat) :
    ∀ (base rot : Vec3) (cur : Option Bool),
      drawsWith GLCall.shadedValue cur (s.Branch base rot (k : Int))
        = List.replicate (2 * (2 ^ k - 1)) (DrawKind.cylinder, some false) := by
  induction k with
  | zero => intro base rot cur; simp [Branch_nonpos, drawsWith]
  | succ k ih =>
    intro base rot cur
    have hpos : ¬ ((k + 1 : Nat) : Int) ≤ 0 := by omega
    have hpred : ((k + 1 : Nat) : Int) - 1 = (k : Int) := by omega
    rw [Branch, if_neg hpos]
    simp only [hpred, SetShaderTexture_attached s hs, SetTransformations_attached s hs,
      List.append_assoc, List.cons_append, List.nil_append]
    have h1 : 1 ≤ 2 ^ k := Nat.one_le_two_pow
    have h2 : 2 * (2 ^ (k + 1) - 1) = 1 + 1 + 2 * (2 ^ k - 1) + 2 * (2 ^ k - 1) := by
      rw [pow_succ]; omega
    rw [h2, List.replicate_add, List.replicate_add, List.replicate_add]
    simp [drawsWith, drawsWith_append, ih, valueStep, GLCall.drawKind, GLCall.shadedValue,
      g_ModelName, g_UseTextureName, g_TextureValueName, List.replicate]

theorem shaded_Tree (s : SceneManager) (hs : s.m_pShaderManager = true) (p : Vec3)
    (angle : ℝ) (cur : Option Bool) :
    drawsWith GLCall.shadedValue cur (s.Tree p angle)
      = List.replicate 30 (DrawKind.cylinder, some false) :=
  shaded_Branch_nat s hs 4 p ⟨0, angle, 0⟩ cur

end SceneManager

namespace SceneManager

/-- What `SetShaderMaterial` issues when it completes: nothing, or the three material
writes. -/
theorem SetShaderMaterial_cases (s : SceneManager) (tag : String) (m : OBJECT_MATERIAL)
    (w : List GLCall) (h : s.SetShaderMaterial tag m = some w) :
    w = [] ∨ ∃ (a b : Vec3) (c : ℝ),
      w = [GLCall.setVec3Value "material.diffuseColor" a,
           GLCall.setVec3Value "material.specularColor" b,
           GLCall.setFloatValue "material.shininess" c] := by
  unfold SetShaderMaterial at h
  split at h
  · simp only at h
    split at h
    · split at h
      · simp only [Option.some.injEq] at h
        exact Or.inr ⟨_, _, _, h.symm⟩
      · simp at h
    · simp only [Option.some.injEq] at h
      exact Or.inl h.symm
  · simp only [Option.some.injEq] at h
    exact Or.inl h.symm

/-- The trace of a completed `RenderScene`, part by part. -/
theorem RenderScene_parts (d : Defaults) (s : SceneManager) (m : OBJECT_MATERIAL)
    (t : List GLCall) (h : s.RenderScene d m = some t) :
    ∃ (w : List GLCall) (trees lamps fences : List Vec3) (benches : List (Vec3 × Bool)),
      s.SetShaderMaterial "plastic" m = some w ∧
      t = s.groundCalls w
          ++ (trees.flatMap (fun p => s.Tree p 0)
          ++ (lamps.flatMap (fun p => s.LampPost p d.use_lines)
          ++ (fences.flatMap (fun p => s.Fence p)
          ++ (benches.flatMap (fun b => s.Bench b.1 b.2)
          ++ s.leafCalls)))) ∧
      trees.length = 21 ∧ lamps.length = 18 ∧ fences.length = 62 ∧ benches.length = 60 := by
  unfold RenderScene at h
  simp only at h
  split at h
  · simp at h
  · next w hw =>
    simp only [Option.some.injEq] at h
    refine ⟨w,
      ⟨0, 10, -200⟩ :: (List.range 5).flatMap (fun i =>
        [⟨-25, 0, -40 - 40 * (i : ℝ)⟩, ⟨-60, 0, -60 - 36 * (i : ℝ)⟩,
         ⟨25, 0, -30 - 50 * (i : ℝ)⟩, ⟨60, 0, -50 - 44 * (i : ℝ)⟩]),
      (List.range 9).flatMap (fun i => [⟨22, 0, -12 - 20 * (i : ℝ)⟩])
        ++ (List.range 9).flatMap (fun i => [⟨-22, 0, -16 - 20 * (i : ℝ)⟩]),
      (List.range 31).reverse.flatMap (fun i =>
        [⟨20, 0, -4 * (i : ℝ)⟩, ⟨-20, 0, -4 * (i : ℝ)⟩]),
      (List.range 6).reverse.flatMap (fun i => (List.range 5).reverse.flatMap (fun j =>
          [(⟨17, 0, -17 - 4 * (j : ℝ) - 30 * (i : ℝ)⟩, d.facing_right)]))
        ++ (List.range 6).reverse.flatMap (fun i => (List.range 5).reverse.flatMap (fun j =>
          [(⟨-17, 0, -10 - 4 * (j : ℝ) - 30 * (i : ℝ)⟩, true)])),
      hw, ?_, ?_, ?_, ?_, ?_⟩
    · rw [← h]
      simp only [groundCalls, leafCalls, List.flatMap_assoc, List.flatMap_cons,
        List.flatMap_nil, List.flatMap_append, List.append_assoc, List.append_nil,
        List.cons_append, List.nil_append]
    · rfl
    · rfl
    · rfl
    · rfl

theorem shaded_groundCalls (s : SceneManager) (hs : s.m_pShaderManager = true)
    (tag : String) (m : OBJECT_MATERIAL) (w : List GLCall)
    (hw : s.SetShaderMaterial tag m = some w) (cur : Option Bool) :
    drawsWith GLCall.shadedValue cur (s.groundCalls w)
      = [(DrawKind.plane, some true), (DrawKind.plane, some false),
         (DrawKind.sphere, some true)] := by
  rcases SetShaderMaterial_cases s tag m w hw with h | ⟨a, b, c, h⟩
  all_goals
    subst h
    simp only [groundCalls, SetShaderTexture_attached s hs, SetTransformations_attached s hs,
      List.append_assoc, List.cons_append, List.nil_append, List.append_nil]
    simp [drawsWith, valueStep, GLCall.drawKind, GLCall.shadedValue, g_ModelName,
      g_UseTextureName, g_TextureValueName]

theorem shaded_leafCalls (s : SceneManager) (hs : s.m_pShaderManager = true)
    (cur : Option Bool) :
    drawsWith GLCall.shadedValue cur s.leafCalls
      = List.replicate 8 (DrawKind.plane, some false) := by
  unfold leafCalls
  rw [drawsWith_flatMap_const GLCall.shadedValue _ _ [(DrawKind.plane, some false)]]
  · rfl
  · intro i cur
    simp only [SetShaderTexture_attached s hs, SetTransformations_attached s hs,
      List.append_assoc, List.cons_append, List.nil_append]
    simp [drawsWith, valueStep, GLCall.drawKind, GLCall.shadedValue, g_ModelName,
      g_UseTextureName, g_TextureValueName]

theorem shaded_RenderScene (d : Defaults) (s : SceneManager) (m : OBJECT_MATERIAL)
    (t : List GLCall) (hs : s.m_pShaderManager = true) (h : s.RenderScene d m = some t)
    (cur : Option Bool) :
    drawsWith GLCall.shadedValue cur t = sceneShaded d.use_lines := by
  obtain ⟨w, trees, lamps, fences, benches, hw, ht, h1, h2, h3, h4⟩ :=
    RenderScene_parts d s m t h
  rw [ht]
  simp only [drawsWith_append]
  rw [shaded_groundCalls s hs _ m w hw, shaded_leafCalls s hs,
    drawsWith_flatMap_const GLCall.shadedValue trees _ _ (fun p c => shaded_Tree s hs p 0 c),
    drawsWith_flatMap_const GLCall.shadedValue lamps _ _
      (fun p c => shaded_LampPost s hs p d.use_lines c),
    drawsWith_flatMap_const GLCall.shadedValue fences _ _ (fun p c => shaded_Fence s hs p c),
    drawsWith_flatMap_const GLCall.shadedValue benches _ _
      (fun b c => shaded_Bench s hs b.1 b.2 c), h1, h2, h3, h4]
  simp only [sceneShaded, List.append_assoc]

end SceneManager

namespace SceneManager

theorem shaded_Branch (s : SceneManager) (hs : s.m_pShaderManager = true)
    (base rot : Vec3) (n : Int) (cur : Option Bool) :
    drawsWith GLCall.shadedValue cur (s.Branch base rot n)
      = List.replicate (2 * (2 ^ n.toNat - 1)) (DrawKind.cylinder, some false) := by
  rcases le_or_lt n 0 with h | h
  · have h0 : n.toNat = 0 := by omega
    simp [Branch_nonpos s base rot n h, h0, drawsWith]
  · have hn : n = ((n.toNat : Nat) : Int) := by omega
    conv_lhs => rw [hn]
    exact shaded_Branch_nat s hs n.toNat base rot cur

theorem RenderScene_start (d : Defaults) (s : SceneManager) (m : OBJECT_MATERIAL)
    (t : List GLCall) (hs : s.m_pShaderManager = true) (htex : s.m_textureIDs = [])
    (hmat : s.m_objectMaterials = []) (h : s.RenderScene d m = some t) :
    ∃ (M : Mat4) (rest : List GLCall),
      t = GLCall.setMat4Value "model" M :: GLCall.setIntValue "bUseTexture" 1
            :: GLCall.setSampler2DValue "objectTexture" (-1) :: GLCall.DrawPlaneMesh
            :: rest := by
  obtain ⟨w, trees, lamps, fences, benches, hw, ht, _⟩ := RenderScene_parts d s m t h
  rw [SetShaderMaterial_of_empty s _ _ hmat] at hw
  simp only [Option.some.injEq] at hw
  subst hw
  have hslot : ∀ tag, s.FindTextureSlot tag = -1 :=
    fun tag => FindTextureSlot_of_none s tag (by simp [htex])
  rw [ht]
  simp only [groundCalls, SetShaderTexture_attached s hs, SetTransformations_attached s hs,
    hslot, List.append_assoc, List.cons_append, List.nil_append]
  exact ⟨_, _, rfl⟩

/-- C11 as stated fails: in the run of `RenderScene` with a shader manager attached and
empty registries, the first draw (the ground plane) comes after the two writes of
`SetShaderTexture`, which follow the upload of `SetTransformations`; so not every draw is
issued with no shading write since the last upload. -/
theorem RenderScene_texture_after_transform :
    ∃ (t : List GLCall) (M : Mat4) (rest : List GLCall),
      SceneManager.RenderScene ⟨false, false⟩ ⟨true, [], []⟩ ⟨⟨0, 0, 0⟩, ⟨0, 0, 0⟩, 0, ""⟩
        = some t ∧
      t = GLCall.setMat4Value "model" M :: GLCall.setIntValue "bUseTexture" 1
            :: GLCall.setSampler2DValue "objectTexture" (-1) :: GLCall.DrawPlaneMesh
            :: rest ∧
      ¬ (∀ e ∈ drawsWith GLCall.shadedValue (some false) t, e.2 = some false) := by
  obtain ⟨t, ht⟩ := RenderScene_completes ⟨false, false⟩ ⟨true, [], []⟩
    ⟨⟨0, 0, 0⟩, ⟨0, 0, 0⟩, 0, ""⟩ (Or.inl rfl)
  obtain ⟨M, rest, hstart⟩ := RenderScene_start _ _ _ t rfl rfl rfl ht
  refine ⟨t, M, rest, ht, hstart, ?_⟩
  intro hall
  have hmem : (DrawKind.plane, some true) ∈ drawsWith GLCall.shadedValue (some false) t := by
    rw [hstart]
    simp [drawsWith, valueStep, GLCall.drawKind, GLCall.shadedValue, g_ModelName,
      g_UseTextureName, g_TextureValueName]
  have := hall _ hmem
  simp at this

/-- C11, amended: with a shader manager attached, every draw of `Bench`, `Fence` and
`Branch` is issued with no write of `SetShaderColor`, `SetShaderTexture` or
`SetShaderMaterial` since the last upload of `SetTransformations`, and so are the post and
the cap of `LampPost`, the second ground plane and the leaf planes of `RenderScene`; the
glass cone of `LampPost`, the first ground plane and the hill are drawn after a
`SetShaderTexture` (and `SetShaderMaterial`) call that follows the upload, and every
line-mode draw of `LampPost` after a `SetShaderColor` call that follows it. -/
theorem draws_after_transform (s : SceneManager) (hs : s.m_pShaderManager = true) :
    (∀ (p : Vec3) (facing_right : Bool) (cur : Option Bool),
      drawsWith GLCall.shadedValue cur (s.Bench p facing_right)
        = List.replicate 4 (DrawKind.plane, some false)) ∧
    (∀ (p : Vec3) (cur : Option Bool),
      drawsWith GLCall.shadedValue cur (s.Fence p)
        = List.replicate 3 (DrawKind.plane, some false)) ∧
    (∀ (base rot : Vec3) (n : Int) (cur : Option Bool),
      drawsWith GLCall.shadedValue cur (s.Branch base rot n)
        = List.replicate (2 * (2 ^ n.toNat - 1)) (DrawKind.cylinder, some false)) ∧
    (∀ (p : Vec3) (use_lines : Bool) (cur : Option Bool),
      drawsWith GLCall.shadedValue cur (s.LampPost p use_lines)
        = lampPostShaded use_lines) ∧
    (∀ (d : Defaults) (m : OBJECT_MATERIAL) (t : List GLCall),
      s.RenderScene d m = some t →
      drawsWith GLCall.shadedValue (some false) t = sceneShaded d.use_lines) :=
  ⟨fun p b cur => shaded_Bench s hs p b cur, fun p cur => shaded_Fence s hs p cur,
    fun base rot n cur => shaded_Branch s hs base rot n cur,
    fun p u cur => shaded_LampPost s hs p u cur,
    fun d m t h => shaded_RenderScene d s m t hs h (some false)⟩

/-- C11 amended, for a manager with a shader attached and empty registries: a bench drawn
after some shading write, and a lamp post without lines. -/
theorem draws_after_transform_witness :
    drawsWith GLCall.shadedValue (some true)
        (SceneManager.Bench ⟨true, [], []⟩ ⟨17, 0, -17⟩ false)
      = List.replicate 4 (DrawKind.plane, some false) ∧
    drawsWith GLCall.shadedValue (some false)
        (SceneManager.LampPost ⟨true, [], []⟩ ⟨22, 0, -12⟩ false)
      = [(DrawKind.cylinder, some false), (DrawKind.cone, some false),
         (DrawKind.cone, some true)] :=
  ⟨(draws_after_transform ⟨true, [], []⟩ rfl).1 ⟨17, 0, -17⟩ false (some true),
   (draws_after_transform ⟨true, [], []⟩ rfl).2.2.2.1 ⟨22, 0, -12⟩ false (some false)⟩

end SceneManager

/-! ### LampPost -/

namespace SceneManager

theorem colors_LampPost_lines (s : SceneManager) (hs : s.m_pShaderManager = true)
    (p : Vec3) (cur : Option Vec4) :
    drawsWith GLCall.colorValue cur (s.LampPost p true)
      = [(DrawKind.cylinder, some ⟨0, 0, 0, 1⟩), (DrawKind.cylinderLines, some ⟨0, 1, 1, 1⟩),
         (DrawKind.cone, some ⟨0, 0, 0, 1⟩), (DrawKind.coneLines, some ⟨0, 1, 1, 1⟩),
         (DrawKind.cone, some ⟨0, 1, 1, 1⟩), (DrawKind.coneLines, some ⟨0, 1, 1, 1⟩)] := by
  simp only [LampPost, SetShaderTexture_attached s hs, SetTransformations_attached s hs,
    SetShaderColor_attached s hs, if_true, List.append_assoc, List.cons_append,
    List.nil_append, List.append_nil]
  simp [drawsWith, valueStep, GLCall.drawKind, GLCall.colorValue, g_ColorValueName]

theorem useTexture_LampPost (s : SceneManager) (hs : s.m_pShaderManager = true)
    (p : Vec3) (use_lines : Bool) (cur : Option Int) :
    drawsWith GLCall.useTextureValue cur (s.LampPost p use_lines)
      = if use_lines then
          [(DrawKind.cylinder, some 0), (DrawKind.cylinderLines, some 0),
           (DrawKind.cone, some 0), (DrawKind.coneLines, some 0),
           (DrawKind.cone, some 1), (DrawKind.coneLines, some 0)]
        else
          [(DrawKind.cylinder, some 0), (DrawKind.cone, some 0), (DrawKind.cone, some 1)] := by
  cases use_lines
  all_goals
    simp only [LampPost, SetShaderTexture_attached s hs, SetTransformations_attached s hs,
      SetShaderColor_attached s hs, Bool.false_eq_true, if_false, if_true,
      List.append_assoc, List.cons_append, List.nil_append, List.append_nil]
  all_goals
    simp [drawsWith, valueStep, GLCall.drawKind, GLCall.useTextureValue, g_UseTextureName]

theorem models_LampPost (s : SceneManager) (hs : s.m_pShaderManager = true)
    (p : Vec3) (use_lines : Bool) (cur : Option Mat4) :
    drawsWith GLCall.modelValue cur (s.LampPost p use_lines)
      = if use_lines then
          [(DrawKind.cylinder, some (modelMatrix ⟨0.5, 10, 0.5⟩ 0 0 0 p)),
           (DrawKind.cylinderLines, some (modelMatrix ⟨0.5, 10, 0.5⟩ 0 0 0 p)),
           (DrawKind.cone, some (modelMatrix ⟨1, 1, 1⟩ 0 0 0 (p + ⟨0, 12, 0⟩))),
           (DrawKind.coneLines, some (modelMatrix ⟨1, 1, 1⟩ 0 0 0 (p + ⟨0, 12, 0⟩))),
           (DrawKind.cone, some (modelMatrix ⟨1, 4, 1⟩ 180 0 0 (p + ⟨0, 12, 0⟩))),
           (DrawKind.coneLines, some (modelMatrix ⟨1, 4, 1⟩ 180 0 0 (p + ⟨0, 12, 0⟩)))]
        else
          [(DrawKind.cylinder, some (modelMatrix ⟨0.5, 10, 0.5⟩ 0 0 0 p)),
           (DrawKind.cone, some (modelMatrix ⟨1, 1, 1⟩ 0 0 0 (p + ⟨0, 12, 0⟩))),
           (DrawKind.cone, some (modelMatrix ⟨1, 4, 1⟩ 180 0 0 (p + ⟨0, 12, 0⟩)))] := by
  cases use_lines
  all_goals
    simp only [LampPost, SetShaderTexture_attached s hs, SetTransformations_attached s hs,
      SetShaderColor_attached s hs, Bool.false_eq_true, if_false, if_true,
      List.append_assoc, List.cons_append, List.nil_append, List.append_nil]
  all_goals
    simp [drawsWith, valueStep, GLCall.drawKind, GLCall.modelValue, g_ModelName]

/-- C12 as stated fails: `LampPost(position, true)` issues three line-mode draws, one
cylinder-lines draw and two cone-lines draws, not two. -/
theorem LampPost_three_line_draws :
    (draws (SceneManager.LampPost ⟨true, [], []⟩ ⟨0, 0, 0⟩ true)).filter DrawKind.isLines
      = [DrawKind.cylinderLines, DrawKind.coneLines, DrawKind.coneLines] ∧
    ((draws (SceneManager.LampPost ⟨true, [], []⟩ ⟨0, 0, 0⟩ true)).filter
      DrawKind.isLines).length ≠ 2 ∧
    drawCount DrawKind.coneLines (SceneManager.LampPost ⟨true, [], []⟩ ⟨0, 0, 0⟩ true) ≠ 1 := by
  rw [drawCount, draws_LampPost]
  refine ⟨by decide, by decide, by decide⟩

/-- C12, amended: for every position, `LampPost(position, false)` issues exactly three
filled draws (the cylinder post, the cone cap, and the glass cone, which is textured and
rotated by 180 degrees about X) and no line-mode draw; `LampPost(position, true)` issues
those same three filled draws and exactly three line-mode draws, a cylinder-lines draw
after the post, a cone-lines draw after the cap and a cone-lines draw after the glass cone,
each with the transform of the mesh it follows and, with a shader manager attached, with
`objectColor` set to cyan `(0,1,1,1)` and texturing off. -/
theorem LampPost_draws (s : SceneManager) (hs : s.m_pShaderManager = true) (p : Vec3) :
    draws (s.LampPost p false) = [DrawKind.cylinder, DrawKind.cone, DrawKind.cone] ∧
    (draws (s.LampPost p true)).filter (fun k => !k.isLines)
      = [DrawKind.cylinder, DrawKind.cone, DrawKind.cone] ∧
    (draws (s.LampPost p true)).filter DrawKind.isLines
      = [DrawKind.cylinderLines, DrawKind.coneLines, DrawKind.coneLines] ∧
    (∀ cur : Option Vec4,
      (drawsWith GLCall.colorValue cur (s.LampPost p true)).filter (fun e => e.1.isLines)
        = [(DrawKind.cylinderLines, some ⟨0, 1, 1, 1⟩),
           (DrawKind.coneLines, some ⟨0, 1, 1, 1⟩),
           (DrawKind.coneLines, some ⟨0, 1, 1, 1⟩)]) ∧
    (∀ (use_lines : Bool) (cur : Option Int),
      drawsWith GLCall.useTextureValue cur (s.LampPost p use_lines)
        = if use_lines then
            [(DrawKind.cylinder, some 0), (DrawKind.cylinderLines, some 0),
             (DrawKind.cone, some 0), (DrawKind.coneLines, some 0),
             (DrawKind.cone, some 1), (DrawKind.coneLines, some 0)]
          else
            [(DrawKind.cylinder, some 0), (DrawKind.cone, some 0),
             (DrawKind.cone, some 1)]) ∧
    (∀ (use_lines : Bool) (cur : Option Mat4),
      drawsWith GLCall.modelValue cur (s.LampPost p use_lines)
        = if use_lines then
            [(DrawKind.cylinder, some (modelMatrix ⟨0.5, 10, 0.5⟩ 0 0 0 p)),
             (DrawKind.cylinderLines, some (modelMatrix ⟨0.5, 10, 0.5⟩ 0 0 0 p)),
             (DrawKind.cone, some (modelMatrix ⟨1, 1, 1⟩ 0 0 0 (p + ⟨0, 12, 0⟩))),
             (DrawKind.coneLines, some (modelMatrix ⟨1, 1, 1⟩ 0 0 0 (p + ⟨0, 12, 0⟩))),
             (DrawKind.cone, some (modelMatrix ⟨1, 4, 1⟩ 180 0 0 (p + ⟨0, 12, 0⟩))),
             (DrawKind.coneLines, some (modelMatrix ⟨1, 4, 1⟩ 180 0 0 (p + ⟨0, 12, 0⟩)))]
          else
            [(DrawKind.cylinder, some (modelMatrix ⟨0.5, 10, 0.5⟩ 0 0 0 p)),
             (DrawKind.cone, some (modelMatrix ⟨1, 1, 1⟩ 0 0 0 (p + ⟨0, 12, 0⟩))),
             (DrawKind.cone, some (modelMatrix ⟨1, 4, 1⟩ 180 0 0 (p + ⟨0, 12, 0⟩)))]) := by
  refine ⟨draws_LampPost s p false, ?_, ?_, fun cur => ?_,
    fun u cur => useTexture_LampPost s hs p u cur, fun u cur => models_LampPost s hs p u cur⟩
  · rw [draws_LampPost]; decide
  · rw [draws_LampPost]; decide
  · rw [colors_LampPost_lines s hs p cur]
    simp [DrawKind.isLines]

/-- C12 amended, for the first lamp post of the right row with lines on and a shader
manager attached: the three line-mode draws and their colour. -/
theorem LampPost_draws_witness :
    (drawsWith GLCall.colorValue none
        (SceneManager.LampPost ⟨true, [], []⟩ ⟨22, 0, -12⟩ true)).filter
        (fun e => e.1.isLines)
      = [(DrawKind.cylinderLines, some ⟨0, 1, 1, 1⟩),
         (DrawKind.coneLines, some ⟨0, 1, 1, 1⟩),
         (DrawKind.coneLines, some ⟨0, 1, 1, 1⟩)] :=
  (LampPost_draws ⟨true, [], []⟩ rfl ⟨22, 0, -12⟩).2.2.2.1 none

end SceneManager

/-! ### The leaf planes -/

theorem translationOf_modelMatrix (S : Vec3) (rx ry rz : ℝ) (T : Vec3) :
    translationOf (modelMatrix S rx ry rz T) = T := by
  have h := model_mulVec S rx ry rz T ⟨0, 0, 0⟩
  have hcol : ∀ i : Fin 4,
      (modelMatrix S rx ry rz T) i 3
        = ((glm_translate T * RotationZ rz * RotationY ry * RotationX rx
            * glm_scale S).mulVec (Vec3.toPoint ⟨0, 0, 0⟩)) i := by
    intro i
    simp [modelMatrix, Matrix.mulVec, Matrix.dotProduct, Fin.sum_univ_four, Vec3.toPoint]
  have h0 := hcol 0
  have h1 := hcol 1
  have h2 := hcol 2
  rw [h] at h0 h1 h2
  ext
  · rw [translationOf, h0]
    simp [Vec3.toPoint, translatePoint, rotatePointZ, rotatePointY, rotatePointX, scalePoint]
  · rw [translationOf, h1]
    simp [Vec3.toPoint, translatePoint, rotatePointZ, rotatePointY, rotatePointX, scalePoint]
  · rw [translationOf, h2]
    simp [Vec3.toPoint, translatePoint, rotatePointZ, rotatePointY, rotatePointX, scalePoint]

theorem drawsWith_flatMap_map {α β : Type} (track : GLCall → Option α) (l : List β)
    (g : β → List GLCall) (f : β → DrawKind × Option α)
    (h : ∀ (b : β) (cur : Option α), drawsWith track cur (g b) = [f b]) :
    ∀ cur : Option α, drawsWith track cur (l.flatMap g) = l.map f := by
  induction l with
  | nil => intro cur; rfl
  | cons b l ih =>
    intro cur
    rw [List.flatMap_cons, drawsWith_append, h, ih]
    rfl

theorem cos_95_radians_pos : 0 < Real.cos 95 := by
  have h1 := Real.pi_gt_d2
  have h2 := Real.pi_lt_d2
  rw [← Real.cos_sub_nat_mul_two_pi 95 15]
  apply Real.cos_pos_of_mem_Ioo
  constructor
  · push_cast; linarith
  · push_cast; linarith

theorem cos_95_degrees_neg : Real.cos (glm_radians 95) < 0 := by
  have h1 := Real.pi_gt_d2
  unfold glm_radians
  apply Real.cos_neg_of_pi_div_two_lt_of_lt
  · linarith
  · linarith

namespace SceneManager

theorem models_leafCalls (s : SceneManager) (hs : s.m_pShaderManager = true)
    (cur : Option Mat4) :
    drawsWith GLCall.modelValue cur s.leafCalls
      = (List.range 8).map (fun i : Nat =>
          (DrawKind.plane, some (modelMatrix ⟨150, 1, 100⟩ (-90) 0 180
            ⟨(i : ℝ) * 10 * Real.cos ((i : ℝ) * 95), 100, -200 + 30 * (i : ℝ)⟩))) := by
  unfold leafCalls
  refine drawsWith_flatMap_map GLCall.modelValue _ _ _ (fun i cur => ?_) cur
  simp only [SetShaderTexture_attached s hs, SetTransformations_attached s hs,
    List.append_assoc, List.cons_append, List.nil_append]
  simp [drawsWith, valueStep, GLCall.drawKind, GLCall.modelValue, g_ModelName]

/-- The last eight draws of a completed `RenderScene` are the leaf planes, drawn with the
model matrices of the leaf loop. -/
theorem RenderScene_leaf_models (d : Defaults) (s : SceneManager) (m : OBJECT_MATERIAL)
    (t : List GLCall) (hs : s.m_pShaderManager = true) (h : s.RenderScene d m = some t) :
    ∃ before : List (DrawKind × Option Vec3),
      (drawsWith GLCall.modelValue none t).map (fun e => (e.1, e.2.map translationOf))
        = before ++ (List.range 8).map (fun i : Nat =>
            (DrawKind.plane,
              some (⟨(i : ℝ) * 10 * Real.cos ((i : ℝ) * 95), 100, -200 + 30 * (i : ℝ)⟩ :
                Vec3))) ∧
      before.map Prod.fst ++ List.replicate 8 DrawKind.plane = sceneDraws d.use_lines := by
  obtain ⟨w, trees, lamps, fences, benches, _, ht, _⟩ := RenderScene_parts d s m t h
  have hd := draws_RenderScene d s m t h
  rw [← List.append_assoc, ← List.append_assoc, ← List.append_assoc, ← List.append_assoc] at ht
  have hmap : (drawsWith GLCall.modelValue none t).map
      (fun e => (e.1, e.2.map translationOf))
      = (drawsWith GLCall.modelValue none
          (s.groundCalls w ++ trees.flatMap (fun p => s.Tree p 0)
            ++ lamps.flatMap (fun p => s.LampPost p d.use_lines)
            ++ fences.flatMap (fun p => s.Fence p)
            ++ benches.flatMap (fun b => s.Bench b.1 b.2))).map
          (fun e => (e.1, e.2.map translationOf))
        ++ (List.range 8).map (fun i : Nat =>
            (DrawKind.plane,
              some (⟨(i : ℝ) * 10 * Real.cos ((i : ℝ) * 95), 100, -200 + 30 * (i : ℝ)⟩ :
                Vec3))) := by
    rw [ht, drawsWith_append, List.map_append, models_leafCalls s hs]
    simp [List.map_map, Function.comp_def, translationOf_modelMatrix]
  refine ⟨_, hmap, ?_⟩
  have hfst : ((drawsWith GLCall.modelValue none t).map
      (fun e => (e.1, e.2.map translationOf))).map Prod.fst = draws t := by
    rw [List.map_map]
    exact drawsWith_fst GLCall.modelValue t none
  rw [hmap, List.map_append, hd] at hfst
  rw [← hfst]
  congr 1

end SceneManager

namespace SceneManager

/-- C13 as stated fails: in the run of `RenderScene` with a shader manager attached and
empty registries, the last eight draws are not translated to
`(i * 10 * cos(i * 95 degrees), 100, -200 + 30 * i)`: for `i = 1` the code takes the cosine
of 95 radians, which is positive, while the cosine of 95 degrees is negative. -/
theorem RenderScene_leaf_not_degrees :
    ∃ t : List GLCall,
      SceneManager.RenderScene ⟨false, false⟩ ⟨true, [], []⟩ ⟨⟨0, 0, 0⟩, ⟨0, 0, 0⟩, 0, ""⟩
        = some t ∧
      0 < Real.cos ((1 : ℝ) * 95) ∧ Real.cos (glm_radians ((1 : ℝ) * 95)) < 0 ∧
      ¬ ∃ before : List (DrawKind × Option Vec3),
        (drawsWith GLCall.modelValue none t).map (fun e => (e.1, e.2.map translationOf))
          = before ++ (List.range 8).map (fun i : Nat =>
              (DrawKind.plane,
                some (⟨(i : ℝ) * 10 * Real.cos (glm_radians ((i : ℝ) * 95)), 100,
                  -200 + 30 * (i : ℝ)⟩ : Vec3))) := by
  obtain ⟨t, ht⟩ := RenderScene_completes ⟨false, false⟩ ⟨true, [], []⟩
    ⟨⟨0, 0, 0⟩, ⟨0, 0, 0⟩, 0, ""⟩ (Or.inl rfl)
  have hpos : 0 < Real.cos ((1 : ℝ) * 95) := by rw [one_mul]; exact cos_95_radians_pos
  have hneg : Real.cos (glm_radians ((1 : ℝ) * 95)) < 0 := by
    rw [one_mul]; exact cos_95_degrees_neg
  refine ⟨t, ht, hpos, hneg, ?_⟩
  rintro ⟨before2, h2⟩
  obtain ⟨before1, h1, _⟩ := RenderScene_leaf_models _ _ _ t rfl ht
  rw [h1] at h2
  have hsuffix := List.append_inj_right' h2 (by simp)
  have h := (List.map_inj_left.mp hsuffix) 1 (by simp)
  simp only [Prod.mk.injEq, Option.some.injEq, Vec3.mk.injEq, true_and, and_true,
    Nat.cast_one] at h
  have hcos : Real.cos ((1 : ℝ) * 95) = Real.cos (glm_radians ((1 : ℝ) * 95)) := by
    have h10 : (1 : ℝ) * 10 ≠ 0 := by norm_num
    exact mul_left_cancel₀ h10 h
  rw [hcos] at hpos
  exact lt_asymm hpos hneg

/-- C13, amended: in a completed run of `RenderScene` with a shader manager attached, the
last eight draws are the leaf planes, and for every `i` from 0 to 7 the `i`-th of them is
drawn with a model matrix whose translation is
`(i * 10 * cos(i * 95), 100, -200 + 30 * i)`, where the cosine takes `i * 95` as it is, in
radians. -/
theorem RenderScene_leaf_translations (d : Defaults) (s : SceneManager)
    (m : OBJECT_MATERIAL) (t : List GLCall) (hs : s.m_pShaderManager = true)
    (h : s.RenderScene d m = some t) :
    ∃ before : List (DrawKind × Option Vec3),
      (drawsWith GLCall.modelValue none t).map (fun e => (e.1, e.2.map translationOf))
        = before ++ (List.range 8).map (fun i : Nat =>
            (DrawKind.plane,
              some (⟨(i : ℝ) * 10 * Real.cos ((i : ℝ) * 95), 100, -200 + 30 * (i : ℝ)⟩ :
                Vec3))) ∧
      before.map Prod.fst ++ List.replicate 8 DrawKind.plane = sceneDraws d.use_lines :=
  RenderScene_leaf_models d s m t hs h

/-- C13 amended, for the run with a shader manager attached, empty registries and both
default arguments `false`. -/
theorem RenderScene_leaf_translations_witness :
    ∃ (t : List GLCall) (before : List (DrawKind × Option Vec3)),
      SceneManager.RenderScene ⟨false, false⟩ ⟨true, [], []⟩ ⟨⟨0, 0, 0⟩, ⟨0, 0, 0⟩, 0, ""⟩
        = some t ∧
      (drawsWith GLCall.modelValue none t).map (fun e => (e.1, e.2.map translationOf))
        = before ++ (List.range 8).map (fun i : Nat =>
            (DrawKind.plane,
              some (⟨(i : ℝ) * 10 * Real.cos ((i : ℝ) * 95), 100, -200 + 30 * (i : ℝ)⟩ :
                Vec3))) := by
  obtain ⟨t, ht⟩ := RenderScene_completes ⟨false, false⟩ ⟨true, [], []⟩
    ⟨⟨0, 0, 0⟩, ⟨0, 0, 0⟩, 0, ""⟩ (Or.inl rfl)
  obtain ⟨before, h1, _⟩ :=
    RenderScene_leaf_translations ⟨false, false⟩ ⟨true, [], []⟩
      ⟨⟨0, 0, 0⟩, ⟨0, 0, 0⟩, 0, ""⟩ t rfl ht
  exact ⟨t, before, ht, h1⟩

end SceneManager

/-! ### The sampler in force at each draw of the scene -/

theorem samplerWrites_cons (n : String) (c : GLCall) (t : List GLCall) :
    samplerWrites n (c :: t) = (c.samplerValue n).toList ++ samplerWrites n t := by
  cases h : c.samplerValue n <;> simp [samplerWrites, List.filterMap_cons, h]

theorem samplerWrites_flatMap_const {α : Type} (n : String) (l : List α)
    (f : α → List GLCall) (c : List Int) (h : ∀ a, samplerWrites n (f a) = c) :
    samplerWrites n (l.flatMap f) = (List.replicate l.length c).flatten := by
  induction l with
  | nil => rfl
  | cons a l ih => simp [List.flatMap_cons, samplerWrites_append, List.replicate_succ, h, ih]

/-- Once the sampler is `-1` and every later write of it is `-1`, it is `-1` at every
draw. -/
theorem drawsWith_sampler_of_unresolved (t : List GLCall) (h : SamplersUnresolved t) :
    drawsWith (GLCall.samplerValue g_TextureValueName) (some (-1)) t
      = (draws t).map (fun k => (k, some (-1))) := by
  induction t with
  | nil => rfl
  | cons c t ih =>
    have ht : SamplersUnresolved t := by
      intro v hv
      exact h v (by rw [samplerWrites_cons]; exact List.mem_append_right _ hv)
    have hstep : valueStep (GLCall.samplerValue g_TextureValueName) (some (-1)) c
        = some (-1) := by
      unfold valueStep
      cases hc : c.samplerValue g_TextureValueName with
      | none => rfl
      | some v =>
        have hv : v = -1 := h v (by rw [samplerWrites_cons, hc]; simp)
        simp [hv]
    rw [drawsWith, hstep, ih ht, draws_cons]
    cases c.drawKind <;> simp

namespace SceneManager

theorem samplerWrites_SetTransformations (s : SceneManager) (n : String) (sc : Vec3)
    (rx ry rz : ℝ) (p : Vec3) : samplerWrites n (s.SetTransformations sc rx ry rz p) = [] := by
  unfold SetTransformations
  cases s.m_pShaderManager <;> simp [samplerWrites, GLCall.samplerValue]

theorem samplerWrites_SetShaderColor (s : SceneManager) (n : String) (r g b a : ℝ) :
    samplerWrites n (s.SetShaderColor r g b a) = [] := by
  unfold SetShaderColor
  cases s.m_pShaderManager <;> simp [samplerWrites, GLCall.samplerValue]

theorem samplerWrites_SetShaderTexture (s : SceneManager) (hs : s.m_pShaderManager = true)
    (htex : s.m_textureIDs = []) (tag : String) :
    samplerWrites g_TextureValueName (s.SetShaderTexture tag) = [-1] := by
  have hslot : s.FindTextureSlot tag = -1 :=
    FindTextureSlot_of_none s tag (by simp [htex])
  simp [SetShaderTexture, hs, hslot, samplerWrites, GLCall.samplerValue]

theorem samplerWrites_Bench (s : SceneManager) (hs : s.m_pShaderManager = true)
    (htex : s.m_textureIDs = []) (p : Vec3) (facing_right : Bool) :
    samplerWrites g_TextureValueName (s.Bench p facing_right) = List.replicate 2 (-1) := by
  simp only [Bench, samplerWrites_append, samplerWrites_SetTransformations,
    samplerWrites_SetShaderTexture s hs htex]
  simp [samplerWrites, GLCall.samplerValue, List.replicate]

theorem samplerWrites_Fence (s : SceneManager) (hs : s.m_pShaderManager = true)
    (htex : s.m_textureIDs = []) (p : Vec3) :
    samplerWrites g_TextureValueName (s.Fence p) = List.replicate 3 (-1) := by
  simp only [Fence, samplerWrites_append, samplerWrites_SetTransformations,
    samplerWrites_SetShaderTexture s hs htex]
  simp [samplerWrites, GLCall.samplerValue, List.replicate]

theorem samplerWrites_LampPost (s : SceneManager) (hs : s.m_pShaderManager = true)
    (htex : s.m_textureIDs = []) (p : Vec3) (use_lines : Bool) :
    samplerWrites g_TextureValueName (s.LampPost p use_lines) = List.replicate 1 (-1) := by
  cases use_lines
  all_goals
    simp only [LampPost, samplerWrites_append, samplerWrites_SetTransformations,
      samplerWrites_SetShaderColor, samplerWrites_SetShaderTexture s hs htex,
      Bool.false_eq_true, if_false, if_true]
  all_goals simp [samplerWrites, GLCall.samplerValue, List.replicate]

theorem samplerWrites_Branch_nat (s : SceneManager) (hs : s.m_pShaderManager = true)
    (htex : s.m_textureIDs = []) (k : Nat) : ∀ base rot : Vec3,
    samplerWrites g_TextureValueName (s.Branch base rot (k : Int))
      = List.replicate (2 ^ k - 1) (-1) := by
  induction k with
  | zero => intro base rot; simp [Branch_nonpos, samplerWrites]
  | succ k ih =>
    intro base rot
    have hpos : ¬ ((k + 1 : Nat) : Int) ≤ 0 := by omega
    have hpred : ((k + 1 : Nat) : Int) - 1 = (k : Int) := by omega
    rw [Branch, if_neg hpos]
    simp only [hpred, samplerWrites_append, samplerWrites_SetTransformations,
      samplerWrites_SetShaderTexture s hs htex, ih]
    have h1 : 1 ≤ 2 ^ k := Nat.one_le_two_pow
    have h2 : 2 ^ (k + 1) - 1 = 1 + (2 ^ k - 1) + (2 ^ k - 1) := by
      rw [pow_succ]; omega
    rw [h2, List.replicate_add, List.replicate_add]
    simp [samplerWrites, GLCall.samplerValue, List.replicate]

theorem samplerWrites_Tree (s : SceneManager) (hs : s.m_pShaderManager = true)
    (htex : s.m_textureIDs = []) (p : Vec3) (angle : ℝ) :
    samplerWrites g_TextureValueName (s.Tree p angle) = List.replicate 15 (-1) :=
  samplerWrites_Branch_nat s hs htex 4 p ⟨0, angle, 0⟩

end SceneManager

namespace SceneManager

theorem samplerWrites_groundCalls (s : SceneManager) (hs : s.m_pShaderManager = true)
    (htex : s.m_textureIDs = []) (tag : String) (m : OBJECT_MATERIAL) (w : List GLCall)
    (hw : s.SetShaderMaterial tag m = some w) :
    samplerWrites g_TextureValueName (s.groundCalls w) = List.replicate 3 (-1) := by
  have hwn : samplerWrites g_TextureValueName w = [] := by
    rcases SetShaderMaterial_cases s tag m w hw with h | ⟨a, b, c, h⟩
    all_goals
      subst h
      simp [samplerWrites, GLCall.samplerValue]
  simp only [groundCalls, samplerWrites_append, samplerWrites_SetTransformations,
    samplerWrites_SetShaderTexture s hs htex, hwn]
  simp [samplerWrites, GLCall.samplerValue, List.replicate]

theorem samplerWrites_leafCalls (s : SceneManager) (hs : s.m_pShaderManager = true)
    (htex : s.m_textureIDs = []) :
    samplerWrites g_TextureValueName s.leafCalls = List.replicate 8 (-1) := by
  unfold leafCalls
  rw [samplerWrites_flatMap_const g_TextureValueName _ _ [-1]]
  · rfl
  · intro i
    simp only [samplerWrites_append, samplerWrites_SetTransformations,
      samplerWrites_SetShaderTexture s hs htex]
    simp [samplerWrites, GLCall.samplerValue]

theorem length_flatten_replicate {α : Type} (n : Nat) (l : List α) :
    (List.replicate n l).flatten.length = n * l.length := by
  induction n with
  | zero => simp
  | succ n ih => simp [List.replicate_succ, ih, Nat.succ_mul, Nat.add_comm]

/-- With a shader manager attached and no texture registered, a completed `RenderScene`
writes the sampler 650 times, always with `-1`. -/
theorem samplerWrites_RenderScene (d : Defaults) (s : SceneManager) (m : OBJECT_MATERIAL)
    (t : List GLCall) (hs : s.m_pShaderManager = true) (htex : s.m_textureIDs = [])
    (h : s.RenderScene d m = some t) :
    samplerWrites g_TextureValueName t = List.replicate 650 (-1) := by
  obtain ⟨w, trees, lamps, fences, benches, hw, ht, h1, h2, h3, h4⟩ :=
    RenderScene_parts d s m t h
  rw [List.eq_replicate_iff]
  refine ⟨?_, SamplersUnresolved_RenderScene d s m t h htex⟩
  rw [ht]
  simp only [samplerWrites_append]
  rw [samplerWrites_groundCalls s hs htex _ m w hw, samplerWrites_leafCalls s hs htex,
    samplerWrites_flatMap_const _ trees _ _ (fun p => samplerWrites_Tree s hs htex p 0),
    samplerWrites_flatMap_const _ lamps _ _
      (fun p => samplerWrites_LampPost s hs htex p d.use_lines),
    samplerWrites_flatMap_const _ fences _ _ (fun p => samplerWrites_Fence s hs htex p),
    samplerWrites_flatMap_const _ benches _ _
      (fun b => samplerWrites_Bench s hs htex b.1 b.2), h1, h2, h3, h4]
  simp only [List.length_append, length_flatten_replicate, List.length_replicate]

/-- With a shader manager attached and no texture registered, every draw of a completed
`RenderScene` is issued with the sampler `objectTexture` set to `-1`. -/
theorem sampler_RenderScene (d : Defaults) (s : SceneManager) (m : OBJECT_MATERIAL)
    (t : List GLCall) (hs : s.m_pShaderManager = true) (htex : s.m_textureIDs = [])
    (h : s.RenderScene d m = some t) (cur : Option Int) :
    drawsWith (GLCall.samplerValue g_TextureValueName) cur t
      = (sceneDraws d.use_lines).map (fun k => (k, some (-1))) := by
  obtain ⟨w, trees, lamps, fences, benches, hw, ht, _⟩ := RenderScene_parts d s m t h
  have hsu := SamplersUnresolved_RenderScene d s m t h htex
  have hd := draws_RenderScene d s m t h
  have hslot : s.FindTextureSlot "ground_1" = -1 :=
    FindTextureSlot_of_none s _ (by simp [htex])
  have hsplit : ∃ (M : Mat4) (rest : List GLCall),
      t = GLCall.setMat4Value "model" M :: GLCall.setIntValue "bUseTexture" 1
            :: GLCall.setSampler2DValue "objectTexture" (-1) :: rest := by
    rw [ht]
    simp only [groundCalls, SetShaderTexture_attached s hs, SetTransformations_attached s hs,
      hslot, List.append_assoc, List.cons_append, List.nil_append]
    exact ⟨_, _, rfl⟩
  obtain ⟨M, rest, hrest⟩ := hsplit
  have hsu_rest : SamplersUnresolved rest := by
    intro v hv
    refine hsu v ?_
    rw [hrest]
    simp only [samplerWrites_cons]
    exact List.mem_append_right _ (List.mem_append_right _ (List.mem_append_right _ hv))
  have hdraws : draws t = draws rest := by
    rw [hrest]
    simp [GLCall.drawKind]
  rw [← hd, hdraws, ← drawsWith_sampler_of_unresolved rest hsu_rest, hrest]
  simp [drawsWith, valueStep, GLCall.drawKind, GLCall.samplerValue, g_TextureValueName]

/-- C10: with an empty texture registry (and a shader manager attached, or no material
registered, so that the unguarded writes of `SetShaderMaterial` are not reached through a
NULL pointer) `RenderScene` completes; its trace is the ground part (2 planes and the
sphere), then 21 `Tree` calls, 18 `LampPost` calls, 62 `Fence` calls, 60 `Bench` calls and
the 8 leaf planes; every value written to the sampler `objectTexture` is `-1`; the draws,
in number, kind and order, are those of any other completed run, whatever its texture
registry holds; and with a shader manager attached the sampler is written 650 times and
every draw of the scene is issued with the sampler set to `-1`. -/
theorem RenderScene_empty_texture_registry (d : Defaults) (s : SceneManager)
    (m : OBJECT_MATERIAL) (htex : s.m_textureIDs = [])
    (hs : s.m_pShaderManager = true ∨ s.m_objectMaterials = []) :
    ∃ t : List GLCall, s.RenderScene d m = some t ∧
      (∃ (ground leaves : List GLCall) (trees lamps fences : List Vec3)
        (benches : List (Vec3 × Bool)),
        t = ground
            ++ (trees.flatMap (fun p => s.Tree p 0)
            ++ (lamps.flatMap (fun p => s.LampPost p d.use_lines)
            ++ (fences.flatMap (fun p => s.Fence p)
            ++ (benches.flatMap (fun b => s.Bench b.1 b.2)
            ++ leaves)))) ∧
        draws ground = [DrawKind.plane, DrawKind.plane, DrawKind.sphere] ∧
        draws leaves = List.replicate 8 DrawKind.plane ∧
        trees.length = 21 ∧ lamps.length = 18 ∧ fences.length = 62 ∧ benches.length = 60) ∧
      SamplersUnresolved t ∧
      drawCount DrawKind.cylinder t = 21 * 30 + 18 ∧
      drawCount DrawKind.cone t = 18 * 2 ∧
      drawCount DrawKind.plane t = 2 + 62 * 3 + 60 * 4 + 8 ∧
      drawCount DrawKind.sphere t = 1 ∧
      (∀ (s2 : SceneManager) (m2 : OBJECT_MATERIAL) (t2 : List GLCall),
        s2.RenderScene d m2 = some t2 → draws t2 = draws t) ∧
      (s.m_pShaderManager = true →
        samplerWrites g_TextureValueName t = List.replicate 650 (-1) ∧
        ∀ cur : Option Int,
          drawsWith (GLCall.samplerValue g_TextureValueName) cur t
            = (sceneDraws d.use_lines).map (fun k => (k, some (-1)))) := by
  obtain ⟨t, ht⟩ := RenderScene_completes d s m hs
  obtain ⟨ground, leaves, trees, lamps, fences, benches, h0, hg, hl, h1, h2, h3, h4, _⟩ :=
    RenderScene_layout d s m t ht
  have hd := draws_RenderScene d s m t ht
  have hc := sceneDraws_counts d.use_lines
  refine ⟨t, ht, ⟨ground, leaves, trees, lamps, fences, benches, h0, hg, hl, h1, h2, h3, h4⟩,
    SamplersUnresolved_RenderScene d s m t ht htex, ?_, ?_, ?_, ?_, ?_, ?_⟩
  · rw [drawCount, hd]; exact hc.1
  · rw [drawCount, hd]; exact hc.2.1
  · rw [drawCount, hd]; exact hc.2.2.1
  · rw [drawCount, hd]; exact hc.2.2.2
  · intro s2 m2 t2 h2
    rw [hd, draws_RenderScene d s2 m2 t2 h2]
  · intro hsh
    exact ⟨samplerWrites_RenderScene d s m t hsh htex ht,
      fun cur => sampler_RenderScene d s m t hsh htex ht cur⟩

/-- C10 for a manager with a shader attached, no texture and no material, and both
default arguments `false`. -/
theorem RenderScene_empty_texture_registry_witness :
    ∃ t : List GLCall,
      SceneManager.RenderScene ⟨false, false⟩ ⟨true, [], []⟩ ⟨⟨0, 0, 0⟩, ⟨0, 0, 0⟩, 0, ""⟩
        = some t ∧
      drawCount DrawKind.cylinder t = 21 * 30 + 18 ∧
      samplerWrites g_TextureValueName t = List.replicate 650 (-1) ∧
      drawsWith (GLCall.samplerValue g_TextureValueName) none t
        = (sceneDraws false).map (fun k => (k, some (-1))) := by
  obtain ⟨t, h1, _, _, h4, _, _, _, _, h9⟩ :=
    RenderScene_empty_texture_registry ⟨false, false⟩ ⟨true, [], []⟩
      ⟨⟨0, 0, 0⟩, ⟨0, 0, 0⟩, 0, ""⟩ rfl (Or.inl rfl)
  exact ⟨t, h1, h4, (h9 rfl).1, (h9 rfl).2 none⟩

end SceneManager

/-! ## Binary32: rounding -/

namespace F32

theorem roundEven_intCast {K : Type} [LinearOrderedField K] [FloorRing K] (n : ℤ) :
    roundEven (n : K) = n := by
  simp [roundEven]

theorem roundEven_eq_of_abs_lt {K : Type} [LinearOrderedField K] [FloorRing K] (x : K)
    (n : ℤ) (h : |x - n| < 1 / 2) : roundEven x = n := by
  rw [abs_lt] at h
  rcases le_or_lt (n : K) x with hle | hlt
  · have hfl : ⌊x⌋ = n := by
      rw [Int.floor_eq_iff]
      constructor
      · exact hle
      · linarith [h.2]
    unfold roundEven
    rw [hfl, if_pos (by linarith [h.2])]
  · have hfl : ⌊x⌋ = n - 1 := by
      rw [Int.floor_eq_iff]
      push_cast
      constructor
      · linarith [h.1]
      · linarith
    unfold roundEven
    rw [hfl]
    push_cast
    rw [if_neg (by linarith [h.1]), if_pos (by linarith [h.1])]
    ring

theorem roundEven_tie_even {K : Type} [LinearOrderedField K] [FloorRing K] (x : K) (n : ℤ)
    (hx : x = (n : K) + 1 / 2) (hn : n % 2 = 0) : roundEven x = n := by
  have hfl : ⌊x⌋ = n := by
    rw [Int.floor_eq_iff, hx]
    constructor <;> linarith
  unfold roundEven
  rw [hfl, hx]
  simp [hn]

theorem ulpExp_eq {K : Type} [LinearOrderedField K] [FloorRing K] (x : K) (L : ℤ)
    (h1 : (2 : K) ^ L ≤ |x|) (h2 : |x| < (2 : K) ^ (L + 1)) :
    ulpExp x = max (L - 23) (-149) := by
  have hpos : 0 < |x| := lt_of_lt_of_le (by positivity) h1
  have hlog : Int.log 2 |x| = L := by
    apply le_antisymm
    · have := (Int.lt_zpow_iff_log_lt (b := 2) (by norm_num) hpos).mp (by exact_mod_cast h2)
      omega
    · exact (Int.zpow_le_iff_le_log (b := 2) (by norm_num) hpos).mp (by exact_mod_cast h1)
  rw [ulpExp, hlog]

/-- Evaluation of `rnd`: the binade of `x` and the nearest integer multiple of the ulp. -/
theorem rnd_eq_of_near {K : Type} [LinearOrderedField K] [FloorRing K] (x : K) (L n : ℤ)
    (h1 : (2 : K) ^ L ≤ |x|) (h2 : |x| < (2 : K) ^ (L + 1))
    (hn : |x / (2 : K) ^ (max (L - 23) (-149)) - n| < 1 / 2)
    (hfin : |(n : ℚ) * (2 : ℚ) ^ (max (L - 23) (-149))| < 2 ^ (128 : ℕ)) :
    rnd x = fin ((n : ℚ) * (2 : ℚ) ^ (max (L - 23) (-149))) := by
  unfold rnd
  simp only
  rw [ulpExp_eq x L h1 h2, roundEven_eq_of_abs_lt _ n hn, if_neg (not_le.mpr hfin)]

/-- Evaluation of `rnd` at a midpoint between two floats: the even one is taken. -/
theorem rnd_eq_of_tie {K : Type} [LinearOrderedField K] [FloorRing K] (x : K) (L n : ℤ)
    (h1 : (2 : K) ^ L ≤ |x|) (h2 : |x| < (2 : K) ^ (L + 1))
    (hx : x / (2 : K) ^ (max (L - 23) (-149)) = (n : K) + 1 / 2) (hn : n % 2 = 0)
    (hfin : |(n : ℚ) * (2 : ℚ) ^ (max (L - 23) (-149))| < 2 ^ (128 : ℕ)) :
    rnd x = fin ((n : ℚ) * (2 : ℚ) ^ (max (L - 23) (-149))) := by
  unfold rnd
  simp only
  rw [ulpExp_eq x L h1 h2, roundEven_tie_even _ n hx hn, if_neg (not_le.mpr hfin)]

theorem rnd_zero {K : Type} [LinearOrderedField K] [FloorRing K] : rnd (0 : K) = fin 0 := by
  have h : roundEven ((0 : K) / (2 : K) ^ ulpExp (0 : K)) = 0 := by
    rw [zero_div]
    exact_mod_cast roundEven_intCast (K := K) 0
  unfold rnd
  simp only [h]
  norm_num

/-- Evaluation of `rnd` on a rational, with every side condition a numeral comparison. -/
theorem rnd_eval (x R : ℚ) (L n E : ℤ) (hE : max (L - 23) (-149) = E)
    (h1 : (2 : ℚ) ^ L ≤ x ∨ (2 : ℚ) ^ L ≤ -x)
    (h2 : -(2 : ℚ) ^ (L + 1) < x ∧ x < (2 : ℚ) ^ (L + 1))
    (hn : -(1 / 2) < x / (2 : ℚ) ^ E - n ∧ x / (2 : ℚ) ^ E - n < 1 / 2)
    (hR : (n : ℚ) * (2 : ℚ) ^ E = R)
    (hfin : -(2 : ℚ) ^ (128 : ℕ) < R ∧ R < (2 : ℚ) ^ (128 : ℕ)) : rnd x = fin R := by
  subst hE
  subst hR
  exact rnd_eq_of_near x L n (le_abs.mpr h1) (abs_lt.mpr h2) (abs_lt.mpr hn) (abs_lt.mpr hfin)

/-- Evaluation of `rnd` on a rational midway between two floats, the lower one even. -/
theorem rnd_eval_tie (x R : ℚ) (L n E : ℤ) (hE : max (L - 23) (-149) = E)
    (h1 : (2 : ℚ) ^ L ≤ x ∨ (2 : ℚ) ^ L ≤ -x)
    (h2 : -(2 : ℚ) ^ (L + 1) < x ∧ x < (2 : ℚ) ^ (L + 1))
    (hx : x / (2 : ℚ) ^ E = (n : ℚ) + 1 / 2) (hn : n % 2 = 0)
    (hR : (n : ℚ) * (2 : ℚ) ^ E = R)
    (hfin : -(2 : ℚ) ^ (128 : ℕ) < R ∧ R < (2 : ℚ) ^ (128 : ℕ)) : rnd x = fin R := by
  subst hE
  subst hR
  exact rnd_eq_of_tie x L n (le_abs.mpr h1) (abs_lt.mpr h2) hx hn (abs_lt.mpr hfin)

theorem isF32_zpow_form (q : ℚ) (m : ℤ) (k : ℕ) (hq : q = (m : ℚ) * 2 ^ k / 2 ^ 149) :
    q = (m : ℚ) * (2 : ℚ) ^ ((k : ℤ) - 149) := by
  rw [hq, zpow_sub₀ (by norm_num), zpow_natCast, mul_div_assoc]
  norm_num

/-- A value that is a float already is not changed by rounding. -/
theorem rnd_of_isF32 (q : ℚ) (h : IsF32 q) : rnd q = fin q := by
  obtain ⟨m, k, hm, hq, hlt⟩ := h
  by_cases h0 : q = 0
  · rw [h0]; exact rnd_zero
  have hqz := isF32_zpow_form q m k hq
  generalize hk : (k : ℤ) - 149 = e at hqz
  have hpos : 0 < |q| := abs_pos.mpr h0
  have hm' : |(m : ℚ)| < 2 ^ (24 : ℤ) := by
    rw [show ((2 : ℚ) ^ (24 : ℤ)) = ((2 ^ 24 : ℤ) : ℚ) by norm_num]
    exact_mod_cast hm
  have hE : ulpExp q ≤ e := by
    have hlt2 : |q| < ((2 : ℕ) : ℚ) ^ (24 + e) := by
      rw [hqz, abs_mul, abs_of_pos (a := (2 : ℚ) ^ e) (by positivity)]
      push_cast
      rw [zpow_add₀ (by norm_num)]
      exact mul_lt_mul_of_pos_right hm' (by positivity)
    have hlog := (Int.lt_zpow_iff_log_lt (b := 2) (by norm_num) hpos).mp hlt2
    unfold ulpExp
    omega
  unfold rnd
  simp only
  generalize ulpExp q = E at hE ⊢
  obtain ⟨n, hn⟩ := Int.eq_ofNat_of_zero_le (sub_nonneg.mpr hE)
  have he : e = E + n := by omega
  have hdiv : q / (2 : ℚ) ^ E = ((m * 2 ^ n : ℤ) : ℚ) := by
    rw [hqz, he, zpow_add₀ (by norm_num), zpow_natCast]
    push_cast
    field_simp
    ring
  have hr : ((m * 2 ^ n : ℤ) : ℚ) * (2 : ℚ) ^ E = q := by
    rw [← hdiv]
    field_simp
  rw [hdiv, roundEven_intCast, hr, if_neg (not_le.mpr (by simpa using hlt))]

theorem roundEven_mem {K : Type} [LinearOrderedField K] [FloorRing K] (x : K) :
    roundEven x = ⌊x⌋ ∨ roundEven x = ⌊x⌋ + 1 := by
  unfold roundEven
  split_ifs <;> simp

theorem ulpExp_ge {K : Type} [LinearOrderedField K] [FloorRing K] (x : K) :
    -149 ≤ ulpExp x := le_max_right _ _

theorem abs_div_ulp_lt {K : Type} [LinearOrderedField K] [FloorRing K] (x : K) :
    |x / (2 : K) ^ ulpExp x| < 2 ^ (24 : ℕ) := by
  have hp : (0 : K) < (2 : K) ^ ulpExp x := by positivity
  rw [abs_div, abs_of_pos hp, div_lt_iff₀ hp]
  have h1 : |x| < ((2 : ℕ) : K) ^ (Int.log 2 |x| + 1) := Int.lt_zpow_succ_log_self (by norm_num) _
  have h2 : Int.log 2 |x| + 1 ≤ 24 + ulpExp x := by
    have := le_max_left (Int.log 2 |x| - 23) (-149)
    unfold ulpExp
    omega
  have h3 : ((2 : ℕ) : K) ^ (Int.log 2 |x| + 1) ≤ (2 : K) ^ (24 : ℕ) * (2 : K) ^ ulpExp x := by
    rw [← zpow_natCast (2 : K) 24, ← zpow_add₀ (by norm_num)]
    push_cast
    exact zpow_le_zpow_right₀ (by norm_num) h2
  exact lt_of_lt_of_le h1 h3

theorem roundEven_abs_le {K : Type} [LinearOrderedField K] [FloorRing K] (x : K) (N : ℤ)
    (h : |x| < (N : K)) : |roundEven x| ≤ N := by
  rw [abs_lt] at h
  have h1 : ⌊x⌋ < N := Int.floor_lt.mpr h.2
  have h2 : -N ≤ ⌊x⌋ := Int.le_floor.mpr (by push_cast; linarith [h.1])
  rw [abs_le]
  rcases roundEven_mem x with hr | hr <;> rw [hr] <;> constructor <;> omega

/-- Every finite result of rounding is a float. -/
theorem rnd_isF32 {K : Type} [LinearOrderedField K] [FloorRing K] (x : K) (q : ℚ)
    (h : rnd x = fin q) : IsF32 q := by
  unfold rnd at h
  simp only at h
  split at h
  · split at h <;> cases h
  · next hlt =>
    simp only [fin.injEq] at h
    have hlt' : |q| < 2 ^ 128 := by rw [← h]; exact not_le.mp hlt
    have hn : |roundEven (x / (2 : K) ^ ulpExp x)| ≤ 2 ^ 24 :=
      roundEven_abs_le _ (2 ^ 24) (by exact_mod_cast abs_div_ulp_lt x)
    generalize roundEven (x / (2 : K) ^ ulpExp x) = n at h hn
    have hE := ulpExp_ge x
    generalize ulpExp x = E at h hE
    obtain ⟨k, hk⟩ := Int.eq_ofNat_of_zero_le (show 0 ≤ E + 149 by omega)
    have hEk : E = (k : ℤ) - 149 := by omega
    have hq : q = (n : ℚ) * 2 ^ k / 2 ^ 149 := by
      rw [← h, hEk, zpow_sub₀ (by norm_num), zpow_natCast, mul_div_assoc]
      norm_num
    rcases lt_or_eq_of_le hn with hlt2 | heq
    · exact ⟨n, k, hlt2, hq, hlt'⟩
    · rcases abs_eq (show (0 : ℤ) ≤ 2 ^ 24 by positivity) |>.mp heq with hn1 | hn1
      · refine ⟨2 ^ 23, k + 1, by norm_num, ?_, hlt'⟩
        rw [hq, hn1, pow_succ]
        push_cast
        ring
      · refine ⟨-2 ^ 23, k + 1, by norm_num, ?_, hlt'⟩
        rw [hq, hn1, pow_succ]
        push_cast
        ring

theorem isF32_of_int (n : ℤ) (h : |n| < 2 ^ 24) : IsF32 (n : ℚ) := by
  refine ⟨n, 149, h, by field_simp, ?_⟩
  have h1 : |(n : ℚ)| < 2 ^ 24 := by exact_mod_cast h
  have h2 : (2 : ℚ) ^ 24 < 2 ^ 128 := by norm_num
  linarith

/-- Subtracting 360 from a float in `[360, 2^27)` is exact: the difference is a float. -/
theorem isF32_sub_360 (q : ℚ) (h : IsF32 q) (h1 : 360 ≤ q) (h2 : q < 2 ^ 27) :
    IsF32 (q - 360) := by
  obtain ⟨m, k, hm, hq, _⟩ := h
  have hm2 : m < 2 ^ 24 := lt_of_le_of_lt (le_abs_self m) hm
  have hbound : |q - 360| < 2 ^ 128 := by
    rw [abs_of_nonneg (by linarith)]
    have : (2 : ℚ) ^ 27 < 2 ^ 128 := by norm_num
    linarith
  have hqm : (m : ℚ) * 2 ^ k = q * 2 ^ 149 := by
    rw [hq]; field_simp
  rcases le_or_lt k 152 with hk | hk
  · obtain ⟨j, hj⟩ := Nat.exists_eq_add_of_le hk
    have hpow : (2 : ℚ) ^ 152 = 2 ^ k * 2 ^ j := by rw [hj, pow_add]
    have hrep : q - 360 = ((m - 45 * 2 ^ j : ℤ) : ℚ) * 2 ^ k / 2 ^ 149 := by
      push_cast
      rw [sub_mul, hqm, mul_assoc, mul_comm ((2 : ℚ) ^ j), ← hpow]
      field_simp
      ring
    have hnn : (0 : ℚ) ≤ ((m - 45 * 2 ^ j : ℤ) : ℚ) := by
      have hx : (0 : ℚ) ≤ ((m - 45 * 2 ^ j : ℤ) : ℚ) * 2 ^ k / 2 ^ 149 := by
        rw [← hrep]; linarith
      have hx2 : (0 : ℚ) ≤ ((m - 45 * 2 ^ j : ℤ) : ℚ) * 2 ^ k := by
        rwa [le_div_iff₀ (by positivity), zero_mul] at hx
      exact nonneg_of_mul_nonneg_left hx2 (by positivity)
    have hnn' : (0 : ℤ) ≤ m - 45 * 2 ^ j := by exact_mod_cast hnn
    have hjpos : (0 : ℤ) < 45 * 2 ^ j := by positivity
    refine ⟨m - 45 * 2 ^ j, k, ?_, hrep, hbound⟩
    rw [abs_of_nonneg hnn']
    omega
  · obtain ⟨j, hj⟩ := Nat.exists_eq_add_of_le (le_of_lt hk)
    have hpow : (2 : ℚ) ^ k = 2 ^ 152 * 2 ^ j := by rw [hj, pow_add]
    have hq8 : q = ((m * 2 ^ j : ℤ) : ℚ) * 8 := by
      rw [hq, hpow]
      push_cast
      field_simp
      ring
    have hrep : q - 360 = ((m * 2 ^ j - 45 : ℤ) : ℚ) * 2 ^ 152 / 2 ^ 149 := by
      rw [hq8]
      push_cast
      field_simp
      ring
    have hM1 : ((m * 2 ^ j : ℤ) : ℚ) < 2 ^ 24 := by
      have : ((m * 2 ^ j : ℤ) : ℚ) * 8 < 2 ^ 27 := by rw [← hq8]; exact h2
      norm_num at this ⊢
      linarith
    have hM2 : (45 : ℚ) ≤ ((m * 2 ^ j : ℤ) : ℚ) := by
      have : (360 : ℚ) ≤ ((m * 2 ^ j : ℤ) : ℚ) * 8 := by rw [← hq8]; exact h1
      linarith
    have hM1' : m * 2 ^ j < 2 ^ 24 := by exact_mod_cast hM1
    have hM2' : (45 : ℤ) ≤ m * 2 ^ j := by exact_mod_cast hM2
    refine ⟨m * 2 ^ j - 45, 152, ?_, hrep, hbound⟩
    rw [abs_of_nonneg (by omega)]
    omega

theorem div_fin (a b : ℚ) (hb : b ≠ 0) : F32.div (fin a) (fin b) = rnd (a / b) := by
  simp [F32.div, hb]

theorem sqrt_one : F32.sqrt (fin 1) = fin 1 := by
  show (if (1 : ℚ) < 0 then nan else rnd (Real.sqrt ((1 : ℚ) : ℝ))) = fin 1
  rw [if_neg (by norm_num), Rat.cast_one, Real.sqrt_one]
  have h := rnd_eq_of_near (1 : ℝ) 0 (2 ^ 23) (by norm_num) (by norm_num)
    (by norm_num [abs_lt]) (by norm_num [abs_lt])
  rw [h]
  norm_num

theorem mul_zero_left (a : ℚ) : F32.mul (fin 0) (fin a) = fin 0 := by
  show rnd ((0 : ℚ) * a) = fin 0
  rw [zero_mul]
  exact rnd_zero

theorem mul_zero_right (a : ℚ) : F32.mul (fin a) (fin 0) = fin 0 := by
  show rnd (a * (0 : ℚ)) = fin 0
  rw [mul_zero]
  exact rnd_zero

theorem mul_one_left (a : ℚ) (h : IsF32 a) : F32.mul (fin 1) (fin a) = fin a := by
  show rnd ((1 : ℚ) * a) = fin a
  rw [one_mul]
  exact rnd_of_isF32 a h

theorem mul_one_right (a : ℚ) (h : IsF32 a) : F32.mul (fin a) (fin 1) = fin a := by
  show rnd (a * (1 : ℚ)) = fin a
  rw [mul_one]
  exact rnd_of_isF32 a h

theorem add_zero_left (a : ℚ) (h : IsF32 a) : F32.add (fin 0) (fin a) = fin a := by
  show rnd ((0 : ℚ) + a) = fin a
  rw [zero_add]
  exact rnd_of_isF32 a h

theorem add_zero_right (a : ℚ) (h : IsF32 a) : F32.add (fin a) (fin 0) = fin a := by
  show rnd (a + (0 : ℚ)) = fin a
  rw [add_zero]
  exact rnd_of_isF32 a h

theorem sub_zero_right (a : ℚ) (h : IsF32 a) : F32.sub (fin a) (fin 0) = fin a := by
  show rnd (a + -(0 : ℚ)) = fin a
  rw [neg_zero, add_zero]
  exact rnd_of_isF32 a h

theorem add_fin_of_isF32 (a b : ℚ) (h : IsF32 (a + b)) :
    F32.add (fin a) (fin b) = fin (a + b) := rnd_of_isF32 _ h

theorem mul_fin_of_isF32 (a b : ℚ) (h : IsF32 (a * b)) :
    F32.mul (fin a) (fin b) = fin (a * b) := rnd_of_isF32 _ h

theorem isF32_of_add (a b : F32) (x : ℚ) (h : F32.add a b = fin x) : IsF32 x := by
  cases a <;> cases b <;> simp only [F32.add] at h <;> try exact absurd h (by simp)
  exact rnd_isF32 _ x h

end F32

/-! ## Binary32: the angle sums of `rot_add` -/

namespace Float32
open F32

theorem rot_add_loop_of_not_ge (fuel : Nat) (x : F32) (h : F32.ge x (fin 360) = false) :
    rot_add_loop (fuel + 1) x = some x := by
  rw [rot_add_loop, h]
  simp

theorem sub_360_of_isF32 (q : ℚ) (h : IsF32 q) (h1 : 360 ≤ q) (h2 : q < 2 ^ 27) :
    F32.sub (fin q) (fin 360) = fin (q - 360) := by
  show rnd (q + -360) = fin (q - 360)
  rw [← sub_eq_add_neg]
  exact rnd_of_isF32 _ (isF32_sub_360 q h h1 h2)

/-- From a float `q` with `360 <= q < 2^27` the loop ends after `k` subtractions, each of
them exact, with a value in `[0, 360)`. -/
theorem rot_add_loop_wraps (n : Nat) : ∀ q : ℚ, IsF32 q → 0 ≤ q → q < 2 ^ 27 →
    q < 360 * ((n : ℚ) + 1) →
    ∃ k : Nat, k ≤ n ∧ 0 ≤ q - 360 * (k : ℚ) ∧ q - 360 * (k : ℚ) < 360 ∧
      ∀ fuel : Nat, k < fuel → rot_add_loop fuel (fin q) = some (fin (q - 360 * (k : ℚ))) := by
  induction n with
  | zero =>
    intro q _ h0 _ hlt
    have hlt' : q < 360 := by simpa using hlt
    refine ⟨0, le_refl _, by simpa using h0, by simpa using hlt', ?_⟩
    intro fuel hf
    obtain ⟨f, rfl⟩ := Nat.exists_eq_succ_of_ne_zero (Nat.pos_iff_ne_zero.mp hf)
    rw [rot_add_loop_of_not_ge f _ (by simp [F32.ge, hlt'])]
    simp
  | succ n ih =>
    intro q hq h0 h27 hlt
    rcases lt_or_le q 360 with hlt' | hge
    · refine ⟨0, Nat.zero_le _, by simpa using h0, by simpa using hlt', ?_⟩
      intro fuel hf
      obtain ⟨f, rfl⟩ := Nat.exists_eq_succ_of_ne_zero (Nat.pos_iff_ne_zero.mp hf)
      rw [rot_add_loop_of_not_ge f _ (by simp [F32.ge, hlt'])]
      simp
    · have hstep := sub_360_of_isF32 q hq hge h27
      have hq' := isF32_sub_360 q hq hge h27
      obtain ⟨k, hk, hk0, hk1, hloop⟩ := ih (q - 360) hq' (by linarith) (by linarith)
        (by push_cast at hlt ⊢; linarith)
      refine ⟨k + 1, by omega, ?_, ?_, ?_⟩
      · push_cast; linarith
      · push_cast; linarith
      · intro fuel hf
        obtain ⟨f, rfl⟩ := Nat.exists_eq_succ_of_ne_zero (show fuel ≠ 0 by omega)
        rw [rot_add_loop, if_pos (by simp [F32.ge, hge]), hstep, hloop f (by omega)]
        congr 2
        push_cast
        ring

theorem rot_add_loop_posInf (fuel : Nat) : rot_add_loop fuel posInf = none := by
  induction fuel with
  | zero => rfl
  | succ f ih =>
    rw [rot_add_loop, if_pos (by rfl)]
    exact ih

theorem rot_add_loop_absorbed (fuel : Nat) :
    rot_add_loop fuel (fin (2 ^ 34)) = none := by
  have hsub : F32.sub (fin (2 ^ 34)) (fin 360) = fin (2 ^ 34) := by
    show rnd ((2 : ℚ) ^ 34 + -360) = fin (2 ^ 34)
    have h := rnd_eq_of_near ((2 : ℚ) ^ 34 + -360) 33 (2 ^ 24)
      (by rw [abs_of_pos (by norm_num)]; norm_num)
      (by rw [abs_of_pos (by norm_num)]; norm_num)
      (by norm_num [abs_lt]) (by norm_num [abs_lt])
    rw [h]
    norm_num
  induction fuel with
  | zero => rfl
  | succ f ih => rw [rot_add_loop, if_pos (by simp [F32.ge]; norm_num), hsub, ih]

theorem rot_add_eq_some_iff (fuel : Nat) (one two r : Vec3) :
    rot_add fuel one two = some r ↔
      rot_add_loop fuel (F32.add one.x two.x) = some r.x ∧
      rot_add_loop fuel (F32.add one.y two.y) = some r.y ∧
      rot_add_loop fuel (F32.add one.z two.z) = some r.z := by
  unfold rot_add
  cases hx : rot_add_loop fuel (F32.add one.x two.x) with
  | none => simp
  | some x =>
    cases hy : rot_add_loop fuel (F32.add one.y two.y) with
    | none => simp
    | some y =>
      cases hz : rot_add_loop fuel (F32.add one.z two.z) with
      | none => simp
      | some z =>
        cases r
        simp

theorem rot_add_example_wrap (fuel : Nat) (hf : 2 ≤ fuel) :
    rot_add fuel ⟨fin 350, fin 0, fin 0⟩ ⟨fin 20, fin 0, fin 0⟩
      = some ⟨fin 10, fin 0, fin 0⟩ := by
  obtain ⟨f, rfl⟩ := Nat.exists_eq_add_of_le hf
  have h0 : F32.add (fin 0) (fin 0) = fin 0 := by
    have := add_fin_of_isF32 0 0 (by simpa using isF32_of_int 0 (by norm_num))
    simpa using this
  have h370 : F32.add (fin 350) (fin 20) = fin 370 := by
    have := add_fin_of_isF32 350 20 (by
      have := isF32_of_int 370 (by norm_num)
      norm_num at this ⊢
      exact this)
    norm_num at this
    exact this
  have h10 : F32.sub (fin 370) (fin 360) = fin 10 := by
    have := sub_360_of_isF32 370 (by simpa using isF32_of_int 370 (by norm_num))
      (by norm_num) (by norm_num)
    norm_num at this
    exact this
  have hl0 : rot_add_loop (2 + f) (fin 0) = some (fin 0) := by
    rw [show 2 + f = (1 + f) + 1 by omega]
    exact rot_add_loop_of_not_ge _ _ (by simp [F32.ge])
  have hl370 : rot_add_loop (2 + f) (fin 370) = some (fin 10) := by
    rw [show 2 + f = (f + 1) + 1 by omega, rot_add_loop, if_pos (by simp [F32.ge]; norm_num),
      h10]
    exact rot_add_loop_of_not_ge _ _ (by simp [F32.ge]; norm_num)
  simp only [rot_add, h0, h370, hl0, hl370]

theorem rot_add_example_negative (fuel : Nat) (hf : 1 ≤ fuel) :
    rot_add fuel ⟨fin 0, fin 0, fin 0⟩ ⟨fin 0, fin 0, fin (-30)⟩
      = some ⟨fin 0, fin 0, fin (-30)⟩ := by
  obtain ⟨f, rfl⟩ := Nat.exists_eq_add_of_le hf
  have h0 : F32.add (fin 0) (fin 0) = fin 0 := by
    have := add_fin_of_isF32 0 0 (by simpa using isF32_of_int 0 (by norm_num))
    simpa using this
  have h30 : F32.add (fin 0) (fin (-30)) = fin (-30) := by
    have := add_fin_of_isF32 0 (-30) (by
      have := isF32_of_int (-30) (by norm_num)
      norm_num at this ⊢
      exact this)
    norm_num at this
    exact this
  have hl0 : rot_add_loop (1 + f) (fin 0) = some (fin 0) := by
    rw [show 1 + f = f + 1 by omega]
    exact rot_add_loop_of_not_ge _ _ (by simp [F32.ge])
  have hl30 : rot_add_loop (1 + f) (fin (-30)) = some (fin (-30)) := by
    rw [show 1 + f = f + 1 by omega]
    exact rot_add_loop_of_not_ge _ _ (by simp [F32.ge]; norm_num)
  simp only [rot_add, h0, h30, hl0, hl30]

theorem rot_add_example_zero (fuel : Nat) (hf : 1 ≤ fuel) :
    rot_add fuel ⟨fin 0, fin 0, fin 0⟩ ⟨fin 0, fin 0, fin 0⟩
      = some ⟨fin 0, fin 0, fin 0⟩ := by
  obtain ⟨f, rfl⟩ := Nat.exists_eq_add_of_le hf
  have h0 : F32.add (fin 0) (fin 0) = fin 0 := by
    have := add_fin_of_isF32 0 0 (by simpa using isF32_of_int 0 (by norm_num))
    simpa using this
  have hl0 : rot_add_loop (1 + f) (fin 0) = some (fin 0) := by
    rw [show 1 + f = f + 1 by omega]
    exact rot_add_loop_of_not_ge _ _ (by simp [F32.ge])
  simp only [rot_add, h0, hl0]

theorem wraps_of_lt (q : ℚ) (h : q < 360) : wraps q = 0 := by
  rw [wraps, if_pos h]

theorem wraps_range (q : ℚ) (h : 0 ≤ q) :
    0 ≤ q - 360 * (wraps q : ℚ) ∧ q - 360 * (wraps q : ℚ) < 360 := by
  rcases lt_or_le q 360 with hlt | hge
  · rw [wraps_of_lt q hlt]
    constructor
    · simpa using h
    · simpa using hlt
  · have hfl : (0 : ℤ) ≤ ⌊q / 360⌋ := Int.floor_nonneg.mpr (by positivity)
    have hcast : ((⌊q / 360⌋.toNat : ℕ) : ℚ) = ((⌊q / 360⌋ : ℤ) : ℚ) := by
      have := Int.toNat_of_nonneg hfl
      exact_mod_cast this
    rw [wraps, if_neg (not_lt.mpr hge), hcast]
    have h1 : ((⌊q / 360⌋ : ℤ) : ℚ) ≤ q / 360 := Int.floor_le _
    have h2 : q / 360 < ((⌊q / 360⌋ : ℤ) : ℚ) + 1 := Int.lt_floor_add_one _
    rw [le_div_iff₀ (by norm_num)] at h1
    rw [div_lt_iff₀ (by norm_num)] at h2
    constructor <;> linarith

theorem wraps_370 : wraps 370 = 1 := by
  have h : ⌊(370 : ℚ) / 360⌋ = 1 := Int.floor_eq_iff.mpr ⟨by norm_num, by norm_num⟩
  rw [wraps, if_neg (by norm_num), h]
  rfl

/-- The loop of `rot_add` on a float below `2^27`: with more fuel than subtractions it ends,
having subtracted 360 exactly `wraps q` times. -/
theorem rot_add_loop_fin (q : ℚ) (hq : IsF32 q) (h27 : q < 2 ^ 27) (fuel : ℕ)
    (hf : wraps q < fuel) :
    rot_add_loop fuel (fin q) = some (fin (q - 360 * (wraps q : ℚ))) := by
  rcases lt_or_le q 360 with hlt | hge
  · rw [wraps_of_lt q hlt]
    obtain ⟨f, rfl⟩ := Nat.exists_eq_succ_of_ne_zero (show fuel ≠ 0 by omega)
    rw [rot_add_loop_of_not_ge f _ (by simp [F32.ge, hlt])]
    simp
  · have h0 : (0 : ℚ) ≤ q := by linarith
    have hfl : (0 : ℤ) ≤ ⌊q / 360⌋ := Int.floor_nonneg.mpr (by positivity)
    have hlt : q < 360 * (((⌊q / 360⌋.toNat : ℕ) : ℚ) + 1) := by
      have hcast : ((⌊q / 360⌋.toNat : ℕ) : ℚ) = ((⌊q / 360⌋ : ℤ) : ℚ) := by
        have := Int.toNat_of_nonneg hfl
        exact_mod_cast this
      rw [hcast]
      have h2 : q / 360 < ((⌊q / 360⌋ : ℤ) : ℚ) + 1 := Int.lt_floor_add_one _
      rw [div_lt_iff₀ (by norm_num)] at h2
      linarith
    obtain ⟨k, _, hk0, hk1, hloop⟩ := rot_add_loop_wraps _ q hq h0 h27 hlt
    have hr := wraps_range q h0
    have hk : (k : ℚ) = (wraps q : ℚ) := by
      have h3 : ((k : ℚ) - (wraps q : ℚ)) * 360 < 360 := by linarith [hr.1]
      have h4 : -360 < ((k : ℚ) - (wraps q : ℚ)) * 360 := by linarith [hr.2]
      have h5 : ((k : ℤ) : ℚ) - ((wraps q : ℤ) : ℚ) < 1 := by push_cast; linarith
      have h6 : -1 < ((k : ℤ) : ℚ) - ((wraps q : ℤ) : ℚ) := by push_cast; linarith
      have h7 : (k : ℤ) - (wraps q : ℤ) < 1 := by exact_mod_cast h5
      have h8 : -1 < (k : ℤ) - (wraps q : ℤ) := by exact_mod_cast h6
      have h9 : (k : ℤ) = (wraps q : ℤ) := by omega
      exact_mod_cast h9
    have hk' : k = wraps q := by exact_mod_cast hk
    rw [← hk']
    exact hloop fuel (by omega)

/-- C8, amended: in binary32, whenever the three component sums `one + two` are finite
floats `x`, `y`, `z` below `2^27`, `rot_add(one, two)` returns, and each component is the
float sum minus 360 times a natural number, every subtraction being exact: the sum itself
when it is below 360 (so a negative sum stays negative), and a value in `[0, 360)` when
the sum is not negative. `rot_add((350,0,0), (20,0,0)) = (10,0,0)`,
`rot_add((0,0,0), (0,0,0)) = (0,0,0)`, and the sum Branch forms for child B from `Z = 0`
gives `Z = -30`. -/
theorem rot_add_wrap (one two : Vec3) (x y z : ℚ)
    (hx : F32.add one.x two.x = fin x) (hy : F32.add one.y two.y = fin y)
    (hz : F32.add one.z two.z = fin z)
    (hbound : x < 2 ^ 27 ∧ y < 2 ^ 27 ∧ z < 2 ^ 27) (fuel : ℕ)
    (hfuel : wraps x < fuel ∧ wraps y < fuel ∧ wraps z < fuel) :
    rot_add fuel one two
        = some ⟨fin (x - 360 * (wraps x : ℚ)), fin (y - 360 * (wraps y : ℚ)),
            fin (z - 360 * (wraps z : ℚ))⟩ ∧
    (∀ c : ℚ, (c < 360 → c - 360 * (wraps c : ℚ) = c) ∧
      (0 ≤ c → 0 ≤ c - 360 * (wraps c : ℚ) ∧ c - 360 * (wraps c : ℚ) < 360)) ∧
    (∀ n : ℕ, rot_add (n + 2) ⟨fin 350, fin 0, fin 0⟩ ⟨fin 20, fin 0, fin 0⟩
        = some ⟨fin 10, fin 0, fin 0⟩) ∧
    (∀ n : ℕ, rot_add (n + 1) ⟨fin 0, fin 0, fin 0⟩ ⟨fin 0, fin 0, fin 0⟩
        = some ⟨fin 0, fin 0, fin 0⟩) ∧
    (∀ n : ℕ, rot_add (n + 1) ⟨fin 0, fin 0, fin 0⟩ ⟨fin 0, fin 0, fin (-30)⟩
        = some ⟨fin 0, fin 0, fin (-30)⟩) := by
  refine ⟨?_, ?_, ?_, ?_, ?_⟩
  · rw [rot_add_eq_some_iff, hx, hy, hz]
    exact ⟨rot_add_loop_fin x (isF32_of_add _ _ x hx) hbound.1 fuel hfuel.1,
      rot_add_loop_fin y (isF32_of_add _ _ y hy) hbound.2.1 fuel hfuel.2.1,
      rot_add_loop_fin z (isF32_of_add _ _ z hz) hbound.2.2 fuel hfuel.2.2⟩
  · intro c
    refine ⟨fun h => ?_, wraps_range c⟩
    rw [wraps_of_lt c h]
    simp
  · intro n
    exact rot_add_example_wrap (n + 2) (by omega)
  · intro n
    exact rot_add_example_zero (n + 1) (by omega)
  · intro n
    exact rot_add_example_negative (n + 1) (by omega)

/-- C8 at `rot_add((350,0,0), (20,0,0))`: the X sum is 370, one subtraction is made, and
the result is `(10,0,0)`. -/
theorem rot_add_wrap_witness :
    rot_add 2 ⟨fin 350, fin 0, fin 0⟩ ⟨fin 20, fin 0, fin 0⟩
      = some ⟨fin (370 - 360 * (wraps 370 : ℚ)), fin (0 - 360 * (wraps 0 : ℚ)),
          fin (0 - 360 * (wraps 0 : ℚ))⟩ ∧
    wraps 370 = 1 ∧ wraps 0 = 0 :=
  ⟨(rot_add_wrap ⟨fin 350, fin 0, fin 0⟩ ⟨fin 20, fin 0, fin 0⟩ 370 0 0
      (by
        have := add_fin_of_isF32 350 20 (by
          have := isF32_of_int 370 (by norm_num)
          norm_num at this ⊢
          exact this)
        norm_num at this
        exact this)
      (by
        have := add_fin_of_isF32 0 0 (by simpa using isF32_of_int 0 (by norm_num))
        simpa using this)
      (by
        have := add_fin_of_isF32 0 0 (by simpa using isF32_of_int 0 (by norm_num))
        simpa using this)
      ⟨by norm_num, by norm_num, by norm_num⟩ 2
      ⟨by rw [wraps_370]; norm_num, by rw [wraps_of_lt 0 (by norm_num)]; norm_num,
        by rw [wraps_of_lt 0 (by norm_num)]; norm_num⟩).1,
    wraps_370, wraps_of_lt 0 (by norm_num)⟩

/-- C8 as stated fails: the sum `(0,0,0) + (0,0,-30)` that Branch forms for child B is
returned with `Z = -30`, below 0; and from a sum of `2^34` the loop never ends, because
`2^34 - 360` rounds back to `2^34`. -/
theorem rot_add_not_wrapped :
    rot_add 1 ⟨fin 0, fin 0, fin 0⟩ ⟨fin 0, fin 0, fin (-30)⟩
        = some ⟨fin 0, fin 0, fin (-30)⟩ ∧
    ¬ ((0 : ℚ) ≤ -30) ∧
    (∀ fuel : ℕ, rot_add fuel ⟨fin (2 ^ 34), fin 0, fin 0⟩ ⟨fin 0, fin 0, fin 0⟩ = none) := by
  refine ⟨rot_add_example_negative 1 (le_refl 1), by norm_num, ?_⟩
  intro fuel
  have h : F32.add (fin (2 ^ 34)) (fin 0) = fin (2 ^ 34) := by
    have := add_fin_of_isF32 (2 ^ 34) 0 (by
      refine ⟨2 ^ 23, 160, by norm_num, by norm_num, by norm_num [abs_lt]⟩)
    simpa using this
  simp only [rot_add, h, rot_add_loop_absorbed]

end Float32

/-! ## Binary32: `pos_from_data` -/

namespace Float32
open F32

theorem radians_factor :
    F32.rnd (0.01745329251994329576923690768489 : ℚ) = fin (9370165 / 2 ^ 29) := by
  have h := rnd_eq_of_near (0.01745329251994329576923690768489 : ℚ) (-6) 9370165
    (by rw [abs_of_pos (by norm_num)]; norm_num)
    (by rw [abs_of_pos (by norm_num)]; norm_num)
    (by norm_num [abs_lt]) (by norm_num [abs_lt])
  rw [h]
  norm_num

theorem glm_radians_zero : glm_radians (fin 0) = fin 0 := by
  rw [glm_radians, radians_factor]
  show rnd ((0 : ℚ) * (9370165 / 2 ^ 29)) = fin 0
  rw [zero_mul]
  exact rnd_zero

theorem glm_radians_90 : glm_radians (fin 90) = fin (13176795 / 2 ^ 23) := by
  rw [glm_radians, radians_factor]
  show rnd ((90 : ℚ) * (9370165 / 2 ^ 29)) = fin (13176795 / 2 ^ 23)
  have h := rnd_eq_of_near ((90 : ℚ) * (9370165 / 2 ^ 29)) 0 13176795
    (by rw [abs_of_pos (by norm_num)]; norm_num)
    (by rw [abs_of_pos (by norm_num)]; norm_num)
    (by norm_num [abs_lt]) (by norm_num [abs_lt])
  rw [h]
  norm_num

/-- The float nearest to pi/2 exceeds pi/2 by `delta`, and `delta * 2^48` lies between
12303662.48 and 12303662.49. -/
theorem delta_bounds :
    (12303662 + 48 / 100 : ℝ) / 2 ^ 48 < (13176795 / 2 ^ 23 : ℝ) - Real.pi / 2 ∧
    (13176795 / 2 ^ 23 : ℝ) - Real.pi / 2 < (12303662 + 49 / 100 : ℝ) / 2 ^ 48 := by
  have h1 := Real.pi_gt_d20
  have h2 := Real.pi_lt_d20
  constructor
  · norm_num at h1 h2 ⊢; linarith
  · norm_num at h1 h2 ⊢; linarith

/-- The sine of that `delta`, scaled by `2^48`, lies between 12303662.47 and
12303662.49. -/
theorem sin_delta_bounds (δ : ℝ)
    (hlo : (12303662 + 48 / 100 : ℝ) / 2 ^ 48 < δ)
    (hhi : δ < (12303662 + 49 / 100 : ℝ) / 2 ^ 48) :
    (12303662 + 47 / 100 : ℝ) / 2 ^ 48 < Real.sin δ ∧
    Real.sin δ < (12303662 + 49 / 100 : ℝ) / 2 ^ 48 := by
  have hpos : 0 < δ := lt_trans (by norm_num) hlo
  have hδ1 : δ < 1 / 10000000 := lt_trans hhi (by norm_num)
  have hup : Real.sin δ < δ := Real.sin_lt hpos
  have hlow : δ - δ ^ 3 / 4 < Real.sin δ :=
    Real.sin_gt_sub_cube hpos (le_of_lt (lt_trans hδ1 (by norm_num)))
  have hcube : δ ^ 3 < 1 / 1000000000000000000000 := by
    have : δ ^ 3 < (1 / 10000000) ^ 3 := pow_lt_pow_left₀ hδ1 hpos.le (by norm_num)
    exact lt_of_lt_of_le this (by norm_num)
  constructor
  · have hgap : (12303662 + 47 / 100 : ℝ) / 2 ^ 48 + 1 / 1000000000000000000000
        < (12303662 + 48 / 100 : ℝ) / 2 ^ 48 := by norm_num
    linarith
  · exact lt_trans hup hhi

theorem cos_near_half_pi :
    F32.cos (fin (13176795 / 2 ^ 23)) = fin (-6151831 / 2 ^ 47) := by
  obtain ⟨hs1, hs2⟩ := sin_delta_bounds _ delta_bounds.1 delta_bounds.2
  generalize hδ : (13176795 / 2 ^ 23 : ℝ) - Real.pi / 2 = δ at hs1 hs2
  have hcos : Real.cos (13176795 / 2 ^ 23 : ℝ) = -Real.sin δ := by
    rw [← hδ, Real.sin_sub_pi_div_two, neg_neg]
  have hsin_pos : 0 < Real.sin δ := lt_trans (by norm_num) hs1
  show rnd (Real.cos (((13176795 / 2 ^ 23 : ℚ)) : ℝ)) = fin (-6151831 / 2 ^ 47)
  have hcast : (((13176795 / 2 ^ 23 : ℚ)) : ℝ) = (13176795 / 2 ^ 23 : ℝ) := by push_cast; rfl
  rw [hcast, hcos]
  have h := rnd_eq_of_near (-Real.sin δ) (-25) (-12303662)
    (by
      rw [abs_neg, abs_of_pos hsin_pos]
      have : (2 : ℝ) ^ (-25 : ℤ) < (12303662 + 47 / 100 : ℝ) / 2 ^ 48 := by norm_num
      exact le_of_lt (lt_trans this hs1))
    (by
      rw [abs_neg, abs_of_pos hsin_pos]
      have : (12303662 + 49 / 100 : ℝ) / 2 ^ 48 < (2 : ℝ) ^ (-25 + 1 : ℤ) := by norm_num
      exact lt_trans hs2 this)
    (by
      have hE : max ((-25 : ℤ) - 23) (-149) = -48 := by norm_num
      have hz : (2 : ℝ) ^ (-48 : ℤ) = 1 / 2 ^ 48 := by norm_num
      rw [hE, abs_lt, hz]
      have ha := hs2
      have hb := hs1
      rw [lt_div_iff₀ (by positivity)] at ha
      rw [div_lt_iff₀ (by positivity)] at hb
      have hdiv : -Real.sin δ / (1 / 2 ^ 48) = -(Real.sin δ * 2 ^ 48) := by
        field_simp
      rw [hdiv]
      push_cast
      constructor <;> linarith)
    (by norm_num [abs_lt])
  rw [h]
  norm_num

theorem sin_near_half_pi : F32.sin (fin (13176795 / 2 ^ 23)) = fin 1 := by
  have hlo := delta_bounds.1
  have hhi := delta_bounds.2
  generalize hδ : (13176795 / 2 ^ 23 : ℝ) - Real.pi / 2 = δ at hlo hhi
  have hsin : Real.sin (13176795 / 2 ^ 23 : ℝ) = Real.cos δ := by
    rw [← hδ, Real.cos_sub_pi_div_two]
  have hpos : 0 < δ := lt_trans (by norm_num) hlo
  have hδ1 : δ < 1 / 10000000 := lt_trans hhi (by norm_num)
  have hpi : (1 : ℝ) < Real.pi / 2 := by linarith [Real.pi_gt_three]
  have hlt1 : Real.cos δ < 1 := by
    have := Real.cos_lt_cos_of_nonneg_of_le_pi_div_two (le_refl (0 : ℝ))
      (le_of_lt (lt_trans hδ1 (lt_trans (by norm_num) hpi))) hpos
    simpa using this
  have hge : 1 - δ ^ 2 / 2 ≤ Real.cos δ := Real.one_sub_sq_div_two_le_cos
  have hsq : δ ^ 2 < 1 / 100000000000000 := by
    have : δ ^ 2 < (1 / 10000000) ^ 2 := pow_lt_pow_left₀ hδ1 hpos.le (by norm_num)
    exact lt_of_lt_of_le this (by norm_num)
  have hcos_lo : 1 - 1 / 100000000000000 < Real.cos δ := by linarith
  have hcos_pos : 0 < Real.cos δ := lt_trans (by norm_num) hcos_lo
  show rnd (Real.sin (((13176795 / 2 ^ 23 : ℚ)) : ℝ)) = fin 1
  have hcast : (((13176795 / 2 ^ 23 : ℚ)) : ℝ) = (13176795 / 2 ^ 23 : ℝ) := by push_cast; rfl
  rw [hcast, hsin]
  have h := rnd_eq_of_near (Real.cos δ) (-1) (2 ^ 24)
    (by
      rw [abs_of_pos hcos_pos]
      have : (2 : ℝ) ^ (-1 : ℤ) < 1 - 1 / 100000000000000 := by norm_num
      exact le_of_lt (lt_trans this hcos_lo))
    (by
      rw [abs_of_pos hcos_pos]
      simpa using hlt1)
    (by
      have hE : max ((-1 : ℤ) - 23) (-149) = -24 := by norm_num
      have hz : (2 : ℝ) ^ (-24 : ℤ) = 1 / 2 ^ 24 := by norm_num
      rw [hE, abs_lt, hz]
      have hdiv : Real.cos δ / (1 / 2 ^ 24) = Real.cos δ * 2 ^ 24 := by field_simp
      rw [hdiv]
      push_cast
      constructor <;> nlinarith)
    (by norm_num [abs_lt])
  rw [h]
  norm_num

theorem sin_zero : F32.sin (fin 0) = fin 0 := by
  show rnd (Real.sin ((0 : ℚ) : ℝ)) = fin 0
  rw [Rat.cast_zero, Real.sin_zero]
  exact rnd_zero

theorem cos_zero : F32.cos (fin 0) = fin 1 := by
  show rnd (Real.cos ((0 : ℚ) : ℝ)) = fin 1
  rw [Rat.cast_zero, Real.cos_zero]
  have h := rnd_eq_of_near (1 : ℝ) 0 (2 ^ 23) (by norm_num) (by norm_num)
    (by norm_num [abs_lt]) (by norm_num [abs_lt])
  rw [h]
  norm_num

/-- The product of the rounded cosine with 10 falls midway between two floats and goes to
the even one. -/
theorem mul_cos_ten :
    F32.mul (fin (-6151831 / 2 ^ 47)) (fin 10) = fin (-7689789 / 2 ^ 44) := by
  show rnd ((-6151831 / 2 ^ 47 : ℚ) * 10) = fin (-7689789 / 2 ^ 44)
  have h := rnd_eq_of_tie ((-6151831 / 2 ^ 47 : ℚ) * 10) (-22) (-15379578)
    (by rw [abs_of_neg (by norm_num)]; norm_num)
    (by rw [abs_of_neg (by norm_num)]; norm_num)
    (by norm_num) (by norm_num) (by norm_num [abs_lt])
  rw [h]
  norm_num

theorem pos_from_data_example_zero :
    pos_from_data ⟨fin 0, fin 0, fin 0⟩ ⟨fin 0, fin 0, fin 0⟩ (fin 10)
      = ⟨fin 0, fin 10, fin 0⟩ := by
  have h0 : F32.add (fin 0) (fin 0) = fin 0 := by
    have := add_fin_of_isF32 0 0 (by simpa using isF32_of_int 0 (by norm_num))
    simpa using this
  have hm0 : F32.mul (fin 0) (fin 10) = fin 0 := by
    have := mul_fin_of_isF32 0 10 (by simpa using isF32_of_int 0 (by norm_num))
    simpa using this
  have hm1 : F32.mul (fin 1) (fin 10) = fin 10 := by
    have := mul_fin_of_isF32 1 10 (by simpa using isF32_of_int 10 (by norm_num))
    simpa using this
  have h10 : F32.add (fin 0) (fin 10) = fin 10 := by
    have := add_fin_of_isF32 0 10 (by simpa using isF32_of_int 10 (by norm_num))
    simpa using this
  simp only [pos_from_data, glm_radians_zero, sin_zero, cos_zero, F32.neg, neg_zero, hm0, hm1,
    h0, h10]

theorem pos_from_data_example_90 :
    pos_from_data ⟨fin 0, fin 0, fin 0⟩ ⟨fin 0, fin 0, fin 90⟩ (fin 10)
      = ⟨fin (-10), fin (-7689789 / 2 ^ 44), fin 0⟩ := by
  have hm1 : F32.mul (fin (-1)) (fin 10) = fin (-10) := by
    have := mul_fin_of_isF32 (-1) 10 (by
      have := isF32_of_int (-10) (by norm_num)
      norm_num at this ⊢
      exact this)
    norm_num at this
    exact this
  have h10 : F32.add (fin 0) (fin (-10)) = fin (-10) := by
    have := add_fin_of_isF32 0 (-10) (by
      have := isF32_of_int (-10) (by norm_num)
      norm_num at this ⊢
      exact this)
    norm_num at this
    exact this
  have hy : F32.add (fin 0) (fin (-7689789 / 2 ^ 44)) = fin (-7689789 / 2 ^ 44) := by
    have := add_fin_of_isF32 0 (-15379578 / 2 ^ 45) (by
      refine ⟨-7689789, 105, by norm_num, by norm_num, by norm_num [abs_lt]⟩)
    norm_num at this ⊢
    exact this
  simp only [pos_from_data, glm_radians_90, sin_near_half_pi, cos_near_half_pi, F32.neg,
    mul_cos_ten, hm1, h10, hy]

theorem add_absorbs_one : F32.add (fin (2 ^ 27)) (fin 1) = fin (2 ^ 27) := by
  show rnd ((2 : ℚ) ^ 27 + 1) = fin (2 ^ 27)
  exact rnd_eval _ _ 27 (2 ^ 23) 4 (by norm_num) (by norm_num) (by norm_num) (by norm_num)
    (by norm_num) (by norm_num)

/-- C9, amended: in binary32, `pos_from_data(p, o, d)` is
`(p.x + (-sin(radians(o.z))) * d, p.y + cos(radians(o.z)) * d, p.z)` with every operation
rounded; it keeps `p.z` and does not depend on `o.x` or `o.y`.
`pos_from_data((0,0,0), (0,0,0), 10) = (0,10,0)` exactly, and
`pos_from_data((0,0,0), (0,0,90), 10) = (-10, -7689789 * 2^-44, 0)`, whose second
component is about `-4.37e-07`. -/
theorem pos_from_data_formula (p o : Vec3) (d : F32) :
    pos_from_data p o d
        = ⟨F32.add p.x (F32.mul (F32.neg (F32.sin (glm_radians o.z))) d),
           F32.add p.y (F32.mul (F32.cos (glm_radians o.z)) d), p.z⟩ ∧
    (pos_from_data p o d).z = p.z ∧
    (∀ ox oy : F32, pos_from_data p ⟨ox, oy, o.z⟩ d = pos_from_data p o d) ∧
    pos_from_data ⟨fin 0, fin 0, fin 0⟩ ⟨fin 0, fin 0, fin 0⟩ (fin 10)
        = ⟨fin 0, fin 10, fin 0⟩ ∧
    pos_from_data ⟨fin 0, fin 0, fin 0⟩ ⟨fin 0, fin 0, fin 90⟩ (fin 10)
        = ⟨fin (-10), fin (-7689789 / 2 ^ 44), fin 0⟩ := by
  exact ⟨rfl, rfl, fun _ _ => rfl, pos_from_data_example_zero, pos_from_data_example_90⟩

/-- C9 as stated fails: in binary32 `pos_from_data((0,0,0), (0,0,90), 10)` is not
`(-10,0,0)`, its second component being `-7689789 * 2^-44`, and its distance from the
origin is not 10; and from `p = (2^27, 2^27, 0)` with `o = (0,0,0)` and `d = 1` the result
is `p` itself, at distance 0. -/
theorem pos_from_data_inexact :
    pos_from_data ⟨fin 0, fin 0, fin 0⟩ ⟨fin 0, fin 0, fin 90⟩ (fin 10)
        = ⟨fin (-10), fin (-7689789 / 2 ^ 44), fin 0⟩ ∧
    pos_from_data ⟨fin 0, fin 0, fin 0⟩ ⟨fin 0, fin 0, fin 90⟩ (fin 10)
        ≠ ⟨fin (-10), fin 0, fin 0⟩ ∧
    ((-10 : ℚ) - 0) ^ 2 + ((-7689789 / 2 ^ 44 : ℚ) - 0) ^ 2 + ((0 : ℚ) - 0) ^ 2 ≠ 10 ^ 2 ∧
    pos_from_data ⟨fin (2 ^ 27), fin (2 ^ 27), fin 0⟩ ⟨fin 0, fin 0, fin 0⟩ (fin 1)
        = ⟨fin (2 ^ 27), fin (2 ^ 27), fin 0⟩ := by
  have h90 : pos_from_data ⟨fin 0, fin 0, fin 0⟩ ⟨fin 0, fin 0, fin 90⟩ (fin 10)
      = ⟨fin (-10), fin (-7689789 / 2 ^ 44), fin 0⟩ := pos_from_data_example_90
  refine ⟨h90, ?_, by norm_num, ?_⟩
  · rw [h90]
    intro h
    injection h with _ hy _
    injection hy with hq
    norm_num at hq
  · have hm0 : F32.mul (fin 0) (fin 1) = fin 0 := mul_zero_left 1
    have hm1 : F32.mul (fin 1) (fin 1) = fin 1 := mul_one_left 1 (by simpa using isF32_of_int 1 (by norm_num))
    have ha0 : F32.add (fin (2 ^ 27)) (fin 0) = fin (2 ^ 27) :=
      add_zero_right _ ⟨2 ^ 23, 153, by norm_num, by norm_num, by norm_num [abs_lt]⟩
    simp only [pos_from_data, glm_radians_zero, sin_zero, cos_zero, F32.neg, neg_zero, hm0,
      hm1, ha0, add_absorbs_one]

end Float32

/-! ## Binary32: the model matrix of the example

The operations met when the model matrix for unit scale, zero translation and the angles
`(90, 0, 90)` is computed and applied to `(1,2,3)`, each with its rounded result. -/

namespace F32

theorem isF32_p1 : IsF32 1 :=
  ⟨1, 149, by norm_num, by norm_num, by norm_num [abs_lt]⟩

theorem isF32_p0 : IsF32 0 :=
  ⟨0, 149, by norm_num, by norm_num, by norm_num [abs_lt]⟩

theorem isF32_n6151831_47 : IsF32 (-6151831 / 2 ^ 47) :=
  ⟨(-6151831), 102, by norm_num, by norm_num, by norm_num [abs_lt]⟩

theorem isF32_p16777215_24 : IsF32 (16777215 / 2 ^ 24) :=
  ⟨16777215, 125, by norm_num, by norm_num, by norm_num [abs_lt]⟩

theorem isF32_n1 : IsF32 (-1) :=
  ⟨(-1), 149, by norm_num, by norm_num, by norm_num [abs_lt]⟩

theorem isF32_n12303661_48 : IsF32 (-12303661 / 2 ^ 48) :=
  ⟨(-12303661), 101, by norm_num, by norm_num, by norm_num [abs_lt]⟩

theorem isF32_p6151831_47 : IsF32 (6151831 / 2 ^ 47) :=
  ⟨6151831, 102, by norm_num, by norm_num, by norm_num [abs_lt]⟩

theorem isF32_p9022957_72 : IsF32 (9022957 / 2 ^ 72) :=
  ⟨9022957, 77, by norm_num, by norm_num, by norm_num [abs_lt]⟩

theorem isF32_p16777215_23 : IsF32 (16777215 / 2 ^ 23) :=
  ⟨16777215, 126, by norm_num, by norm_num, by norm_num [abs_lt]⟩

theorem isF32_p3 : IsF32 3 :=
  ⟨3, 149, by norm_num, by norm_num, by norm_num [abs_lt]⟩

theorem isF32_p4613873_45 : IsF32 (4613873 / 2 ^ 45) :=
  ⟨4613873, 104, by norm_num, by norm_num, by norm_num [abs_lt]⟩

theorem isF32_n4613873_45 : IsF32 (-4613873 / 2 ^ 45) :=
  ⟨(-4613873), 104, by norm_num, by norm_num, by norm_num [abs_lt]⟩

theorem isF32_n16777215_24 : IsF32 (-16777215 / 2 ^ 24) :=
  ⟨(-16777215), 125, by norm_num, by norm_num, by norm_num [abs_lt]⟩

theorem isF32_n12582911_22 : IsF32 (-12582911 / 2 ^ 22) :=
  ⟨(-12582911), 127, by norm_num, by norm_num, by norm_num [abs_lt]⟩

theorem isF32_n16777215_23 : IsF32 (-16777215 / 2 ^ 23) :=
  ⟨(-16777215), 126, by norm_num, by norm_num, by norm_num [abs_lt]⟩

theorem div_eval1 : F32.div (fin 1) (fin 1) = fin 1 := by
  rw [div_fin 1 1 (by norm_num)]
  exact rnd_eval _ _ 0 8388608 (-23) (by norm_num) (by norm_num) (by norm_num) (by norm_num)
    (by norm_num) (by norm_num)

theorem sub_eval1 : F32.sub (fin 1) (fin (-6151831 / 2 ^ 47)) = fin 1 := by
  show rnd ((1 : ℚ) + -((-6151831 / 2 ^ 47) : ℚ)) = fin 1
  exact rnd_eval _ _ 0 8388608 (-23) (by norm_num) (by norm_num) (by norm_num) (by norm_num)
    (by norm_num) (by norm_num)

theorem add_eval1 : F32.add (fin (-6151831 / 2 ^ 47)) (fin 1) = fin (16777215 / 2 ^ 24) := by
  show rnd (((-6151831 / 2 ^ 47) : ℚ) + (1 : ℚ)) = fin (16777215 / 2 ^ 24)
  exact rnd_eval _ _ (-1) 16777215 (-24) (by norm_num) (by norm_num) (by norm_num) (by norm_num)
    (by norm_num) (by norm_num)

theorem sub_eval2 : F32.sub (fin 0) (fin 1) = fin (-1) := by
  show rnd ((0 : ℚ) + -(1 : ℚ)) = fin (-1)
  exact rnd_eval _ _ 0 (-8388608) (-23) (by norm_num) (by norm_num) (by norm_num) (by norm_num)
    (by norm_num) (by norm_num)

theorem sub_eval3 : F32.sub (fin 1) (fin 1) = fin 0 := by
  show rnd ((1 : ℚ) + -(1 : ℚ)) = fin 0
  rw [show (1 : ℚ) + -(1 : ℚ) = (0 : ℚ) by norm_num]
  exact rnd_zero

theorem mul_eval1 : F32.mul (fin (-6151831 / 2 ^ 47)) (fin (16777215 / 2 ^ 24)) = fin (-12303661 / 2 ^ 48) := by
  show rnd (((-6151831 / 2 ^ 47) : ℚ) * ((16777215 / 2 ^ 24) : ℚ)) = fin (-12303661 / 2 ^ 48)
  exact rnd_eval _ _ (-25) (-12303661) (-48) (by norm_num) (by norm_num) (by norm_num) (by norm_num)
    (by norm_num) (by norm_num)

theorem mul_eval2 : F32.mul (fin (-1)) (fin (-6151831 / 2 ^ 47)) = fin (6151831 / 2 ^ 47) := by
  show rnd (((-1) : ℚ) * ((-6151831 / 2 ^ 47) : ℚ)) = fin (6151831 / 2 ^ 47)
  exact rnd_eval _ _ (-25) 12303662 (-48) (by norm_num) (by norm_num) (by norm_num) (by norm_num)
    (by norm_num) (by norm_num)

theorem mul_eval3 : F32.mul (fin (-6151831 / 2 ^ 47)) (fin (-6151831 / 2 ^ 47)) = fin (9022957 / 2 ^ 72) := by
  show rnd (((-6151831 / 2 ^ 47) : ℚ) * ((-6151831 / 2 ^ 47) : ℚ)) = fin (9022957 / 2 ^ 72)
  exact rnd_eval _ _ (-49) 9022957 (-72) (by norm_num) (by norm_num) (by norm_num) (by norm_num)
    (by norm_num) (by norm_num)

theorem mul_eval4 : F32.mul (fin (-1)) (fin (-1)) = fin 1 := by
  show rnd (((-1) : ℚ) * ((-1) : ℚ)) = fin 1
  exact rnd_eval _ _ 0 8388608 (-23) (by norm_num) (by norm_num) (by norm_num) (by norm_num)
    (by norm_num) (by norm_num)

theorem mul_eval5 : F32.mul (fin (-6151831 / 2 ^ 47)) (fin (-1)) = fin (6151831 / 2 ^ 47) := by
  show rnd (((-6151831 / 2 ^ 47) : ℚ) * ((-1) : ℚ)) = fin (6151831 / 2 ^ 47)
  exact rnd_eval _ _ (-25) 12303662 (-48) (by norm_num) (by norm_num) (by norm_num) (by norm_num)
    (by norm_num) (by norm_num)

theorem mul_eval6 : F32.mul (fin (16777215 / 2 ^ 24)) (fin (-6151831 / 2 ^ 47)) = fin (-12303661 / 2 ^ 48) := by
  show rnd (((16777215 / 2 ^ 24) : ℚ) * ((-6151831 / 2 ^ 47) : ℚ)) = fin (-12303661 / 2 ^ 48)
  exact rnd_eval _ _ (-25) (-12303661) (-48) (by norm_num) (by norm_num) (by norm_num) (by norm_num)
    (by norm_num) (by norm_num)

theorem mul_eval7 : F32.mul (fin (6151831 / 2 ^ 47)) (fin 2) = fin (6151831 / 2 ^ 46) := by
  show rnd (((6151831 / 2 ^ 47) : ℚ) * (2 : ℚ)) = fin (6151831 / 2 ^ 46)
  exact rnd_eval _ _ (-24) 12303662 (-47) (by norm_num) (by norm_num) (by norm_num) (by norm_num)
    (by norm_num) (by norm_num)

theorem mul_eval8 : F32.mul (fin (9022957 / 2 ^ 72)) (fin 2) = fin (9022957 / 2 ^ 71) := by
  show rnd (((9022957 / 2 ^ 72) : ℚ) * (2 : ℚ)) = fin (9022957 / 2 ^ 71)
  exact rnd_eval _ _ (-48) 9022957 (-71) (by norm_num) (by norm_num) (by norm_num) (by norm_num)
    (by norm_num) (by norm_num)

theorem mul_eval9 : F32.mul (fin (16777215 / 2 ^ 24)) (fin 2) = fin (16777215 / 2 ^ 23) := by
  show rnd (((16777215 / 2 ^ 24) : ℚ) * (2 : ℚ)) = fin (16777215 / 2 ^ 23)
  exact rnd_eval _ _ 0 16777215 (-23) (by norm_num) (by norm_num) (by norm_num) (by norm_num)
    (by norm_num) (by norm_num)

theorem add_eval2 : F32.add (fin (-12303661 / 2 ^ 48)) (fin (6151831 / 2 ^ 46)) = fin (12303663 / 2 ^ 48) := by
  show rnd (((-12303661 / 2 ^ 48) : ℚ) + ((6151831 / 2 ^ 46) : ℚ)) = fin (12303663 / 2 ^ 48)
  exact rnd_eval _ _ (-25) 12303663 (-48) (by norm_num) (by norm_num) (by norm_num) (by norm_num)
    (by norm_num) (by norm_num)

theorem add_eval3 : F32.add (fin (16777215 / 2 ^ 24)) (fin (9022957 / 2 ^ 71)) = fin (16777215 / 2 ^ 24) := by
  show rnd (((16777215 / 2 ^ 24) : ℚ) + ((9022957 / 2 ^ 71) : ℚ)) = fin (16777215 / 2 ^ 24)
  exact rnd_eval _ _ (-1) 16777215 (-24) (by norm_num) (by norm_num) (by norm_num) (by norm_num)
    (by norm_num) (by norm_num)

theorem mul_eval10 : F32.mul (fin (6151831 / 2 ^ 47)) (fin 3) = fin (4613873 / 2 ^ 45) := by
  show rnd (((6151831 / 2 ^ 47) : ℚ) * (3 : ℚ)) = fin (4613873 / 2 ^ 45)
  exact rnd_eval_tie _ _ (-23) 9227746 (-46) (by norm_num) (by norm_num) (by norm_num) (by norm_num)
    (by norm_num) (by norm_num) (by norm_num)

theorem mul_eval11 : F32.mul (fin (-12303661 / 2 ^ 48)) (fin 3) = fin (-4613873 / 2 ^ 45) := by
  show rnd (((-12303661 / 2 ^ 48) : ℚ) * (3 : ℚ)) = fin (-4613873 / 2 ^ 45)
  exact rnd_eval _ _ (-23) (-9227746) (-46) (by norm_num) (by norm_num) (by norm_num) (by norm_num)
    (by norm_num) (by norm_num)

theorem add_eval4 : F32.add (fin (12303663 / 2 ^ 48)) (fin 3) = fin 3 := by
  show rnd (((12303663 / 2 ^ 48) : ℚ) + (3 : ℚ)) = fin 3
  exact rnd_eval _ _ 1 12582912 (-22) (by norm_num) (by norm_num) (by norm_num) (by norm_num)
    (by norm_num) (by norm_num)

theorem add_eval5 : F32.add (fin (16777215 / 2 ^ 24)) (fin (4613873 / 2 ^ 45)) = fin (8388609 / 2 ^ 23) := by
  show rnd (((16777215 / 2 ^ 24) : ℚ) + ((4613873 / 2 ^ 45) : ℚ)) = fin (8388609 / 2 ^ 23)
  exact rnd_eval _ _ 0 8388609 (-23) (by norm_num) (by norm_num) (by norm_num) (by norm_num)
    (by norm_num) (by norm_num)

theorem add_eval6 : F32.add (fin (16777215 / 2 ^ 23)) (fin (-4613873 / 2 ^ 45)) = fin (8388607 / 2 ^ 22) := by
  show rnd (((16777215 / 2 ^ 23) : ℚ) + ((-4613873 / 2 ^ 45) : ℚ)) = fin (8388607 / 2 ^ 22)
  exact rnd_eval _ _ 0 16777214 (-23) (by norm_num) (by norm_num) (by norm_num) (by norm_num)
    (by norm_num) (by norm_num)

theorem mul_eval12 : F32.mul (fin (16777215 / 2 ^ 24)) (fin (-1)) = fin (-16777215 / 2 ^ 24) := by
  show rnd (((16777215 / 2 ^ 24) : ℚ) * ((-1) : ℚ)) = fin (-16777215 / 2 ^ 24)
  exact rnd_eval _ _ (-1) (-16777215) (-24) (by norm_num) (by norm_num) (by norm_num) (by norm_num)
    (by norm_num) (by norm_num)

theorem mul_eval13 : F32.mul (fin (-1)) (fin (16777215 / 2 ^ 24)) = fin (-16777215 / 2 ^ 24) := by
  show rnd (((-1) : ℚ) * ((16777215 / 2 ^ 24) : ℚ)) = fin (-16777215 / 2 ^ 24)
  exact rnd_eval _ _ (-1) (-16777215) (-24) (by norm_num) (by norm_num) (by norm_num) (by norm_num)
    (by norm_num) (by norm_num)

theorem mul_eval14 : F32.mul (fin (-16777215 / 2 ^ 24)) (fin 2) = fin (-16777215 / 2 ^ 23) := by
  show rnd (((-16777215 / 2 ^ 24) : ℚ) * (2 : ℚ)) = fin (-16777215 / 2 ^ 23)
  exact rnd_eval _ _ 0 (-16777215) (-23) (by norm_num) (by norm_num) (by norm_num) (by norm_num)
    (by norm_num) (by norm_num)

theorem mul_eval15 : F32.mul (fin (-6151831 / 2 ^ 47)) (fin 2) = fin (-6151831 / 2 ^ 46) := by
  show rnd (((-6151831 / 2 ^ 47) : ℚ) * (2 : ℚ)) = fin (-6151831 / 2 ^ 46)
  exact rnd_eval _ _ (-24) (-12303662) (-47) (by norm_num) (by norm_num) (by norm_num) (by norm_num)
    (by norm_num) (by norm_num)

theorem add_eval7 : F32.add (fin (-12303661 / 2 ^ 48)) (fin (-16777215 / 2 ^ 23)) = fin (-16777215 / 2 ^ 23) := by
  show rnd (((-12303661 / 2 ^ 48) : ℚ) + ((-16777215 / 2 ^ 23) : ℚ)) = fin (-16777215 / 2 ^ 23)
  exact rnd_eval _ _ 0 (-16777215) (-23) (by norm_num) (by norm_num) (by norm_num) (by norm_num)
    (by norm_num) (by norm_num)

theorem add_eval8 : F32.add (fin (-6151831 / 2 ^ 47)) (fin (9022957 / 2 ^ 71)) = fin (-12303661 / 2 ^ 48) := by
  show rnd (((-6151831 / 2 ^ 47) : ℚ) + ((9022957 / 2 ^ 71) : ℚ)) = fin (-12303661 / 2 ^ 48)
  exact rnd_eval _ _ (-25) (-12303661) (-48) (by norm_num) (by norm_num) (by norm_num) (by norm_num)
    (by norm_num) (by norm_num)

theorem add_eval9 : F32.add (fin 1) (fin (-6151831 / 2 ^ 46)) = fin (16777215 / 2 ^ 24) := by
  show rnd ((1 : ℚ) + ((-6151831 / 2 ^ 46) : ℚ)) = fin (16777215 / 2 ^ 24)
  exact rnd_eval _ _ (-1) 16777215 (-24) (by norm_num) (by norm_num) (by norm_num) (by norm_num)
    (by norm_num) (by norm_num)

theorem mul_eval16 : F32.mul (fin (-16777215 / 2 ^ 24)) (fin 3) = fin (-12582911 / 2 ^ 22) := by
  show rnd (((-16777215 / 2 ^ 24) : ℚ) * (3 : ℚ)) = fin (-12582911 / 2 ^ 22)
  exact rnd_eval _ _ 1 (-12582911) (-22) (by norm_num) (by norm_num) (by norm_num) (by norm_num)
    (by norm_num) (by norm_num)

theorem add_eval10 : F32.add (fin (-12303661 / 2 ^ 48)) (fin (-12582911 / 2 ^ 22)) = fin (-12582911 / 2 ^ 22) := by
  show rnd (((-12303661 / 2 ^ 48) : ℚ) + ((-12582911 / 2 ^ 22) : ℚ)) = fin (-12582911 / 2 ^ 22)
  exact rnd_eval _ _ 1 (-12582911) (-22) (by norm_num) (by norm_num) (by norm_num) (by norm_num)
    (by norm_num) (by norm_num)

theorem add_eval11 : F32.add (fin (16777215 / 2 ^ 24)) (fin (-4613873 / 2 ^ 45)) = fin (16777213 / 2 ^ 24) := by
  show rnd (((16777215 / 2 ^ 24) : ℚ) + ((-4613873 / 2 ^ 45) : ℚ)) = fin (16777213 / 2 ^ 24)
  exact rnd_eval _ _ (-1) 16777213 (-24) (by norm_num) (by norm_num) (by norm_num) (by norm_num)
    (by norm_num) (by norm_num)

end F32

namespace Float32
open F32

theorem cos_90 : F32.cos (glm_radians (fin 90)) = fin (-6151831 / 2 ^ 47) := by
  rw [glm_radians_90, cos_near_half_pi]

theorem sin_90 : F32.sin (glm_radians (fin 90)) = fin 1 := by
  rw [glm_radians_90, sin_near_half_pi]

theorem cos_0 : F32.cos (glm_radians (fin 0)) = fin 1 := by
  rw [glm_radians_zero, cos_zero]

theorem sin_0 : F32.sin (glm_radians (fin 0)) = fin 0 := by
  rw [glm_radians_zero, sin_zero]

theorem modelView_example :
    modelView ⟨fin 1, fin 1, fin 1⟩ (fin 90) (fin 0) (fin 90) ⟨fin 0, fin 0, fin 0⟩
      = ⟨⟨fin (-12303661 / 2 ^ 48), fin (16777215 / 2 ^ 24), fin 0, fin 0⟩,
         ⟨fin (6151831 / 2 ^ 47), fin (9022957 / 2 ^ 72), fin (16777215 / 2 ^ 24), fin 0⟩,
         ⟨fin 1, fin (6151831 / 2 ^ 47), fin (-12303661 / 2 ^ 48), fin 0⟩,
         ⟨fin 0, fin 0, fin 0, fin 1⟩⟩ := by
  simp only [modelView, glm_scale, glm_translate, glm_rotate, glm_normalize, glm_dot, identity,
    Mat4.mul, Mat4.mulColumn, Vec4.scale, Vec4.add, Vec3.scale, cos_90, sin_90, cos_0, sin_0,
    F32.sqrt_one, mul_zero_left, mul_zero_right, mul_one_left, mul_one_right, add_zero_left,
    add_zero_right, sub_zero_right, isF32_p1, isF32_p0, isF32_n6151831_47, isF32_p16777215_24, isF32_n1, isF32_n12303661_48, isF32_p6151831_47, isF32_p9022957_72, isF32_p16777215_23, isF32_p3, isF32_p4613873_45, isF32_n4613873_45, isF32_n16777215_24, isF32_n12582911_22, isF32_n16777215_23, div_eval1, sub_eval1, add_eval1, sub_eval2, sub_eval3, mul_eval1, mul_eval2, mul_eval3, mul_eval4, mul_eval5, mul_eval6, mul_eval7, mul_eval8, mul_eval9, add_eval2, add_eval3, mul_eval10, mul_eval11, add_eval4, add_eval5, add_eval6, mul_eval12, mul_eval13, mul_eval14, mul_eval15, add_eval7, add_eval8, add_eval9, mul_eval16, add_eval10, add_eval11]

theorem modelView_example_point :
    (modelView ⟨fin 1, fin 1, fin 1⟩ (fin 90) (fin 0) (fin 90) ⟨fin 0, fin 0, fin 0⟩).mulVec
        ⟨fin 1, fin 2, fin 3, fin 1⟩
      = ⟨fin 3, fin (8388609 / 2 ^ 23), fin (8388607 / 2 ^ 22), fin 1⟩ := by
  rw [modelView_example]
  simp only [Mat4.mulVec, Vec4.scale, Vec4.add, mul_zero_left, mul_zero_right, mul_one_left,
    mul_one_right, add_zero_left, add_zero_right, sub_zero_right, isF32_p1, isF32_p0, isF32_n6151831_47, isF32_p16777215_24, isF32_n1, isF32_n12303661_48, isF32_p6151831_47, isF32_p9022957_72, isF32_p16777215_23, isF32_p3, isF32_p4613873_45, isF32_n4613873_45, isF32_n16777215_24, isF32_n12582911_22, isF32_n16777215_23, div_eval1, sub_eval1, add_eval1, sub_eval2, sub_eval3, mul_eval1, mul_eval2, mul_eval3, mul_eval4, mul_eval5, mul_eval6, mul_eval7, mul_eval8, mul_eval9, add_eval2, add_eval3, mul_eval10, mul_eval11, add_eval4, add_eval5, add_eval6, mul_eval12, mul_eval13, mul_eval14, mul_eval15, add_eval7, add_eval8, add_eval9, mul_eval16, add_eval10, add_eval11]

theorem modelViewReversed_example :
    modelViewReversed ⟨fin 1, fin 1, fin 1⟩ (fin 90) (fin 0) (fin 90) ⟨fin 0, fin 0, fin 0⟩
      = ⟨⟨fin (-12303661 / 2 ^ 48), fin (-6151831 / 2 ^ 47), fin 1, fin 0⟩,
         ⟨fin (-16777215 / 2 ^ 24), fin (9022957 / 2 ^ 72), fin (-6151831 / 2 ^ 47), fin 0⟩,
         ⟨fin 0, fin (-16777215 / 2 ^ 24), fin (-12303661 / 2 ^ 48), fin 0⟩,
         ⟨fin 0, fin 0, fin 0, fin 1⟩⟩ := by
  simp only [modelViewReversed, glm_scale, glm_translate, glm_rotate, glm_normalize, glm_dot,
    identity, Mat4.mul, Mat4.mulColumn, Vec4.scale, Vec4.add, Vec3.scale, cos_90, sin_90,
    cos_0, sin_0, F32.sqrt_one, mul_zero_left, mul_zero_right, mul_one_left, mul_one_right,
    add_zero_left, add_zero_right, sub_zero_right, isF32_p1, isF32_p0, isF32_n6151831_47, isF32_p16777215_24, isF32_n1, isF32_n12303661_48, isF32_p6151831_47, isF32_p9022957_72, isF32_p16777215_23, isF32_p3, isF32_p4613873_45, isF32_n4613873_45, isF32_n16777215_24, isF32_n12582911_22, isF32_n16777215_23, div_eval1, sub_eval1, add_eval1, sub_eval2, sub_eval3, mul_eval1, mul_eval2, mul_eval3, mul_eval4, mul_eval5, mul_eval6, mul_eval7, mul_eval8, mul_eval9, add_eval2, add_eval3, mul_eval10, mul_eval11, add_eval4, add_eval5, add_eval6, mul_eval12, mul_eval13, mul_eval14, mul_eval15, add_eval7, add_eval8, add_eval9, mul_eval16, add_eval10, add_eval11]

theorem modelViewReversed_example_point :
    (modelViewReversed ⟨fin 1, fin 1, fin 1⟩ (fin 90) (fin 0) (fin 90)
        ⟨fin 0, fin 0, fin 0⟩).mulVec ⟨fin 1, fin 2, fin 3, fin 1⟩
      = ⟨fin (-16777215 / 2 ^ 23), fin (-12582911 / 2 ^ 22), fin (16777213 / 2 ^ 24),
         fin 1⟩ := by
  rw [modelViewReversed_example]
  simp only [Mat4.mulVec, Vec4.scale, Vec4.add, mul_zero_left, mul_zero_right, mul_one_left,
    mul_one_right, add_zero_left, add_zero_right, sub_zero_right, isF32_p1, isF32_p0, isF32_n6151831_47, isF32_p16777215_24, isF32_n1, isF32_n12303661_48, isF32_p6151831_47, isF32_p9022957_72, isF32_p16777215_23, isF32_p3, isF32_p4613873_45, isF32_n4613873_45, isF32_n16777215_24, isF32_n12582911_22, isF32_n16777215_23, div_eval1, sub_eval1, add_eval1, sub_eval2, sub_eval3, mul_eval1, mul_eval2, mul_eval3, mul_eval4, mul_eval5, mul_eval6, mul_eval7, mul_eval8, mul_eval9, add_eval2, add_eval3, mul_eval10, mul_eval11, add_eval4, add_eval5, add_eval6, mul_eval12, mul_eval13, mul_eval14, mul_eval15, add_eval7, add_eval8, add_eval9, mul_eval16, add_eval10, add_eval11]

theorem example_points_differ :
    (⟨fin 3, fin (8388609 / 2 ^ 23), fin (8388607 / 2 ^ 22), fin 1⟩ : Vec4)
      ≠ ⟨fin (-16777215 / 2 ^ 23), fin (-12582911 / 2 ^ 22), fin (16777213 / 2 ^ 24),
          fin 1⟩ := by
  intro h
  injection h with hx _ _ _
  injection hx with hq
  norm_num at hq

/-- C2 as stated fails: in binary32, for unit scale, zero translation, `rx = 90`, `ry = 0`,
`rz = 90`, the matrix that `SetTransformations` uploads as `model` has `cos` entries of about
`-4.37e-08` where the exact rotation has 0, and it maps `(1,2,3)` to
`(3, 1 + 2^-23, 2 - 2^-22)`, that is `(3, 1.00000012, 1.99999976)`, not to `(3,1,2)`. -/
theorem modelView_point_inexact :
    SetTransformations ⟨true, [], []⟩ ⟨fin 1, fin 1, fin 1⟩ (fin 90) (fin 0) (fin 90)
        ⟨fin 0, fin 0, fin 0⟩
      = [("model",
          ⟨⟨fin (-12303661 / 2 ^ 48), fin (16777215 / 2 ^ 24), fin 0, fin 0⟩,
           ⟨fin (6151831 / 2 ^ 47), fin (9022957 / 2 ^ 72), fin (16777215 / 2 ^ 24), fin 0⟩,
           ⟨fin 1, fin (6151831 / 2 ^ 47), fin (-12303661 / 2 ^ 48), fin 0⟩,
           ⟨fin 0, fin 0, fin 0, fin 1⟩⟩)] ∧
    (modelView ⟨fin 1, fin 1, fin 1⟩ (fin 90) (fin 0) (fin 90) ⟨fin 0, fin 0, fin 0⟩).mulVec
        ⟨fin 1, fin 2, fin 3, fin 1⟩
      = ⟨fin 3, fin (8388609 / 2 ^ 23), fin (8388607 / 2 ^ 22), fin 1⟩ ∧
    (modelView ⟨fin 1, fin 1, fin 1⟩ (fin 90) (fin 0) (fin 90) ⟨fin 0, fin 0, fin 0⟩).mulVec
        ⟨fin 1, fin 2, fin 3, fin 1⟩
      ≠ ⟨fin 3, fin 1, fin 2, fin 1⟩ := by
  refine ⟨?_, modelView_example_point, ?_⟩
  · rw [← modelView_example]
    rfl
  · rw [modelView_example_point]
    intro h
    injection h with _ hy _ _
    injection hy with hq
    norm_num at hq

end Float32

/-! ## The model matrix, in exact arithmetic and in binary32 -/

/-- C2, amended: with a shader manager attached, `SetTransformations` uploads as the uniform
`model` the product `Translation(T) * RotationZ(rz) * RotationY(ry) * RotationX(rx) *
Scale(S)`, in exact arithmetic and, with glm's float products taken left to right, in
binary32; in exact arithmetic the product maps a point by scaling it, rotating it about X,
then Y, then Z, and translating it. In binary32, with unit scale, zero translation, `rx = 90`,
`ry = 0`, `rz = 90`, the uploaded matrix maps `(1,2,3)` to `(3, 1 + 2^-23, 2 - 2^-22)`,
about `(3, 1.00000012, 1.99999976)`, whereas the reversed rotation order `Rx * Ry * Rz`
maps it to `(-2 + 2^-23, -3 + 2^-22, 1 - 3 * 2^-24)`, about
`(-1.99999988, -2.99999976, 0.99999982)`: the order matters. -/
theorem SetTransformations_model_matrix (s : SceneManager) (S : Vec3) (rx ry rz : ℝ)
    (T : Vec3) (h : s.m_pShaderManager = true) :
    s.SetTransformations S rx ry rz T
        = [GLCall.setMat4Value "model"
            (glm_translate T * RotationZ rz * RotationY ry * RotationX rx * glm_scale S)] ∧
    (∀ p : Vec3,
      (glm_translate T * RotationZ rz * RotationY ry * RotationX rx * glm_scale S).mulVec
          p.toPoint
        = (translatePoint T (rotatePointZ rz (rotatePointY ry (rotatePointX rx
            (scalePoint S p))))).toPoint) ∧
    (∀ (S' T' : Float32.Vec3) (rx' ry' rz' : F32),
      Float32.SetTransformations s S' rx' ry' rz' T'
        = [("model",
            ((((Float32.glm_translate T').mul
                (Float32.glm_rotate (Float32.glm_radians rz')
                  ⟨F32.fin 0, F32.fin 0, F32.fin 1⟩)).mul
                (Float32.glm_rotate (Float32.glm_radians ry')
                  ⟨F32.fin 0, F32.fin 1, F32.fin 0⟩)).mul
                (Float32.glm_rotate (Float32.glm_radians rx')
                  ⟨F32.fin 1, F32.fin 0, F32.fin 0⟩)).mul
              (Float32.glm_scale S'))]) ∧
    (Float32.modelView ⟨F32.fin 1, F32.fin 1, F32.fin 1⟩ (F32.fin 90) (F32.fin 0) (F32.fin 90)
        ⟨F32.fin 0, F32.fin 0, F32.fin 0⟩).mulVec ⟨F32.fin 1, F32.fin 2, F32.fin 3, F32.fin 1⟩
      = ⟨F32.fin 3, F32.fin (8388609 / 2 ^ 23), F32.fin (8388607 / 2 ^ 22), F32.fin 1⟩ ∧
    (Float32.modelViewReversed ⟨F32.fin 1, F32.fin 1, F32.fin 1⟩ (F32.fin 90) (F32.fin 0)
        (F32.fin 90) ⟨F32.fin 0, F32.fin 0, F32.fin 0⟩).mulVec
          ⟨F32.fin 1, F32.fin 2, F32.fin 3, F32.fin 1⟩
      = ⟨F32.fin (-16777215 / 2 ^ 23), F32.fin (-12582911 / 2 ^ 22),
          F32.fin (16777213 / 2 ^ 24), F32.fin 1⟩ ∧
    (Float32.modelView ⟨F32.fin 1, F32.fin 1, F32.fin 1⟩ (F32.fin 90) (F32.fin 0) (F32.fin 90)
        ⟨F32.fin 0, F32.fin 0, F32.fin 0⟩).mulVec ⟨F32.fin 1, F32.fin 2, F32.fin 3, F32.fin 1⟩
      ≠ (Float32.modelViewReversed ⟨F32.fin 1, F32.fin 1, F32.fin 1⟩ (F32.fin 90) (F32.fin 0)
          (F32.fin 90) ⟨F32.fin 0, F32.fin 0, F32.fin 0⟩).mulVec
            ⟨F32.fin 1, F32.fin 2, F32.fin 3, F32.fin 1⟩ := by
  refine ⟨SetTransformations_eq s S rx ry rz T h, fun p => model_mulVec S rx ry rz T p, ?_,
    Float32.modelView_example_point, Float32.modelViewReversed_example_point, ?_⟩
  · intro S' T' rx' ry' rz'
    simp only [Float32.SetTransformations, h, if_true, g_ModelName, Float32.modelView]
  rw [Float32.modelView_example_point, Float32.modelViewReversed_example_point]
  exact Float32.example_points_differ

/-- C2 for a manager with a shader attached, scale `(2,3,4)`, angles `(10,20,30)` and
translation `(5,6,7)`. -/
theorem SetTransformations_model_matrix_witness :
    SceneManager.SetTransformations ⟨true, [], []⟩ ⟨2, 3, 4⟩ 10 20 30 ⟨5, 6, 7⟩
      = [GLCall.setMat4Value "model"
          (glm_translate ⟨5, 6, 7⟩ * RotationZ 30 * RotationY 20 * RotationX 10
            * glm_scale ⟨2, 3, 4⟩)] :=
  (SetTransformations_model_matrix ⟨true, [], []⟩ ⟨2, 3, 4⟩ 10 20 30 ⟨5, 6, 7⟩ rfl).1
